import Mathlib

/-!
# PortfolioGame: the simulation core of `assets/js/game-mode.js`

A shallow embedding of the game loop of the portfolio "game mode": world
generation, one update tick, the key handlers, death and respawn.

Conventions of the embedding.

* JavaScript numbers are modelled by exact rationals (`ℚ`); `Math.max`,
  `Math.min`, `Math.abs` and `Math.floor` are `max`, `min`, `abs` and
  `Rat.floor`.
* Every call of `Math.random()` is an explicit argument: a record of draws
  names one field per call, in the order of the calls.  A draw is *valid*
  when it lies in `[0, 1)`.
* `this.keys` is the list of the keys whose entry is `true`.
* Of the DOM only the `.info-panel` element is kept: whether it carries the
  class `active`, and which content was written to it last.
* Optional object properties (`door`, `label`, `icon`, ...) are `Option`s;
  `truthy` is the JavaScript truth value of such a property.
-/

namespace PortfolioGame

/-! ## Data model -/

/-- Truth value of an optional string property: `undefined`, `null` and the
empty string are falsy. -/
def truthy : Option String → Bool
  | none => false
  | some s => s != ""

/-- The object `this.player`. `velocityX` is only ever written by `respawn`. -/
structure Player where
  x : ℚ
  y : ℚ
  width : ℚ
  height : ℚ
  speed : ℚ
  velocityY : ℚ
  gravity : ℚ
  jumpPower : ℚ
  isJumping : Bool
  direction : String
  velocityX : Option ℚ
deriving DecidableEq

/-- An entry of `this.platforms`. -/
structure Platform where
  x : ℚ
  y : ℚ
  width : ℚ
  height : ℚ
  color : Option String
  type : Option String
  texture : Option String
  label : Option String
  door : Option String
  icon : Option String
deriving DecidableEq

/-- An entry of `this.floatingCoins`. -/
structure Coin where
  x : ℚ
  y : ℚ
  width : ℚ
  height : ℚ
  collected : Bool
deriving DecidableEq

/-- An entry of `this.clouds`. -/
structure Cloud where
  x : ℚ
  y : ℚ
  width : ℚ
  height : ℚ
deriving DecidableEq

/-- The figures `handleDeath` writes on the death screen. -/
structure DeathStats where
  message : Option String
  distance : ℤ
  coins : ℕ
  score : ℤ
deriving DecidableEq

/-- What was last written to the `.info-panel` element. -/
inductive PanelContent where
  | page
  | info (key : String)
  | death (stats : DeathStats)
deriving DecidableEq

/-- The fields of a `PortfolioGame` instance, with the canvas size and the
state of the `.info-panel` element. -/
structure GameState where
  canvasWidth : ℚ
  canvasHeight : ℚ
  isActive : Bool
  player : Player
  keys : List String
  currentRoom : String
  coins : ℕ
  distance : ℚ
  isDead : Bool
  cameraX : ℚ
  frame : ℕ
  floatingCoins : List Coin
  clouds : List Cloud
  platforms : List Platform
  lastPlatformX : ℚ
  activePanel : Option String
  panelActive : Bool
  panelContent : PanelContent
deriving DecidableEq

/-! ## Random draws -/

/-- The six `Math.random()` calls of one `generateNewPlatform`, in order. -/
structure PlatformDraws where
  gap : ℚ
  y : ℚ
  width : ℚ
  type : ℚ
  coin : ℚ
  between : ℚ

/-- The four `Math.random()` calls that build one cloud. -/
structure CloudDraws where
  x : ℚ
  y : ℚ
  width : ℚ
  height : ℚ

/-- The two `Math.random()` calls that build one initial coin. -/
structure CoinDraws where
  x : ℚ
  y : ℚ

/-- The draws of the constructor, indexed by loop iteration. -/
structure InitDraws where
  clouds : ℕ → CloudDraws
  platforms : ℕ → PlatformDraws
  coins : ℕ → CoinDraws

/-- The draws of one `update`: the three platform syntheses, the new cloud,
and the death message. -/
structure TickDraws where
  platforms : ℕ → PlatformDraws
  cloud : CloudDraws
  death : ℚ

/-- Range of `Math.random()`. -/
def unit (r : ℚ) : Prop := 0 ≤ r ∧ r < 1

instance (r : ℚ) : Decidable (unit r) := by unfold unit; infer_instance

/-- All six draws of a platform synthesis are in `[0, 1)`. -/
def PlatformDraws.valid (d : PlatformDraws) : Prop :=
  unit d.gap ∧ unit d.y ∧ unit d.width ∧ unit d.type ∧ unit d.coin ∧ unit d.between

instance (d : PlatformDraws) : Decidable d.valid := by
  unfold PlatformDraws.valid; infer_instance

/-! ## Binary64 arithmetic

JavaScript numbers are binary64: the result of every arithmetic operation is
rounded to the nearest number of 53 significant bits. -/

/-- Round to the nearest integer, a tie to the even one. -/
def roundHalfEven (x : ℚ) : ℤ :=
  if x - (Rat.floor x : ℚ) < 1 / 2 then Rat.floor x
  else if 1 / 2 < x - (Rat.floor x : ℚ) then Rat.floor x + 1
  else if Rat.floor x % 2 = 0 then Rat.floor x
  else Rat.floor x + 1

/-- The binary64 number nearest to `q`, a tie to the even significand: 53
significant bits, exponent range not bounded. -/
def roundDouble (q : ℚ) : ℚ :=
  if q = 0 then 0
  else if 0 < q then
    (roundHalfEven (q / 2 ^ (Int.log 2 q - 52)) : ℚ) * 2 ^ (Int.log 2 q - 52)
  else
    -((roundHalfEven (-q / 2 ^ (Int.log 2 (-q) - 52)) : ℚ) * 2 ^ (Int.log 2 (-q) - 52))

/-- The largest binary64 number below 1. -/
def topDraw : ℚ := 1 - 1 / 2 ^ 53

/-- The interval of the binary64 numbers in `[0, 1)`, the values of
`Math.random()`: from 0 to the largest binary64 number below 1. -/
def unitDouble (r : ℚ) : Prop := 0 ≤ r ∧ r ≤ topDraw

/-- The four draws that shape the platform are between 0 and the largest
binary64 number below 1. -/
def PlatformDraws.validDouble (d : PlatformDraws) : Prop :=
  unitDouble d.gap ∧ unitDouble d.y ∧ unitDouble d.width ∧ unitDouble d.type

/-- What the synthesis bounds need of the rounding `fl` of the arithmetic:
monotone, exact on the natural numbers up to 1000, the product of 3 with the
largest draw rounds below 3, and from 1 on the relative error is at most
`2 ^ (-53)`. Binary64 rounding to nearest and exact arithmetic both are
such. -/
def RoundsLikeDouble (fl : ℚ → ℚ) : Prop :=
  (∀ a b, a ≤ b → fl a ≤ fl b) ∧ (∀ n : ℕ, n ≤ 1000 → fl (n : ℚ) = n) ∧
  fl (topDraw * 3) < 3 ∧
  (∀ a, 1 ≤ a → a * (1 - 1 / 2 ^ 53) ≤ fl a ∧ fl a ≤ a * (1 + 1 / 2 ^ 53))

/-! ## World generation -/

/-- The array `this.deathMessages`. -/
def deathMessages : List String :=
  [ "GAME OVER!<br>You fell into the void!",
    "OOPS!<br>Watch your step!",
    "OH NO!<br>Gravity wins!",
    "YIKES!<br>That\x27s a long fall!",
    "WHOOPS!<br>Better luck next jump!",
    "UH OH!<br>The abyss got you!",
    "DANG IT!<br>So close!",
    "OUCH!<br>That had to hurt!" ]

/-- Array read `xs[Math.floor(v)]`: `undefined` outside the array. -/
def pick (xs : List String) (v : ℚ) : Option String :=
  if Rat.floor v < 0 then none else xs.get? (Rat.floor v).toNat

/-- The cloud one loop iteration of `generateClouds` pushes. -/
def initialCloud (i : ℕ) (d : CloudDraws) : Cloud :=
  { x := (i : ℚ) * 300 + d.x * 150
    y := 50 + d.y * 100
    width := 100 + d.width * 40
    height := 40 + d.height * 20 }

/-- Loop of `generateClouds`: fifteen clouds. -/
@[irreducible] def generateClouds (d : ℕ → CloudDraws) (s : GameState) : GameState :=
  (List.range 15).foldl
    (fun st i => { st with clouds := st.clouds ++ [initialCloud i (d i)] }) s

/-- The coin one loop iteration of `generateInitialCoins` pushes. -/
def initialCoin (i : ℕ) (d : CoinDraws) : Coin :=
  { x := (i : ℚ) * 250 + 200 + d.x * 100
    y := 200 + d.y * 200
    width := 20
    height := 20
    collected := false }

/-- Loop of `generateInitialCoins`: thirty coins. -/
@[irreducible] def generateInitialCoins (d : ℕ → CoinDraws) (s : GameState) : GameState :=
  (List.range 30).foldl
    (fun st i => { st with floatingCoins := st.floatingCoins ++ [initialCoin i (d i)] }) s

/-- The starting ground. -/
def groundPlatform : Platform :=
  { x := 0, y := 550, width := 600, height := 50
    color := some "#8B4513", type := some "ground", texture := some "grass"
    label := none, door := none, icon := none }

/-- The pipe labelled ABOUT. -/
def aboutPlatform : Platform :=
  { x := 250, y := 480, width := 100, height := 150
    color := some "#48bb78", type := some "pipe", texture := none
    label := some "ABOUT", door := some "about", icon := some "👤" }

/-- The question block labelled SKILLS. -/
def skillsPlatform : Platform :=
  { x := 420, y := 480, width := 120, height := 40
    color := some "#FFD700", type := some "question", texture := none
    label := some "SKILLS", door := some "skills", icon := some "⚡" }

/-- The brick labelled EXP. -/
def experiencePlatform : Platform :=
  { x := 620, y := 480, width := 140, height := 40
    color := some "#C04000", type := some "brick", texture := none
    label := some "EXP", door := some "experience", icon := some "💼" }

/-- The coin block labelled PROJECTS. -/
def projectsPlatform : Platform :=
  { x := 840, y := 480, width := 120, height := 40
    color := some "#FFD700", type := some "coin", texture := none
    label := some "PROJECTS", door := some "projects", icon := some "🎮" }

/-- The five platforms `generateInitialPlatforms` pushes before its loop. -/
def fixedPlatforms : List Platform :=
  [groundPlatform, aboutPlatform, skillsPlatform, experiencePlatform, projectsPlatform]

/-- The platform object `generateNewPlatform` builds, colour and icon set by
its type. -/
def newPlatform (x y width : ℚ) (type : Option String) : Platform :=
  { x := x, y := y, width := width, height := 30
    color :=
      if type = some "question" then some "#FFD700"
      else if type = some "brick" then some "#C04000"
      else some "#A0522D"
    type := type
    texture := none, label := none, door := none
    icon := if type = some "question" then some "?" else none }

/-- One call of `generateNewPlatform`, the arithmetic read exactly, without
the rounding of binary64 numbers: `generateNewPlatformFl` is the same call with
every result rounded. -/
@[irreducible] def generateNewPlatform (d : PlatformDraws) (s : GameState) : GameState :=
  let gap := 100 + d.gap * 100
  let x := s.lastPlatformX + gap
  let y := 350 + d.y * 120
  let width := 90 + d.width * 70
  let type := pick ["block", "question", "brick"] (d.type * 3)
  let coins1 :=
    if d.coin < 1 / 2 then
      s.floatingCoins ++
        [{ x := x + width / 2 - 10, y := y - 50, width := 20, height := 20,
           collected := false }]
    else s.floatingCoins
  let coins2 :=
    if d.between < 3 / 10 ∧ gap > 120 then
      coins1 ++
        [{ x := x - gap / 2 - 10, y := min y 400 - 60, width := 20, height := 20,
           collected := false }]
    else coins1
  { s with
    platforms := s.platforms ++ [newPlatform x y width type]
    lastPlatformX := x + width
    floatingCoins := coins2 }

/-- One call of `generateNewPlatform` with the result of every arithmetic
operation, and the literal 0.3, rounded by `fl`. -/
def generateNewPlatformFl (fl : ℚ → ℚ) (d : PlatformDraws) (s : GameState) : GameState :=
  let gap := fl (100 + fl (d.gap * 100))
  let x := fl (s.lastPlatformX + gap)
  let y := fl (350 + fl (d.y * 120))
  let width := fl (90 + fl (d.width * 70))
  let type := pick ["block", "question", "brick"] (fl (d.type * 3))
  let coins1 :=
    if d.coin < 1 / 2 then
      s.floatingCoins ++
        [{ x := fl (fl (x + fl (width / 2)) - 10), y := fl (y - 50), width := 20, height := 20,
           collected := false }]
    else s.floatingCoins
  let coins2 :=
    if d.between < fl (3 / 10) ∧ gap > 120 then
      coins1 ++
        [{ x := fl (fl (x - fl (gap / 2)) - 10), y := fl (min y 400 - 60), width := 20,
           height := 20, collected := false }]
    else coins1
  { s with
    platforms := s.platforms ++ [newPlatform x y width type]
    lastPlatformX := fl (x + width)
    floatingCoins := coins2 }

/-- The loop `for (i = 0; i < n; i++) this.generateNewPlatform()`, draw `d i`
feeding iteration `i`. -/
@[irreducible] def generatePlatforms (n : ℕ) (d : ℕ → PlatformDraws) (s : GameState) : GameState :=
  (List.range n).foldl (fun st i => generateNewPlatform (d i) st) s

/-- The method `generateInitialPlatforms`. -/
@[irreducible] def generateInitialPlatforms (d : ℕ → PlatformDraws) (s : GameState) : GameState :=
  generatePlatforms 50 d
    { s with platforms := s.platforms ++ fixedPlatforms, lastPlatformX := 1000 }

/-- The player object the constructor builds. -/
def spawnPlayer : Player :=
  { x := 150, y := 300, width := 32, height := 48, speed := 5,
    velocityY := 0, gravity := 4 / 5, jumpPower := -16,
    isJumping := false, direction := "right", velocityX := none }

/-- The fields the constructor assigns before it generates the world, for a
window of the given inner size. -/
def initialFields (innerWidth innerHeight : ℚ) : GameState :=
  { canvasWidth := innerWidth
    canvasHeight := innerHeight
    isActive := false
    player := spawnPlayer
    keys := []
    currentRoom := "hub"
    coins := 0
    distance := 0
    isDead := false
    cameraX := 0
    frame := 0
    floatingCoins := []
    clouds := []
    platforms := []
    lastPlatformX := 0
    activePanel := none
    panelActive := false
    panelContent := PanelContent.page }

/-- The constructor, for a window of the given inner size. -/
@[irreducible] def construct (innerWidth innerHeight : ℚ) (d : InitDraws) : GameState :=
  generateInitialCoins d.coins <| generateInitialPlatforms d.platforms <|
  generateClouds d.clouds (initialFields innerWidth innerHeight)

/-! ## Death and respawn -/

/-- The method `handleDeath`: `r` is the draw that selects the message. -/
@[irreducible] def handleDeath (r : ℚ) (s : GameState) : GameState :=
  { s with
    isDead := true
    panelContent := PanelContent.death
      { message := pick deathMessages (r * 8)
        distance := Rat.floor s.distance
        coins := s.coins
        score := Rat.floor (s.distance + (s.coins : ℚ) * 50) }
    panelActive := true }

/-- The method `respawn`. -/
@[irreducible] def respawn (d : ℕ → PlatformDraws) (s : GameState) : GameState :=
  let s1 : GameState :=
    { s with
      player := { s.player with x := 150, y := 300, velocityY := 0, velocityX := some 0 }
      cameraX := 0
      isDead := false
      distance := 0
      coins := 0
      platforms := []
      floatingCoins := []
      lastPlatformX := 0 }
  { generateInitialPlatforms d s1 with panelActive := false }

/-! ## Info panels -/

/-- Keys of the object `setupInfoContent` returns. -/
def infoKeys : List String := ["about", "skills", "experience", "projects"]

/-- Property names every plain object inherits from `Object.prototype`; a
lookup `this.infoContent[type]` with one of them is truthy as well. -/
def inheritedKeys : List String :=
  ["constructor", "hasOwnProperty", "isPrototypeOf", "propertyIsEnumerable",
   "toLocaleString", "toString", "valueOf", "__proto__", "__defineGetter__",
   "__defineSetter__", "__lookupGetter__", "__lookupSetter__"]

/-- The method `showInfo`. -/
@[irreducible] def showInfo (type : String) (s : GameState) : GameState :=
  if type ∈ infoKeys ∨ type ∈ inheritedKeys then
    { s with panelContent := PanelContent.info type, panelActive := true,
             activePanel := some type }
  else s

/-- The method `closeInfo`. -/
@[irreducible] def closeInfo (s : GameState) : GameState :=
  { s with panelActive := false, activePanel := none }

/-- The test `checkInteraction` makes for one platform that has a door. -/
def onDoor (s : GameState) (platform : Platform) : Prop :=
  let playerScreenX := s.player.x - s.cameraX
  let playerCenter := playerScreenX + s.player.width / 2
  let playerBottom := s.player.y + s.player.height
  let platformScreenX := platform.x - s.cameraX
  playerCenter > platformScreenX ∧
    playerCenter < platformScreenX + platform.width ∧
    |playerBottom - platform.y| < 10

instance (s : GameState) (platform : Platform) : Decidable (onDoor s platform) := by
  unfold onDoor; infer_instance

/-- Body of the `forEach` of `checkInteraction`. -/
@[irreducible] def interactWith (st : GameState) (platform : Platform) : GameState :=
  match platform.door with
  | some door =>
    if door ≠ "" then
      if onDoor st platform then showInfo door st else st
    else st
  | none => st

/-- The method `checkInteraction`. -/
@[irreducible] def checkInteraction (s : GameState) : GameState :=
  if truthy s.activePanel || s.isDead then s
  else if s.player.isJumping then s
  else s.platforms.foldl interactWith s

/-! ## Key handlers -/

/-- The method `toLowerCase` of a key name, on ASCII letters; it agrees with
the method on every key the game reads. -/
def toLowerCase (s : String) : String := ⟨s.data.map Char.toLower⟩

/-- The assignment `this.keys[k] = true`. -/
@[irreducible] def recordKey (k : String) (s : GameState) : GameState :=
  { s with keys := if k ∈ s.keys then s.keys else k :: s.keys }

/-- The jump a Space press carries out on a grounded player. -/
@[irreducible] def jump (s : GameState) : GameState :=
  { s with player := { s.player with velocityY := s.player.jumpPower, isJumping := true } }

/-- The branch of the `keydown` listener for the key E: close the open panel,
or check for an interaction. -/
@[irreducible] def interact (s : GameState) : GameState :=
  if truthy s.activePanel then closeInfo s else checkInteraction s

/-- The `keydown` listener; `d` feeds the respawn it may trigger. -/
@[irreducible] def keyDown (d : ℕ → PlatformDraws) (key : String) (s : GameState) : GameState :=
  if !s.isActive then s
  else if key = " " then
    if !s.player.isJumping then jump s else s
  else
    let k := toLowerCase key
    let s1 := recordKey k s
    let s2 := if k = "e" then interact s1 else s1
    if k = "r" ∧ s2.isDead then respawn d s2 else s2

/-- The `keyup` listener. -/
@[irreducible] def keyUp (key : String) (s : GameState) : GameState :=
  if !s.isActive then s
  else { s with keys := s.keys.filter (fun k => k != toLowerCase key) }

/-! ## One update tick -/

/-- Movement: the two `if`s on the pressed keys. -/
@[irreducible] def moveStep (s : GameState) : GameState :=
  let s1 : GameState :=
    if "a" ∈ s.keys ∨ "arrowleft" ∈ s.keys then
      { s with player := { s.player with x := s.player.x - s.player.speed, direction := "left" } }
    else s
  if "d" ∈ s1.keys ∨ "arrowright" ∈ s1.keys then
    { s1 with
      player := { s1.player with x := s1.player.x + s1.player.speed, direction := "right" }
      distance := s1.distance + 1 / 10 }
  else s1

/-- Camera follows the player. -/
@[irreducible] def cameraStep (s : GameState) : GameState :=
  let centerX := s.canvasWidth / 2
  { s with cameraX := max 0 (s.player.x - centerX) }

/-- Gravity, and the reset of `isJumping` that precedes the collision loop. -/
@[irreducible] def gravityStep (s : GameState) : GameState :=
  let v := s.player.velocityY + s.player.gravity
  { s with player := { s.player with velocityY := v, y := s.player.y + v, isJumping := true } }

/-- Condition of the platform collision `if`. -/
def lands (cameraX : ℚ) (pl : Player) (platform : Platform) : Prop :=
  let platformScreenX := platform.x - cameraX
  let playerScreenX := pl.x - cameraX
  playerScreenX + pl.width > platformScreenX ∧
    playerScreenX < platformScreenX + platform.width ∧
    pl.y + pl.height > platform.y ∧
    pl.y + pl.height < platform.y + 30 ∧
    pl.velocityY > 0

instance (cameraX : ℚ) (pl : Player) (platform : Platform) :
    Decidable (lands cameraX pl platform) := by
  unfold lands; infer_instance

/-- Body of the platform collision `forEach`. -/
@[irreducible] def collide (cameraX : ℚ) (pl : Player) (platform : Platform) : Player :=
  if lands cameraX pl platform then
    { pl with y := platform.y - pl.height, velocityY := 0, isJumping := false }
  else pl

/-- Platform collision. -/
@[irreducible] def collisionStep (s : GameState) : GameState :=
  { s with player := s.platforms.foldl (collide s.cameraX) s.player }

/-- Condition of the coin collection `if`, for an uncollected coin. -/
def touches (cameraX : ℚ) (pl : Player) (coin : Coin) : Prop :=
  let coinScreenX := coin.x - cameraX
  let playerScreenX := pl.x - cameraX
  playerScreenX + pl.width > coinScreenX ∧
    playerScreenX < coinScreenX + coin.width ∧
    pl.y + pl.height > coin.y ∧
    pl.y < coin.y + coin.height

instance (cameraX : ℚ) (pl : Player) (coin : Coin) :
    Decidable (touches cameraX pl coin) := by
  unfold touches; infer_instance

/-- The coin collection `forEach`: the coins after it and the counter after
it, from the counter `n` before it. -/
def collectCoins (cameraX : ℚ) (pl : Player) : List Coin → ℕ → List Coin × ℕ
  | [], n => ([], n)
  | coin :: rest, n =>
    if coin.collected = false ∧ touches cameraX pl coin then
      let r := collectCoins cameraX pl rest (n + 1)
      ({ coin with collected := true } :: r.1, r.2)
    else
      let r := collectCoins cameraX pl rest n
      (coin :: r.1, r.2)

/-- Coin collection. -/
@[irreducible] def coinStep (s : GameState) : GameState :=
  let r := collectCoins s.cameraX s.player s.floatingCoins s.coins
  { s with floatingCoins := r.1, coins := r.2 }

/-- Generation of new platforms as the player progresses. -/
@[irreducible] def generateStep (d : ℕ → PlatformDraws) (s : GameState) : GameState :=
  if s.lastPlatformX - s.cameraX < s.canvasWidth + 500 then generatePlatforms 3 d s
  else s

/-- Generation of a new cloud. -/
@[irreducible] def cloudStep (d : CloudDraws) (s : GameState) : GameState :=
  if s.clouds.length < 20 then
    { s with clouds := s.clouds ++
        [{ x := s.cameraX + s.canvasWidth + d.x * 200
           y := 50 + d.y * 100
           width := 100 + d.width * 40
           height := 40 + d.height * 20 }] }
  else s

/-- Death by falling. -/
@[irreducible] def deathStep (r : ℚ) (s : GameState) : GameState :=
  if s.player.y > s.canvasHeight + 100 then handleDeath r s else s

/-- Left boundary. -/
@[irreducible] def boundaryStep (s : GameState) : GameState :=
  if s.player.x < s.cameraX then { s with player := { s.player with x := s.cameraX } }
  else s

/-- Frame counter. -/
@[irreducible] def frameStep (s : GameState) : GameState :=
  { s with frame := s.frame + 1 }

/-- The state when the world-generation `if` of `update` has run. -/
@[irreducible] def updateToGeneration (d : TickDraws) (s : GameState) : GameState :=
  generateStep d.platforms <| coinStep <| collisionStep <| gravityStep <|
  cameraStep <| moveStep s

/-- The method `update`. -/
@[irreducible] def update (d : TickDraws) (s : GameState) : GameState :=
  if !s.isActive || s.isDead then s
  else
    frameStep <| boundaryStep <| deathStep d.death <| cloudStep d.cloud <|
    updateToGeneration d s

/-- The method `start` up to its call of `gameLoop`: the game becomes active.
The frame that `gameLoop` runs at once is a tick of its own, an `Event.tick`
after the `Event.start`. -/
@[irreducible] def start (s : GameState) : GameState := { s with isActive := true }

/-- The method `stop`. -/
@[irreducible] def stop (s : GameState) : GameState := closeInfo { s with isActive := false }

/-- The method `resizeCanvas`, for the new inner size of the window. -/
@[irreducible] def resizeCanvas (innerWidth innerHeight : ℚ) (s : GameState) : GameState :=
  { s with canvasWidth := innerWidth, canvasHeight := innerHeight }

/-! ## Events -/

/-- What can happen to a game between construction and now: an animation
frame, a key event, a click on one of the panel buttons, the toggle button,
a window resize. -/
inductive Event where
  | tick (d : TickDraws)
  | keyDown (d : ℕ → PlatformDraws) (key : String)
  | keyUp (key : String)
  | respawn (d : ℕ → PlatformDraws)
  | closeInfo
  | start
  | stop
  | resize (innerWidth innerHeight : ℚ)

/-- Effect of one event. -/
def Event.apply : Event → GameState → GameState
  | Event.tick d, s => update d s
  | Event.keyDown d key, s => PortfolioGame.keyDown d key s
  | Event.keyUp key, s => PortfolioGame.keyUp key s
  | Event.respawn d, s => PortfolioGame.respawn d s
  | Event.closeInfo, s => PortfolioGame.closeInfo s
  | Event.start, s => PortfolioGame.start s
  | Event.stop, s => PortfolioGame.stop s
  | Event.resize w h, s => resizeCanvas w h s

/-- Effect of a sequence of events, first event first. -/
def run (es : List Event) (s : GameState) : GameState :=
  es.foldl (fun st e => e.apply st) s

/-- Number of coins whose `collected` flag is set. -/
def collectedCount (cs : List Coin) : ℕ := cs.countP (fun c => c.collected)

/-- The game is in the state the specification calls Running. -/
def Running (s : GameState) : Prop := s.isActive = true ∧ s.isDead = false

instance (s : GameState) : Decidable (Running s) := by unfold Running; infer_instance

/-- The draws an event consumes for platform synthesis are all in `[0, 1)`:
three syntheses in a tick, fifty in a respawn. -/
def Event.valid : Event → Prop
  | Event.tick d => ∀ i < 3, (d.platforms i).valid
  | Event.keyDown d _ => ∀ i < 50, (d i).valid
  | Event.respawn d => ∀ i < 50, (d i).valid
  | _ => True

/-- The event is a window resize. -/
def Event.isResize : Event → Bool
  | Event.resize _ _ => true
  | _ => false

/-- The state `s2` differs from `s` in the pressed keys and the panel only. -/
def SameWorld (s s2 : GameState) : Prop :=
  s2 = { s with
    keys := s2.keys
    panelActive := s2.panelActive
    activePanel := s2.activePanel
    panelContent := s2.panelContent }

/-- The frontier is at least the canvas width plus 500 ahead of the camera
offset that belongs to the player position, on a canvas of width `w` and for
the walking speed of the game. -/
def FrontierAhead (w : ℚ) (s : GameState) : Prop :=
  s.canvasWidth = w ∧ s.player.speed = 5 ∧
    w + 500 ≤ s.lastPlatformX - max 0 (s.player.x - w / 2)

/-- Relation between a coin before and after the coin collection loop: the
coin is unchanged, or it was uncollected and only its flag was set. -/
def flagRaised (c c2 : Coin) : Prop :=
  c2 = c ∨ (c.collected = false ∧ c2 = { c with collected := true })

/-- Number of positions at which the flag is clear in `cs` and set in `cs2`. -/
def newlyMarked (cs cs2 : List Coin) : ℕ :=
  (cs.zip cs2).countP (fun p => !p.1.collected && p.2.collected)

/-- The counter agrees with the flags. -/
def CoinsCounted (s : GameState) : Prop := s.coins = collectedCount s.floatingCoins

/-- The state after `n` update ticks, tick `i` drawing `ds i`. -/
def ticks (ds : ℕ → TickDraws) : ℕ → GameState → GameState
  | 0, s => s
  | n + 1, s => update (ds n) (ticks ds n s)

/-- The player stands at the spawn column of a started game with no
movement key held and nothing collected, above the ground platform, with every
other platform and every coin to the right of the player. -/
def IdleWorld (s : GameState) : Prop :=
  s.isActive = true ∧ s.keys = [] ∧ 0 ≤ s.canvasWidth ∧
  s.player.x = 150 ∧ s.player.width = 32 ∧ s.player.height = 48 ∧
  s.player.gravity = 4 / 5 ∧ s.distance = 0 ∧ s.coins = 0 ∧
  (∃ rest, s.platforms = groundPlatform :: rest ∧ ∀ p ∈ rest, 250 ≤ p.x) ∧
  (∀ c ∈ s.floatingCoins, 200 ≤ c.x) ∧ 1000 ≤ s.lastPlatformX

/-- The player is in free fall from the spawn point, `k` ticks after the
start. -/
def Falling (k : ℕ) (s : GameState) : Prop :=
  s.isDead = false ∧ s.player.velocityY = 4 / 5 * (k : ℚ) ∧
  s.player.y = 300 + 2 / 5 * (k : ℚ) * ((k : ℚ) + 1)

/-- The player rests on the ground platform. -/
def Landed (s : GameState) : Prop :=
  s.isDead = false ∧ s.player.velocityY = 0 ∧ s.player.y = 502 ∧ s.player.isJumping = false

/-- The game is over below the canvas, with nothing scored. -/
def DeadZero (s : GameState) : Prop :=
  s.isDead = true ∧ s.player.y > s.canvasHeight + 100 ∧ s.distance = 0 ∧ s.coins = 0 ∧
  ∃ st, s.panelContent = PanelContent.death st ∧ st.distance = 0 ∧ st.coins = 0 ∧
    st.score = 0 ∧ st.score = Rat.floor (s.distance + (s.coins : ℚ) * 50)

/-- The player constants are those of the constructor in every state reached
from construction. -/
def PlayerConstants (s : GameState) : Prop :=
  s.player.width = 32 ∧ s.player.height = 48 ∧ s.player.speed = 5 ∧
  s.player.gravity = 4 / 5 ∧ s.player.jumpPower = -16

/-- The four door platforms of the initial layout. -/
def doorPlatforms : List Platform :=
  [aboutPlatform, skillsPlatform, experiencePlatform, projectsPlatform]

/-- The platforms are in strictly ascending order of `x`, none is of negative
width, and all end at or before the frontier. -/
def PlatformsOrdered (s : GameState) : Prop :=
  s.platforms.Pairwise (fun a b => a.x < b.x) ∧
  ∀ p ∈ s.platforms, 0 ≤ p.width ∧ p.x + p.width ≤ s.lastPlatformX

/-- The player is `k` ticks into a jump that took off at height `y0`. -/
def Rising (y0 : ℚ) (k : ℕ) (s : GameState) : Prop :=
  Running s ∧ s.player.gravity = 4 / 5 ∧
  s.player.velocityY = -16 + 4 / 5 * (k : ℚ) ∧
  s.player.y = y0 - 16 * (k : ℚ) + 2 / 5 * (k : ℚ) * ((k : ℚ) + 1)

/-- The player is `k` ticks into a jump from the ground platform. -/
def Flight (k : ℕ) (s : GameState) : Prop :=
  s.isDead = false ∧ s.player.velocityY = -16 + 4 / 5 * (k : ℚ) ∧
  s.player.y = 502 - 16 * (k : ℚ) + 2 / 5 * (k : ℚ) * ((k : ℚ) + 1)

/-! ## Concrete inputs -/

/-- Platform draws that are all zero. -/
def zeroPlatformDraws : PlatformDraws :=
  { gap := 0, y := 0, width := 0, type := 0, coin := 0, between := 0 }

/-- Constructor draws that are all zero. -/
def zeroInit : InitDraws :=
  { clouds := fun _ => { x := 0, y := 0, width := 0, height := 0 }
    platforms := fun _ => zeroPlatformDraws
    coins := fun _ => { x := 0, y := 0 } }

/-- Tick draws that are all zero. -/
def zeroTick : TickDraws :=
  { platforms := fun _ => zeroPlatformDraws
    cloud := { x := 0, y := 0, width := 0, height := 0 }
    death := 0 }

/-- The state after game start with the keys A and D pressed. -/
def bothKeysHeld : GameState :=
  run [Event.start, Event.keyDown (fun _ => zeroPlatformDraws) "a",
    Event.keyDown (fun _ => zeroPlatformDraws) "d"] (construct 800 600 zeroInit)

/-- The started game after construction with the panel of the door `about`
open. -/
def panelOpenState : GameState :=
  { start (construct 800 600 zeroInit) with
    activePanel := some "about"
    panelActive := true
    panelContent := PanelContent.info "about" }

/-- The started game after construction with the player standing on the about
platform. -/
def onAboutState : GameState :=
  { start (construct 800 600 zeroInit) with player := { spawnPlayer with x := 290, y := 432 } }

/-- A block under the spawn column, ten above the ground. -/
def upperBlock : Platform := newPlatform 100 540 200 (some "block")

/-- A started game in which the falling player is about to enter the top
bands of the ground and of a block at once. -/
def twoBandsState : GameState :=
  { start (construct 800 600 zeroInit) with
    platforms := [groundPlatform, upperBlock]
    player := { spawnPlayer with y := 500, velocityY := 5 } }

/-- The started game after 22 idle ticks on an 800 by 600 canvas: the player
stands on the ground platform. -/
def landedState : GameState :=
  ticks (fun _ => zeroTick) 22 (start (construct 800 600 zeroInit))

/-- Platform draws that are all the largest binary64 number below 1. -/
def topDraws : PlatformDraws :=
  { gap := topDraw, y := topDraw, width := topDraw, type := topDraw, coin := topDraw,
    between := topDraw }

/-- The world at the first synthesis of `generateInitialPlatforms` on an 800 by
600 canvas: the fixed platforms are in place and the frontier is 1000. -/
def firstSynthesisState : GameState :=
  { generateClouds zeroInit.clouds (initialFields 800 600) with
    platforms := fixedPlatforms
    lastPlatformX := 1000 }

/-! ## Basic facts: platform synthesis -/

theorem generatePlatforms_zero (d : ℕ → PlatformDraws) (s : GameState) :
    generatePlatforms 0 d s = s := by
  unfold generatePlatforms; rfl

theorem generatePlatforms_succ (n : ℕ) (d : ℕ → PlatformDraws) (s : GameState) :
    generatePlatforms (n + 1) d s = generateNewPlatform (d n) (generatePlatforms n d s) := by
  simp [generatePlatforms, List.range_succ, List.foldl_append]

/-- A platform synthesis touches the platforms, the frontier and the coin list
only. -/
theorem generateNewPlatform_eq (d : PlatformDraws) (s : GameState) :
    generateNewPlatform d s =
      { s with
        platforms := (generateNewPlatform d s).platforms
        lastPlatformX := (generateNewPlatform d s).lastPlatformX
        floatingCoins := (generateNewPlatform d s).floatingCoins } := by
  unfold generateNewPlatform; rfl

/-- A run of platform syntheses touches the platforms, the frontier and the
coin list only. -/
theorem generatePlatforms_eq (n : ℕ) (d : ℕ → PlatformDraws) (s : GameState) :
    generatePlatforms n d s =
      { s with
        platforms := (generatePlatforms n d s).platforms
        lastPlatformX := (generatePlatforms n d s).lastPlatformX
        floatingCoins := (generatePlatforms n d s).floatingCoins } := by
  induction n with
  | zero => rw [generatePlatforms_zero]
  | succ n ih =>
    rw [generatePlatforms_succ, generateNewPlatform_eq]
    generalize generatePlatforms n d s = t at ih ⊢
    rw [ih]

/-! ## Basic facts: the loops of the constructor -/

theorem foldl_clouds_eq (f : ℕ → Cloud) (l : List ℕ) (s : GameState) :
    l.foldl (fun st i => { st with clouds := st.clouds ++ [f i] }) s =
      { s with clouds := s.clouds ++ l.map f } := by
  induction l generalizing s with
  | nil => simp
  | cons a l ih => rw [List.foldl_cons, ih]; simp

theorem generateClouds_eq (d : ℕ → CloudDraws) (s : GameState) :
    generateClouds d s =
      { s with clouds := s.clouds ++ (List.range 15).map (fun i => initialCloud i (d i)) } := by
  unfold generateClouds
  exact foldl_clouds_eq (fun i => initialCloud i (d i)) (List.range 15) s

theorem foldl_coins_eq (f : ℕ → Coin) (l : List ℕ) (s : GameState) :
    l.foldl (fun st i => { st with floatingCoins := st.floatingCoins ++ [f i] }) s =
      { s with floatingCoins := s.floatingCoins ++ l.map f } := by
  induction l generalizing s with
  | nil => simp
  | cons a l ih => rw [List.foldl_cons, ih]; simp

theorem generateInitialCoins_eq (d : ℕ → CoinDraws) (s : GameState) :
    generateInitialCoins d s =
      { s with floatingCoins :=
          s.floatingCoins ++ (List.range 30).map (fun i => initialCoin i (d i)) } := by
  unfold generateInitialCoins
  exact foldl_coins_eq (fun i => initialCoin i (d i)) (List.range 30) s

/-! ## Basic facts: what each method and each part of `update` leaves alone -/

@[simp] theorem generateNewPlatform_canvasWidth (d : PlatformDraws) (s : GameState) :
    (generateNewPlatform d s).canvasWidth = s.canvasWidth := by
  unfold generateNewPlatform; rfl

@[simp] theorem generateNewPlatform_canvasHeight (d : PlatformDraws) (s : GameState) :
    (generateNewPlatform d s).canvasHeight = s.canvasHeight := by
  unfold generateNewPlatform; rfl

@[simp] theorem generateNewPlatform_isActive (d : PlatformDraws) (s : GameState) :
    (generateNewPlatform d s).isActive = s.isActive := by
  unfold generateNewPlatform; rfl

@[simp] theorem generateNewPlatform_player (d : PlatformDraws) (s : GameState) :
    (generateNewPlatform d s).player = s.player := by
  unfold generateNewPlatform; rfl

@[simp] theorem generateNewPlatform_keys (d : PlatformDraws) (s : GameState) :
    (generateNewPlatform d s).keys = s.keys := by
  unfold generateNewPlatform; rfl

@[simp] theorem generateNewPlatform_currentRoom (d : PlatformDraws) (s : GameState) :
    (generateNewPlatform d s).currentRoom = s.currentRoom := by
  unfold generateNewPlatform; rfl

@[simp] theorem generateNewPlatform_coins (d : PlatformDraws) (s : GameState) :
    (generateNewPlatform d s).coins = s.coins := by
  unfold generateNewPlatform; rfl

@[simp] theorem generateNewPlatform_distance (d : PlatformDraws) (s : GameState) :
    (generateNewPlatform d s).distance = s.distance := by
  unfold generateNewPlatform; rfl

@[simp] theorem generateNewPlatform_isDead (d : PlatformDraws) (s : GameState) :
    (generateNewPlatform d s).isDead = s.isDead := by
  unfold generateNewPlatform; rfl

@[simp] theorem generateNewPlatform_cameraX (d : PlatformDraws) (s : GameState) :
    (generateNewPlatform d s).cameraX = s.cameraX := by
  unfold generateNewPlatform; rfl

@[simp] theorem generateNewPlatform_frame (d : PlatformDraws) (s : GameState) :
    (generateNewPlatform d s).frame = s.frame := by
  unfold generateNewPlatform; rfl

@[simp] theorem generateNewPlatform_clouds (d : PlatformDraws) (s : GameState) :
    (generateNewPlatform d s).clouds = s.clouds := by
  unfold generateNewPlatform; rfl

@[simp] theorem generateNewPlatform_activePanel (d : PlatformDraws) (s : GameState) :
    (generateNewPlatform d s).activePanel = s.activePanel := by
  unfold generateNewPlatform; rfl

@[simp] theorem generateNewPlatform_panelActive (d : PlatformDraws) (s : GameState) :
    (generateNewPlatform d s).panelActive = s.panelActive := by
  unfold generateNewPlatform; rfl

@[simp] theorem generateNewPlatform_panelContent (d : PlatformDraws) (s : GameState) :
    (generateNewPlatform d s).panelContent = s.panelContent := by
  unfold generateNewPlatform; rfl

@[simp] theorem generatePlatforms_canvasWidth (n : ℕ) (d : ℕ → PlatformDraws) (s : GameState) :
    (generatePlatforms n d s).canvasWidth = s.canvasWidth := by
  rw [generatePlatforms_eq]

@[simp] theorem generatePlatforms_canvasHeight (n : ℕ) (d : ℕ → PlatformDraws) (s : GameState) :
    (generatePlatforms n d s).canvasHeight = s.canvasHeight := by
  rw [generatePlatforms_eq]

@[simp] theorem generatePlatforms_isActive (n : ℕ) (d : ℕ → PlatformDraws) (s : GameState) :
    (generatePlatforms n d s).isActive = s.isActive := by
  rw [generatePlatforms_eq]

@[simp] theorem generatePlatforms_player (n : ℕ) (d : ℕ → PlatformDraws) (s : GameState) :
    (generatePlatforms n d s).player = s.player := by
  rw [generatePlatforms_eq]

@[simp] theorem generatePlatforms_keys (n : ℕ) (d : ℕ → PlatformDraws) (s : GameState) :
    (generatePlatforms n d s).keys = s.keys := by
  rw [generatePlatforms_eq]

@[simp] theorem generatePlatforms_currentRoom (n : ℕ) (d : ℕ → PlatformDraws) (s : GameState) :
    (generatePlatforms n d s).currentRoom = s.currentRoom := by
  rw [generatePlatforms_eq]

@[simp] theorem generatePlatforms_coins (n : ℕ) (d : ℕ → PlatformDraws) (s : GameState) :
    (generatePlatforms n d s).coins = s.coins := by
  rw [generatePlatforms_eq]

@[simp] theorem generatePlatforms_distance (n : ℕ) (d : ℕ → PlatformDraws) (s : GameState) :
    (generatePlatforms n d s).distance = s.distance := by
  rw [generatePlatforms_eq]

@[simp] theorem generatePlatforms_isDead (n : ℕ) (d : ℕ → PlatformDraws) (s : GameState) :
    (generatePlatforms n d s).isDead = s.isDead := by
  rw [generatePlatforms_eq]

@[simp] theorem generatePlatforms_cameraX (n : ℕ) (d : ℕ → PlatformDraws) (s : GameState) :
    (generatePlatforms n d s).cameraX = s.cameraX := by
  rw [generatePlatforms_eq]

@[simp] theorem generatePlatforms_frame (n : ℕ) (d : ℕ → PlatformDraws) (s : GameState) :
    (generatePlatforms n d s).frame = s.frame := by
  rw [generatePlatforms_eq]

@[simp] theorem generatePlatforms_clouds (n : ℕ) (d : ℕ → PlatformDraws) (s : GameState) :
    (generatePlatforms n d s).clouds = s.clouds := by
  rw [generatePlatforms_eq]

@[simp] theorem generatePlatforms_activePanel (n : ℕ) (d : ℕ → PlatformDraws) (s : GameState) :
    (generatePlatforms n d s).activePanel = s.activePanel := by
  rw [generatePlatforms_eq]

@[simp] theorem generatePlatforms_panelActive (n : ℕ) (d : ℕ → PlatformDraws) (s : GameState) :
    (generatePlatforms n d s).panelActive = s.panelActive := by
  rw [generatePlatforms_eq]

@[simp] theorem generatePlatforms_panelContent (n : ℕ) (d : ℕ → PlatformDraws) (s : GameState) :
    (generatePlatforms n d s).panelContent = s.panelContent := by
  rw [generatePlatforms_eq]

@[simp] theorem generateInitialPlatforms_canvasWidth (d : ℕ → PlatformDraws) (s : GameState) :
    (generateInitialPlatforms d s).canvasWidth = s.canvasWidth := by
  unfold generateInitialPlatforms; simp

@[simp] theorem generateInitialPlatforms_canvasHeight (d : ℕ → PlatformDraws) (s : GameState) :
    (generateInitialPlatforms d s).canvasHeight = s.canvasHeight := by
  unfold generateInitialPlatforms; simp

@[simp] theorem generateInitialPlatforms_isActive (d : ℕ → PlatformDraws) (s : GameState) :
    (generateInitialPlatforms d s).isActive = s.isActive := by
  unfold generateInitialPlatforms; simp

@[simp] theorem generateInitialPlatforms_player (d : ℕ → PlatformDraws) (s : GameState) :
    (generateInitialPlatforms d s).player = s.player := by
  unfold generateInitialPlatforms; simp

@[simp] theorem generateInitialPlatforms_keys (d : ℕ → PlatformDraws) (s : GameState) :
    (generateInitialPlatforms d s).keys = s.keys := by
  unfold generateInitialPlatforms; simp

@[simp] theorem generateInitialPlatforms_currentRoom (d : ℕ → PlatformDraws) (s : GameState) :
    (generateInitialPlatforms d s).currentRoom = s.currentRoom := by
  unfold generateInitialPlatforms; simp

@[simp] theorem generateInitialPlatforms_coins (d : ℕ → PlatformDraws) (s : GameState) :
    (generateInitialPlatforms d s).coins = s.coins := by
  unfold generateInitialPlatforms; simp

@[simp] theorem generateInitialPlatforms_distance (d : ℕ → PlatformDraws) (s : GameState) :
    (generateInitialPlatforms d s).distance = s.distance := by
  unfold generateInitialPlatforms; simp

@[simp] theorem generateInitialPlatforms_isDead (d : ℕ → PlatformDraws) (s : GameState) :
    (generateInitialPlatforms d s).isDead = s.isDead := by
  unfold generateInitialPlatforms; simp

@[simp] theorem generateInitialPlatforms_cameraX (d : ℕ → PlatformDraws) (s : GameState) :
    (generateInitialPlatforms d s).cameraX = s.cameraX := by
  unfold generateInitialPlatforms; simp

@[simp] theorem generateInitialPlatforms_frame (d : ℕ → PlatformDraws) (s : GameState) :
    (generateInitialPlatforms d s).frame = s.frame := by
  unfold generateInitialPlatforms; simp

@[simp] theorem generateInitialPlatforms_clouds (d : ℕ → PlatformDraws) (s : GameState) :
    (generateInitialPlatforms d s).clouds = s.clouds := by
  unfold generateInitialPlatforms; simp

@[simp] theorem generateInitialPlatforms_activePanel (d : ℕ → PlatformDraws) (s : GameState) :
    (generateInitialPlatforms d s).activePanel = s.activePanel := by
  unfold generateInitialPlatforms; simp

@[simp] theorem generateInitialPlatforms_panelActive (d : ℕ → PlatformDraws) (s : GameState) :
    (generateInitialPlatforms d s).panelActive = s.panelActive := by
  unfold generateInitialPlatforms; simp

@[simp] theorem generateInitialPlatforms_panelContent (d : ℕ → PlatformDraws) (s : GameState) :
    (generateInitialPlatforms d s).panelContent = s.panelContent := by
  unfold generateInitialPlatforms; simp

@[simp] theorem generateClouds_canvasWidth (d : ℕ → CloudDraws) (s : GameState) :
    (generateClouds d s).canvasWidth = s.canvasWidth := by
  rw [generateClouds_eq]

@[simp] theorem generateClouds_canvasHeight (d : ℕ → CloudDraws) (s : GameState) :
    (generateClouds d s).canvasHeight = s.canvasHeight := by
  rw [generateClouds_eq]

@[simp] theorem generateClouds_isActive (d : ℕ → CloudDraws) (s : GameState) :
    (generateClouds d s).isActive = s.isActive := by
  rw [generateClouds_eq]

@[simp] theorem generateClouds_player (d : ℕ → CloudDraws) (s : GameState) :
    (generateClouds d s).player = s.player := by
  rw [generateClouds_eq]

@[simp] theorem generateClouds_keys (d : ℕ → CloudDraws) (s : GameState) :
    (generateClouds d s).keys = s.keys := by
  rw [generateClouds_eq]

@[simp] theorem generateClouds_currentRoom (d : ℕ → CloudDraws) (s : GameState) :
    (generateClouds d s).currentRoom = s.currentRoom := by
  rw [generateClouds_eq]

@[simp] theorem generateClouds_coins (d : ℕ → CloudDraws) (s : GameState) :
    (generateClouds d s).coins = s.coins := by
  rw [generateClouds_eq]

@[simp] theorem generateClouds_distance (d : ℕ → CloudDraws) (s : GameState) :
    (generateClouds d s).distance = s.distance := by
  rw [generateClouds_eq]

@[simp] theorem generateClouds_isDead (d : ℕ → CloudDraws) (s : GameState) :
    (generateClouds d s).isDead = s.isDead := by
  rw [generateClouds_eq]

@[simp] theorem generateClouds_cameraX (d : ℕ → CloudDraws) (s : GameState) :
    (generateClouds d s).cameraX = s.cameraX := by
  rw [generateClouds_eq]

@[simp] theorem generateClouds_frame (d : ℕ → CloudDraws) (s : GameState) :
    (generateClouds d s).frame = s.frame := by
  rw [generateClouds_eq]

@[simp] theorem generateClouds_floatingCoins (d : ℕ → CloudDraws) (s : GameState) :
    (generateClouds d s).floatingCoins = s.floatingCoins := by
  rw [generateClouds_eq]

@[simp] theorem generateClouds_platforms (d : ℕ → CloudDraws) (s : GameState) :
    (generateClouds d s).platforms = s.platforms := by
  rw [generateClouds_eq]

@[simp] theorem generateClouds_lastPlatformX (d : ℕ → CloudDraws) (s : GameState) :
    (generateClouds d s).lastPlatformX = s.lastPlatformX := by
  rw [generateClouds_eq]

@[simp] theorem generateClouds_activePanel (d : ℕ → CloudDraws) (s : GameState) :
    (generateClouds d s).activePanel = s.activePanel := by
  rw [generateClouds_eq]

@[simp] theorem generateClouds_panelActive (d : ℕ → CloudDraws) (s : GameState) :
    (generateClouds d s).panelActive = s.panelActive := by
  rw [generateClouds_eq]

@[simp] theorem generateClouds_panelContent (d : ℕ → CloudDraws) (s : GameState) :
    (generateClouds d s).panelContent = s.panelContent := by
  rw [generateClouds_eq]

@[simp] theorem generateInitialCoins_canvasWidth (d : ℕ → CoinDraws) (s : GameState) :
    (generateInitialCoins d s).canvasWidth = s.canvasWidth := by
  rw [generateInitialCoins_eq]

@[simp] theorem generateInitialCoins_canvasHeight (d : ℕ → CoinDraws) (s : GameState) :
    (generateInitialCoins d s).canvasHeight = s.canvasHeight := by
  rw [generateInitialCoins_eq]

@[simp] theorem generateInitialCoins_isActive (d : ℕ → CoinDraws) (s : GameState) :
    (generateInitialCoins d s).isActive = s.isActive := by
  rw [generateInitialCoins_eq]

@[simp] theorem generateInitialCoins_player (d : ℕ → CoinDraws) (s : GameState) :
    (generateInitialCoins d s).player = s.player := by
  rw [generateInitialCoins_eq]

@[simp] theorem generateInitialCoins_keys (d : ℕ → CoinDraws) (s : GameState) :
    (generateInitialCoins d s).keys = s.keys := by
  rw [generateInitialCoins_eq]

@[simp] theorem generateInitialCoins_currentRoom (d : ℕ → CoinDraws) (s : GameState) :
    (generateInitialCoins d s).currentRoom = s.currentRoom := by
  rw [generateInitialCoins_eq]

@[simp] theorem generateInitialCoins_coins (d : ℕ → CoinDraws) (s : GameState) :
    (generateInitialCoins d s).coins = s.coins := by
  rw [generateInitialCoins_eq]

@[simp] theorem generateInitialCoins_distance (d : ℕ → CoinDraws) (s : GameState) :
    (generateInitialCoins d s).distance = s.distance := by
  rw [generateInitialCoins_eq]

@[simp] theorem generateInitialCoins_isDead (d : ℕ → CoinDraws) (s : GameState) :
    (generateInitialCoins d s).isDead = s.isDead := by
  rw [generateInitialCoins_eq]

@[simp] theorem generateInitialCoins_cameraX (d : ℕ → CoinDraws) (s : GameState) :
    (generateInitialCoins d s).cameraX = s.cameraX := by
  rw [generateInitialCoins_eq]

@[simp] theorem generateInitialCoins_frame (d : ℕ → CoinDraws) (s : GameState) :
    (generateInitialCoins d s).frame = s.frame := by
  rw [generateInitialCoins_eq]

@[simp] theorem generateInitialCoins_clouds (d : ℕ → CoinDraws) (s : GameState) :
    (generateInitialCoins d s).clouds = s.clouds := by
  rw [generateInitialCoins_eq]

@[simp] theorem generateInitialCoins_platforms (d : ℕ → CoinDraws) (s : GameState) :
    (generateInitialCoins d s).platforms = s.platforms := by
  rw [generateInitialCoins_eq]

@[simp] theorem generateInitialCoins_lastPlatformX (d : ℕ → CoinDraws) (s : GameState) :
    (generateInitialCoins d s).lastPlatformX = s.lastPlatformX := by
  rw [generateInitialCoins_eq]

@[simp] theorem generateInitialCoins_activePanel (d : ℕ → CoinDraws) (s : GameState) :
    (generateInitialCoins d s).activePanel = s.activePanel := by
  rw [generateInitialCoins_eq]

@[simp] theorem generateInitialCoins_panelActive (d : ℕ → CoinDraws) (s : GameState) :
    (generateInitialCoins d s).panelActive = s.panelActive := by
  rw [generateInitialCoins_eq]

@[simp] theorem generateInitialCoins_panelContent (d : ℕ → CoinDraws) (s : GameState) :
    (generateInitialCoins d s).panelContent = s.panelContent := by
  rw [generateInitialCoins_eq]

@[simp] theorem moveStep_canvasWidth (s : GameState) :
    (moveStep s).canvasWidth = s.canvasWidth := by
  unfold moveStep; dsimp only; split_ifs <;> rfl

@[simp] theorem moveStep_canvasHeight (s : GameState) :
    (moveStep s).canvasHeight = s.canvasHeight := by
  unfold moveStep; dsimp only; split_ifs <;> rfl

@[simp] theorem moveStep_isActive (s : GameState) :
    (moveStep s).isActive = s.isActive := by
  unfold moveStep; dsimp only; split_ifs <;> rfl

@[simp] theorem moveStep_keys (s : GameState) :
    (moveStep s).keys = s.keys := by
  unfold moveStep; dsimp only; split_ifs <;> rfl

@[simp] theorem moveStep_currentRoom (s : GameState) :
    (moveStep s).currentRoom = s.currentRoom := by
  unfold moveStep; dsimp only; split_ifs <;> rfl

@[simp] theorem moveStep_coins (s : GameState) :
    (moveStep s).coins = s.coins := by
  unfold moveStep; dsimp only; split_ifs <;> rfl

@[simp] theorem moveStep_isDead (s : GameState) :
    (moveStep s).isDead = s.isDead := by
  unfold moveStep; dsimp only; split_ifs <;> rfl

@[simp] theorem moveStep_cameraX (s : GameState) :
    (moveStep s).cameraX = s.cameraX := by
  unfold moveStep; dsimp only; split_ifs <;> rfl

@[simp] theorem moveStep_frame (s : GameState) :
    (moveStep s).frame = s.frame := by
  unfold moveStep; dsimp only; split_ifs <;> rfl

@[simp] theorem moveStep_floatingCoins (s : GameState) :
    (moveStep s).floatingCoins = s.floatingCoins := by
  unfold moveStep; dsimp only; split_ifs <;> rfl

@[simp] theorem moveStep_clouds (s : GameState) :
    (moveStep s).clouds = s.clouds := by
  unfold moveStep; dsimp only; split_ifs <;> rfl

@[simp] theorem moveStep_platforms (s : GameState) :
    (moveStep s).platforms = s.platforms := by
  unfold moveStep; dsimp only; split_ifs <;> rfl

@[simp] theorem moveStep_lastPlatformX (s : GameState) :
    (moveStep s).lastPlatformX = s.lastPlatformX := by
  unfold moveStep; dsimp only; split_ifs <;> rfl

@[simp] theorem moveStep_activePanel (s : GameState) :
    (moveStep s).activePanel = s.activePanel := by
  unfold moveStep; dsimp only; split_ifs <;> rfl

@[simp] theorem moveStep_panelActive (s : GameState) :
    (moveStep s).panelActive = s.panelActive := by
  unfold moveStep; dsimp only; split_ifs <;> rfl

@[simp] theorem moveStep_panelContent (s : GameState) :
    (moveStep s).panelContent = s.panelContent := by
  unfold moveStep; dsimp only; split_ifs <;> rfl

@[simp] theorem moveStep_player_y (s : GameState) :
    (moveStep s).player.y = s.player.y := by
  unfold moveStep; dsimp only; split_ifs <;> rfl

@[simp] theorem moveStep_player_width (s : GameState) :
    (moveStep s).player.width = s.player.width := by
  unfold moveStep; dsimp only; split_ifs <;> rfl

@[simp] theorem moveStep_player_height (s : GameState) :
    (moveStep s).player.height = s.player.height := by
  unfold moveStep; dsimp only; split_ifs <;> rfl

@[simp] theorem moveStep_player_speed (s : GameState) :
    (moveStep s).player.speed = s.player.speed := by
  unfold moveStep; dsimp only; split_ifs <;> rfl

@[simp] theorem moveStep_player_velocityY (s : GameState) :
    (moveStep s).player.velocityY = s.player.velocityY := by
  unfold moveStep; dsimp only; split_ifs <;> rfl

@[simp] theorem moveStep_player_gravity (s : GameState) :
    (moveStep s).player.gravity = s.player.gravity := by
  unfold moveStep; dsimp only; split_ifs <;> rfl

@[simp] theorem moveStep_player_jumpPower (s : GameState) :
    (moveStep s).player.jumpPower = s.player.jumpPower := by
  unfold moveStep; dsimp only; split_ifs <;> rfl

@[simp] theorem moveStep_player_isJumping (s : GameState) :
    (moveStep s).player.isJumping = s.player.isJumping := by
  unfold moveStep; dsimp only; split_ifs <;> rfl

@[simp] theorem moveStep_player_velocityX (s : GameState) :
    (moveStep s).player.velocityX = s.player.velocityX := by
  unfold moveStep; dsimp only; split_ifs <;> rfl

@[simp] theorem cameraStep_canvasWidth (s : GameState) :
    (cameraStep s).canvasWidth = s.canvasWidth := by
  unfold cameraStep; rfl

@[simp] theorem cameraStep_canvasHeight (s : GameState) :
    (cameraStep s).canvasHeight = s.canvasHeight := by
  unfold cameraStep; rfl

@[simp] theorem cameraStep_isActive (s : GameState) :
    (cameraStep s).isActive = s.isActive := by
  unfold cameraStep; rfl

@[simp] theorem cameraStep_player (s : GameState) :
    (cameraStep s).player = s.player := by
  unfold cameraStep; rfl

@[simp] theorem cameraStep_keys (s : GameState) :
    (cameraStep s).keys = s.keys := by
  unfold cameraStep; rfl

@[simp] theorem cameraStep_currentRoom (s : GameState) :
    (cameraStep s).currentRoom = s.currentRoom := by
  unfold cameraStep; rfl

@[simp] theorem cameraStep_coins (s : GameState) :
    (cameraStep s).coins = s.coins := by
  unfold cameraStep; rfl

@[simp] theorem cameraStep_distance (s : GameState) :
    (cameraStep s).distance = s.distance := by
  unfold cameraStep; rfl

@[simp] theorem cameraStep_isDead (s : GameState) :
    (cameraStep s).isDead = s.isDead := by
  unfold cameraStep; rfl

@[simp] theorem cameraStep_frame (s : GameState) :
    (cameraStep s).frame = s.frame := by
  unfold cameraStep; rfl

@[simp] theorem cameraStep_floatingCoins (s : GameState) :
    (cameraStep s).floatingCoins = s.floatingCoins := by
  unfold cameraStep; rfl

@[simp] theorem cameraStep_clouds (s : GameState) :
    (cameraStep s).clouds = s.clouds := by
  unfold cameraStep; rfl

@[simp] theorem cameraStep_platforms (s : GameState) :
    (cameraStep s).platforms = s.platforms := by
  unfold cameraStep; rfl

@[simp] theorem cameraStep_lastPlatformX (s : GameState) :
    (cameraStep s).lastPlatformX = s.lastPlatformX := by
  unfold cameraStep; rfl

@[simp] theorem cameraStep_activePanel (s : GameState) :
    (cameraStep s).activePanel = s.activePanel := by
  unfold cameraStep; rfl

@[simp] theorem cameraStep_panelActive (s : GameState) :
    (cameraStep s).panelActive = s.panelActive := by
  unfold cameraStep; rfl

@[simp] theorem cameraStep_panelContent (s : GameState) :
    (cameraStep s).panelContent = s.panelContent := by
  unfold cameraStep; rfl

@[simp] theorem gravityStep_canvasWidth (s : GameState) :
    (gravityStep s).canvasWidth = s.canvasWidth := by
  unfold gravityStep; rfl

@[simp] theorem gravityStep_canvasHeight (s : GameState) :
    (gravityStep s).canvasHeight = s.canvasHeight := by
  unfold gravityStep; rfl

@[simp] theorem gravityStep_isActive (s : GameState) :
    (gravityStep s).isActive = s.isActive := by
  unfold gravityStep; rfl

@[simp] theorem gravityStep_keys (s : GameState) :
    (gravityStep s).keys = s.keys := by
  unfold gravityStep; rfl

@[simp] theorem gravityStep_currentRoom (s : GameState) :
    (gravityStep s).currentRoom = s.currentRoom := by
  unfold gravityStep; rfl

@[simp] theorem gravityStep_coins (s : GameState) :
    (gravityStep s).coins = s.coins := by
  unfold gravityStep; rfl

@[simp] theorem gravityStep_distance (s : GameState) :
    (gravityStep s).distance = s.distance := by
  unfold gravityStep; rfl

@[simp] theorem gravityStep_isDead (s : GameState) :
    (gravityStep s).isDead = s.isDead := by
  unfold gravityStep; rfl

@[simp] theorem gravityStep_cameraX (s : GameState) :
    (gravityStep s).cameraX = s.cameraX := by
  unfold gravityStep; rfl

@[simp] theorem gravityStep_frame (s : GameState) :
    (gravityStep s).frame = s.frame := by
  unfold gravityStep; rfl

@[simp] theorem gravityStep_floatingCoins (s : GameState) :
    (gravityStep s).floatingCoins = s.floatingCoins := by
  unfold gravityStep; rfl

@[simp] theorem gravityStep_clouds (s : GameState) :
    (gravityStep s).clouds = s.clouds := by
  unfold gravityStep; rfl

@[simp] theorem gravityStep_platforms (s : GameState) :
    (gravityStep s).platforms = s.platforms := by
  unfold gravityStep; rfl

@[simp] theorem gravityStep_lastPlatformX (s : GameState) :
    (gravityStep s).lastPlatformX = s.lastPlatformX := by
  unfold gravityStep; rfl

@[simp] theorem gravityStep_activePanel (s : GameState) :
    (gravityStep s).activePanel = s.activePanel := by
  unfold gravityStep; rfl

@[simp] theorem gravityStep_panelActive (s : GameState) :
    (gravityStep s).panelActive = s.panelActive := by
  unfold gravityStep; rfl

@[simp] theorem gravityStep_panelContent (s : GameState) :
    (gravityStep s).panelContent = s.panelContent := by
  unfold gravityStep; rfl

@[simp] theorem gravityStep_player_x (s : GameState) :
    (gravityStep s).player.x = s.player.x := by
  unfold gravityStep; rfl

@[simp] theorem gravityStep_player_width (s : GameState) :
    (gravityStep s).player.width = s.player.width := by
  unfold gravityStep; rfl

@[simp] theorem gravityStep_player_height (s : GameState) :
    (gravityStep s).player.height = s.player.height := by
  unfold gravityStep; rfl

@[simp] theorem gravityStep_player_speed (s : GameState) :
    (gravityStep s).player.speed = s.player.speed := by
  unfold gravityStep; rfl

@[simp] theorem gravityStep_player_gravity (s : GameState) :
    (gravityStep s).player.gravity = s.player.gravity := by
  unfold gravityStep; rfl

@[simp] theorem gravityStep_player_jumpPower (s : GameState) :
    (gravityStep s).player.jumpPower = s.player.jumpPower := by
  unfold gravityStep; rfl

@[simp] theorem gravityStep_player_direction (s : GameState) :
    (gravityStep s).player.direction = s.player.direction := by
  unfold gravityStep; rfl

@[simp] theorem gravityStep_player_velocityX (s : GameState) :
    (gravityStep s).player.velocityX = s.player.velocityX := by
  unfold gravityStep; rfl

@[simp] theorem collisionStep_canvasWidth (s : GameState) :
    (collisionStep s).canvasWidth = s.canvasWidth := by
  unfold collisionStep; rfl

@[simp] theorem collisionStep_canvasHeight (s : GameState) :
    (collisionStep s).canvasHeight = s.canvasHeight := by
  unfold collisionStep; rfl

@[simp] theorem collisionStep_isActive (s : GameState) :
    (collisionStep s).isActive = s.isActive := by
  unfold collisionStep; rfl

@[simp] theorem collisionStep_keys (s : GameState) :
    (collisionStep s).keys = s.keys := by
  unfold collisionStep; rfl

@[simp] theorem collisionStep_currentRoom (s : GameState) :
    (collisionStep s).currentRoom = s.currentRoom := by
  unfold collisionStep; rfl

@[simp] theorem collisionStep_coins (s : GameState) :
    (collisionStep s).coins = s.coins := by
  unfold collisionStep; rfl

@[simp] theorem collisionStep_distance (s : GameState) :
    (collisionStep s).distance = s.distance := by
  unfold collisionStep; rfl

@[simp] theorem collisionStep_isDead (s : GameState) :
    (collisionStep s).isDead = s.isDead := by
  unfold collisionStep; rfl

@[simp] theorem collisionStep_cameraX (s : GameState) :
    (collisionStep s).cameraX = s.cameraX := by
  unfold collisionStep; rfl

@[simp] theorem collisionStep_frame (s : GameState) :
    (collisionStep s).frame = s.frame := by
  unfold collisionStep; rfl

@[simp] theorem collisionStep_floatingCoins (s : GameState) :
    (collisionStep s).floatingCoins = s.floatingCoins := by
  unfold collisionStep; rfl

@[simp] theorem collisionStep_clouds (s : GameState) :
    (collisionStep s).clouds = s.clouds := by
  unfold collisionStep; rfl

@[simp] theorem collisionStep_platforms (s : GameState) :
    (collisionStep s).platforms = s.platforms := by
  unfold collisionStep; rfl

@[simp] theorem collisionStep_lastPlatformX (s : GameState) :
    (collisionStep s).lastPlatformX = s.lastPlatformX := by
  unfold collisionStep; rfl

@[simp] theorem collisionStep_activePanel (s : GameState) :
    (collisionStep s).activePanel = s.activePanel := by
  unfold collisionStep; rfl

@[simp] theorem collisionStep_panelActive (s : GameState) :
    (collisionStep s).panelActive = s.panelActive := by
  unfold collisionStep; rfl

@[simp] theorem collisionStep_panelContent (s : GameState) :
    (collisionStep s).panelContent = s.panelContent := by
  unfold collisionStep; rfl

@[simp] theorem coinStep_canvasWidth (s : GameState) :
    (coinStep s).canvasWidth = s.canvasWidth := by
  unfold coinStep; rfl

@[simp] theorem coinStep_canvasHeight (s : GameState) :
    (coinStep s).canvasHeight = s.canvasHeight := by
  unfold coinStep; rfl

@[simp] theorem coinStep_isActive (s : GameState) :
    (coinStep s).isActive = s.isActive := by
  unfold coinStep; rfl

@[simp] theorem coinStep_player (s : GameState) :
    (coinStep s).player = s.player := by
  unfold coinStep; rfl

@[simp] theorem coinStep_keys (s : GameState) :
    (coinStep s).keys = s.keys := by
  unfold coinStep; rfl

@[simp] theorem coinStep_currentRoom (s : GameState) :
    (coinStep s).currentRoom = s.currentRoom := by
  unfold coinStep; rfl

@[simp] theorem coinStep_distance (s : GameState) :
    (coinStep s).distance = s.distance := by
  unfold coinStep; rfl

@[simp] theorem coinStep_isDead (s : GameState) :
    (coinStep s).isDead = s.isDead := by
  unfold coinStep; rfl

@[simp] theorem coinStep_cameraX (s : GameState) :
    (coinStep s).cameraX = s.cameraX := by
  unfold coinStep; rfl

@[simp] theorem coinStep_frame (s : GameState) :
    (coinStep s).frame = s.frame := by
  unfold coinStep; rfl

@[simp] theorem coinStep_clouds (s : GameState) :
    (coinStep s).clouds = s.clouds := by
  unfold coinStep; rfl

@[simp] theorem coinStep_platforms (s : GameState) :
    (coinStep s).platforms = s.platforms := by
  unfold coinStep; rfl

@[simp] theorem coinStep_lastPlatformX (s : GameState) :
    (coinStep s).lastPlatformX = s.lastPlatformX := by
  unfold coinStep; rfl

@[simp] theorem coinStep_activePanel (s : GameState) :
    (coinStep s).activePanel = s.activePanel := by
  unfold coinStep; rfl

@[simp] theorem coinStep_panelActive (s : GameState) :
    (coinStep s).panelActive = s.panelActive := by
  unfold coinStep; rfl

@[simp] theorem coinStep_panelContent (s : GameState) :
    (coinStep s).panelContent = s.panelContent := by
  unfold coinStep; rfl

@[simp] theorem generateStep_canvasWidth (d : ℕ → PlatformDraws) (s : GameState) :
    (generateStep d s).canvasWidth = s.canvasWidth := by
  unfold generateStep; split_ifs <;> simp

@[simp] theorem generateStep_canvasHeight (d : ℕ → PlatformDraws) (s : GameState) :
    (generateStep d s).canvasHeight = s.canvasHeight := by
  unfold generateStep; split_ifs <;> simp

@[simp] theorem generateStep_isActive (d : ℕ → PlatformDraws) (s : GameState) :
    (generateStep d s).isActive = s.isActive := by
  unfold generateStep; split_ifs <;> simp

@[simp] theorem generateStep_player (d : ℕ → PlatformDraws) (s : GameState) :
    (generateStep d s).player = s.player := by
  unfold generateStep; split_ifs <;> simp

@[simp] theorem generateStep_keys (d : ℕ → PlatformDraws) (s : GameState) :
    (generateStep d s).keys = s.keys := by
  unfold generateStep; split_ifs <;> simp

@[simp] theorem generateStep_currentRoom (d : ℕ → PlatformDraws) (s : GameState) :
    (generateStep d s).currentRoom = s.currentRoom := by
  unfold generateStep; split_ifs <;> simp

@[simp] theorem generateStep_coins (d : ℕ → PlatformDraws) (s : GameState) :
    (generateStep d s).coins = s.coins := by
  unfold generateStep; split_ifs <;> simp

@[simp] theorem generateStep_distance (d : ℕ → PlatformDraws) (s : GameState) :
    (generateStep d s).distance = s.distance := by
  unfold generateStep; split_ifs <;> simp

@[simp] theorem generateStep_isDead (d : ℕ → PlatformDraws) (s : GameState) :
    (generateStep d s).isDead = s.isDead := by
  unfold generateStep; split_ifs <;> simp

@[simp] theorem generateStep_cameraX (d : ℕ → PlatformDraws) (s : GameState) :
    (generateStep d s).cameraX = s.cameraX := by
  unfold generateStep; split_ifs <;> simp

@[simp] theorem generateStep_frame (d : ℕ → PlatformDraws) (s : GameState) :
    (generateStep d s).frame = s.frame := by
  unfold generateStep; split_ifs <;> simp

@[simp] theorem generateStep_clouds (d : ℕ → PlatformDraws) (s : GameState) :
    (generateStep d s).clouds = s.clouds := by
  unfold generateStep; split_ifs <;> simp

@[simp] theorem generateStep_activePanel (d : ℕ → PlatformDraws) (s : GameState) :
    (generateStep d s).activePanel = s.activePanel := by
  unfold generateStep; split_ifs <;> simp

@[simp] theorem generateStep_panelActive (d : ℕ → PlatformDraws) (s : GameState) :
    (generateStep d s).panelActive = s.panelActive := by
  unfold generateStep; split_ifs <;> simp

@[simp] theorem generateStep_panelContent (d : ℕ → PlatformDraws) (s : GameState) :
    (generateStep d s).panelContent = s.panelContent := by
  unfold generateStep; split_ifs <;> simp

@[simp] theorem cloudStep_canvasWidth (d : CloudDraws) (s : GameState) :
    (cloudStep d s).canvasWidth = s.canvasWidth := by
  unfold cloudStep; split_ifs <;> rfl

@[simp] theorem cloudStep_canvasHeight (d : CloudDraws) (s : GameState) :
    (cloudStep d s).canvasHeight = s.canvasHeight := by
  unfold cloudStep; split_ifs <;> rfl

@[simp] theorem cloudStep_isActive (d : CloudDraws) (s : GameState) :
    (cloudStep d s).isActive = s.isActive := by
  unfold cloudStep; split_ifs <;> rfl

@[simp] theorem cloudStep_player (d : CloudDraws) (s : GameState) :
    (cloudStep d s).player = s.player := by
  unfold cloudStep; split_ifs <;> rfl

@[simp] theorem cloudStep_keys (d : CloudDraws) (s : GameState) :
    (cloudStep d s).keys = s.keys := by
  unfold cloudStep; split_ifs <;> rfl

@[simp] theorem cloudStep_currentRoom (d : CloudDraws) (s : GameState) :
    (cloudStep d s).currentRoom = s.currentRoom := by
  unfold cloudStep; split_ifs <;> rfl

@[simp] theorem cloudStep_coins (d : CloudDraws) (s : GameState) :
    (cloudStep d s).coins = s.coins := by
  unfold cloudStep; split_ifs <;> rfl

@[simp] theorem cloudStep_distance (d : CloudDraws) (s : GameState) :
    (cloudStep d s).distance = s.distance := by
  unfold cloudStep; split_ifs <;> rfl

@[simp] theorem cloudStep_isDead (d : CloudDraws) (s : GameState) :
    (cloudStep d s).isDead = s.isDead := by
  unfold cloudStep; split_ifs <;> rfl

@[simp] theorem cloudStep_cameraX (d : CloudDraws) (s : GameState) :
    (cloudStep d s).cameraX = s.cameraX := by
  unfold cloudStep; split_ifs <;> rfl

@[simp] theorem cloudStep_frame (d : CloudDraws) (s : GameState) :
    (cloudStep d s).frame = s.frame := by
  unfold cloudStep; split_ifs <;> rfl

@[simp] theorem cloudStep_floatingCoins (d : CloudDraws) (s : GameState) :
    (cloudStep d s).floatingCoins = s.floatingCoins := by
  unfold cloudStep; split_ifs <;> rfl

@[simp] theorem cloudStep_platforms (d : CloudDraws) (s : GameState) :
    (cloudStep d s).platforms = s.platforms := by
  unfold cloudStep; split_ifs <;> rfl

@[simp] theorem cloudStep_lastPlatformX (d : CloudDraws) (s : GameState) :
    (cloudStep d s).lastPlatformX = s.lastPlatformX := by
  unfold cloudStep; split_ifs <;> rfl

@[simp] theorem cloudStep_activePanel (d : CloudDraws) (s : GameState) :
    (cloudStep d s).activePanel = s.activePanel := by
  unfold cloudStep; split_ifs <;> rfl

@[simp] theorem cloudStep_panelActive (d : CloudDraws) (s : GameState) :
    (cloudStep d s).panelActive = s.panelActive := by
  unfold cloudStep; split_ifs <;> rfl

@[simp] theorem cloudStep_panelContent (d : CloudDraws) (s : GameState) :
    (cloudStep d s).panelContent = s.panelContent := by
  unfold cloudStep; split_ifs <;> rfl

@[simp] theorem handleDeath_canvasWidth (r : ℚ) (s : GameState) :
    (handleDeath r s).canvasWidth = s.canvasWidth := by
  unfold handleDeath; rfl

@[simp] theorem handleDeath_canvasHeight (r : ℚ) (s : GameState) :
    (handleDeath r s).canvasHeight = s.canvasHeight := by
  unfold handleDeath; rfl

@[simp] theorem handleDeath_isActive (r : ℚ) (s : GameState) :
    (handleDeath r s).isActive = s.isActive := by
  unfold handleDeath; rfl

@[simp] theorem handleDeath_player (r : ℚ) (s : GameState) :
    (handleDeath r s).player = s.player := by
  unfold handleDeath; rfl

@[simp] theorem handleDeath_keys (r : ℚ) (s : GameState) :
    (handleDeath r s).keys = s.keys := by
  unfold handleDeath; rfl

@[simp] theorem handleDeath_currentRoom (r : ℚ) (s : GameState) :
    (handleDeath r s).currentRoom = s.currentRoom := by
  unfold handleDeath; rfl

@[simp] theorem handleDeath_coins (r : ℚ) (s : GameState) :
    (handleDeath r s).coins = s.coins := by
  unfold handleDeath; rfl

@[simp] theorem handleDeath_distance (r : ℚ) (s : GameState) :
    (handleDeath r s).distance = s.distance := by
  unfold handleDeath; rfl

@[simp] theorem handleDeath_cameraX (r : ℚ) (s : GameState) :
    (handleDeath r s).cameraX = s.cameraX := by
  unfold handleDeath; rfl

@[simp] theorem handleDeath_frame (r : ℚ) (s : GameState) :
    (handleDeath r s).frame = s.frame := by
  unfold handleDeath; rfl

@[simp] theorem handleDeath_floatingCoins (r : ℚ) (s : GameState) :
    (handleDeath r s).floatingCoins = s.floatingCoins := by
  unfold handleDeath; rfl

@[simp] theorem handleDeath_clouds (r : ℚ) (s : GameState) :
    (handleDeath r s).clouds = s.clouds := by
  unfold handleDeath; rfl

@[simp] theorem handleDeath_platforms (r : ℚ) (s : GameState) :
    (handleDeath r s).platforms = s.platforms := by
  unfold handleDeath; rfl

@[simp] theorem handleDeath_lastPlatformX (r : ℚ) (s : GameState) :
    (handleDeath r s).lastPlatformX = s.lastPlatformX := by
  unfold handleDeath; rfl

@[simp] theorem handleDeath_activePanel (r : ℚ) (s : GameState) :
    (handleDeath r s).activePanel = s.activePanel := by
  unfold handleDeath; rfl

@[simp] theorem deathStep_canvasWidth (r : ℚ) (s : GameState) :
    (deathStep r s).canvasWidth = s.canvasWidth := by
  unfold deathStep; split_ifs <;> simp

@[simp] theorem deathStep_canvasHeight (r : ℚ) (s : GameState) :
    (deathStep r s).canvasHeight = s.canvasHeight := by
  unfold deathStep; split_ifs <;> simp

@[simp] theorem deathStep_isActive (r : ℚ) (s : GameState) :
    (deathStep r s).isActive = s.isActive := by
  unfold deathStep; split_ifs <;> simp

@[simp] theorem deathStep_player (r : ℚ) (s : GameState) :
    (deathStep r s).player = s.player := by
  unfold deathStep; split_ifs <;> simp

@[simp] theorem deathStep_keys (r : ℚ) (s : GameState) :
    (deathStep r s).keys = s.keys := by
  unfold deathStep; split_ifs <;> simp

@[simp] theorem deathStep_currentRoom (r : ℚ) (s : GameState) :
    (deathStep r s).currentRoom = s.currentRoom := by
  unfold deathStep; split_ifs <;> simp

@[simp] theorem deathStep_coins (r : ℚ) (s : GameState) :
    (deathStep r s).coins = s.coins := by
  unfold deathStep; split_ifs <;> simp

@[simp] theorem deathStep_distance (r : ℚ) (s : GameState) :
    (deathStep r s).distance = s.distance := by
  unfold deathStep; split_ifs <;> simp

@[simp] theorem deathStep_cameraX (r : ℚ) (s : GameState) :
    (deathStep r s).cameraX = s.cameraX := by
  unfold deathStep; split_ifs <;> simp

@[simp] theorem deathStep_frame (r : ℚ) (s : GameState) :
    (deathStep r s).frame = s.frame := by
  unfold deathStep; split_ifs <;> simp

@[simp] theorem deathStep_floatingCoins (r : ℚ) (s : GameState) :
    (deathStep r s).floatingCoins = s.floatingCoins := by
  unfold deathStep; split_ifs <;> simp

@[simp] theorem deathStep_clouds (r : ℚ) (s : GameState) :
    (deathStep r s).clouds = s.clouds := by
  unfold deathStep; split_ifs <;> simp

@[simp] theorem deathStep_platforms (r : ℚ) (s : GameState) :
    (deathStep r s).platforms = s.platforms := by
  unfold deathStep; split_ifs <;> simp

@[simp] theorem deathStep_lastPlatformX (r : ℚ) (s : GameState) :
    (deathStep r s).lastPlatformX = s.lastPlatformX := by
  unfold deathStep; split_ifs <;> simp

@[simp] theorem deathStep_activePanel (r : ℚ) (s : GameState) :
    (deathStep r s).activePanel = s.activePanel := by
  unfold deathStep; split_ifs <;> simp

@[simp] theorem boundaryStep_canvasWidth (s : GameState) :
    (boundaryStep s).canvasWidth = s.canvasWidth := by
  unfold boundaryStep; split_ifs <;> rfl

@[simp] theorem boundaryStep_canvasHeight (s : GameState) :
    (boundaryStep s).canvasHeight = s.canvasHeight := by
  unfold boundaryStep; split_ifs <;> rfl

@[simp] theorem boundaryStep_isActive (s : GameState) :
    (boundaryStep s).isActive = s.isActive := by
  unfold boundaryStep; split_ifs <;> rfl

@[simp] theorem boundaryStep_keys (s : GameState) :
    (boundaryStep s).keys = s.keys := by
  unfold boundaryStep; split_ifs <;> rfl

@[simp] theorem boundaryStep_currentRoom (s : GameState) :
    (boundaryStep s).currentRoom = s.currentRoom := by
  unfold boundaryStep; split_ifs <;> rfl

@[simp] theorem boundaryStep_coins (s : GameState) :
    (boundaryStep s).coins = s.coins := by
  unfold boundaryStep; split_ifs <;> rfl

@[simp] theorem boundaryStep_distance (s : GameState) :
    (boundaryStep s).distance = s.distance := by
  unfold boundaryStep; split_ifs <;> rfl

@[simp] theorem boundaryStep_isDead (s : GameState) :
    (boundaryStep s).isDead = s.isDead := by
  unfold boundaryStep; split_ifs <;> rfl

@[simp] theorem boundaryStep_cameraX (s : GameState) :
    (boundaryStep s).cameraX = s.cameraX := by
  unfold boundaryStep; split_ifs <;> rfl

@[simp] theorem boundaryStep_frame (s : GameState) :
    (boundaryStep s).frame = s.frame := by
  unfold boundaryStep; split_ifs <;> rfl

@[simp] theorem boundaryStep_floatingCoins (s : GameState) :
    (boundaryStep s).floatingCoins = s.floatingCoins := by
  unfold boundaryStep; split_ifs <;> rfl

@[simp] theorem boundaryStep_clouds (s : GameState) :
    (boundaryStep s).clouds = s.clouds := by
  unfold boundaryStep; split_ifs <;> rfl

@[simp] theorem boundaryStep_platforms (s : GameState) :
    (boundaryStep s).platforms = s.platforms := by
  unfold boundaryStep; split_ifs <;> rfl

@[simp] theorem boundaryStep_lastPlatformX (s : GameState) :
    (boundaryStep s).lastPlatformX = s.lastPlatformX := by
  unfold boundaryStep; split_ifs <;> rfl

@[simp] theorem boundaryStep_activePanel (s : GameState) :
    (boundaryStep s).activePanel = s.activePanel := by
  unfold boundaryStep; split_ifs <;> rfl

@[simp] theorem boundaryStep_panelActive (s : GameState) :
    (boundaryStep s).panelActive = s.panelActive := by
  unfold boundaryStep; split_ifs <;> rfl

@[simp] theorem boundaryStep_panelContent (s : GameState) :
    (boundaryStep s).panelContent = s.panelContent := by
  unfold boundaryStep; split_ifs <;> rfl

@[simp] theorem boundaryStep_player_y (s : GameState) :
    (boundaryStep s).player.y = s.player.y := by
  unfold boundaryStep; split_ifs <;> rfl

@[simp] theorem boundaryStep_player_width (s : GameState) :
    (boundaryStep s).player.width = s.player.width := by
  unfold boundaryStep; split_ifs <;> rfl

@[simp] theorem boundaryStep_player_height (s : GameState) :
    (boundaryStep s).player.height = s.player.height := by
  unfold boundaryStep; split_ifs <;> rfl

@[simp] theorem boundaryStep_player_speed (s : GameState) :
    (boundaryStep s).player.speed = s.player.speed := by
  unfold boundaryStep; split_ifs <;> rfl

@[simp] theorem boundaryStep_player_velocityY (s : GameState) :
    (boundaryStep s).player.velocityY = s.player.velocityY := by
  unfold boundaryStep; split_ifs <;> rfl

@[simp] theorem boundaryStep_player_gravity (s : GameState) :
    (boundaryStep s).player.gravity = s.player.gravity := by
  unfold boundaryStep; split_ifs <;> rfl

@[simp] theorem boundaryStep_player_jumpPower (s : GameState) :
    (boundaryStep s).player.jumpPower = s.player.jumpPower := by
  unfold boundaryStep; split_ifs <;> rfl

@[simp] theorem boundaryStep_player_isJumping (s : GameState) :
    (boundaryStep s).player.isJumping = s.player.isJumping := by
  unfold boundaryStep; split_ifs <;> rfl

@[simp] theorem boundaryStep_player_direction (s : GameState) :
    (boundaryStep s).player.direction = s.player.direction := by
  unfold boundaryStep; split_ifs <;> rfl

@[simp] theorem boundaryStep_player_velocityX (s : GameState) :
    (boundaryStep s).player.velocityX = s.player.velocityX := by
  unfold boundaryStep; split_ifs <;> rfl

@[simp] theorem frameStep_canvasWidth (s : GameState) :
    (frameStep s).canvasWidth = s.canvasWidth := by
  unfold frameStep; rfl

@[simp] theorem frameStep_canvasHeight (s : GameState) :
    (frameStep s).canvasHeight = s.canvasHeight := by
  unfold frameStep; rfl

@[simp] theorem frameStep_isActive (s : GameState) :
    (frameStep s).isActive = s.isActive := by
  unfold frameStep; rfl

@[simp] theorem frameStep_player (s : GameState) :
    (frameStep s).player = s.player := by
  unfold frameStep; rfl

@[simp] theorem frameStep_keys (s : GameState) :
    (frameStep s).keys = s.keys := by
  unfold frameStep; rfl

@[simp] theorem frameStep_currentRoom (s : GameState) :
    (frameStep s).currentRoom = s.currentRoom := by
  unfold frameStep; rfl

@[simp] theorem frameStep_coins (s : GameState) :
    (frameStep s).coins = s.coins := by
  unfold frameStep; rfl

@[simp] theorem frameStep_distance (s : GameState) :
    (frameStep s).distance = s.distance := by
  unfold frameStep; rfl

@[simp] theorem frameStep_isDead (s : GameState) :
    (frameStep s).isDead = s.isDead := by
  unfold frameStep; rfl

@[simp] theorem frameStep_cameraX (s : GameState) :
    (frameStep s).cameraX = s.cameraX := by
  unfold frameStep; rfl

@[simp] theorem frameStep_floatingCoins (s : GameState) :
    (frameStep s).floatingCoins = s.floatingCoins := by
  unfold frameStep; rfl

@[simp] theorem frameStep_clouds (s : GameState) :
    (frameStep s).clouds = s.clouds := by
  unfold frameStep; rfl

@[simp] theorem frameStep_platforms (s : GameState) :
    (frameStep s).platforms = s.platforms := by
  unfold frameStep; rfl

@[simp] theorem frameStep_lastPlatformX (s : GameState) :
    (frameStep s).lastPlatformX = s.lastPlatformX := by
  unfold frameStep; rfl

@[simp] theorem frameStep_activePanel (s : GameState) :
    (frameStep s).activePanel = s.activePanel := by
  unfold frameStep; rfl

@[simp] theorem frameStep_panelActive (s : GameState) :
    (frameStep s).panelActive = s.panelActive := by
  unfold frameStep; rfl

@[simp] theorem frameStep_panelContent (s : GameState) :
    (frameStep s).panelContent = s.panelContent := by
  unfold frameStep; rfl

@[simp] theorem closeInfo_canvasWidth (s : GameState) :
    (closeInfo s).canvasWidth = s.canvasWidth := by
  unfold closeInfo; rfl

@[simp] theorem closeInfo_canvasHeight (s : GameState) :
    (closeInfo s).canvasHeight = s.canvasHeight := by
  unfold closeInfo; rfl

@[simp] theorem closeInfo_isActive (s : GameState) :
    (closeInfo s).isActive = s.isActive := by
  unfold closeInfo; rfl

@[simp] theorem closeInfo_player (s : GameState) :
    (closeInfo s).player = s.player := by
  unfold closeInfo; rfl

@[simp] theorem closeInfo_keys (s : GameState) :
    (closeInfo s).keys = s.keys := by
  unfold closeInfo; rfl

@[simp] theorem closeInfo_currentRoom (s : GameState) :
    (closeInfo s).currentRoom = s.currentRoom := by
  unfold closeInfo; rfl

@[simp] theorem closeInfo_coins (s : GameState) :
    (closeInfo s).coins = s.coins := by
  unfold closeInfo; rfl

@[simp] theorem closeInfo_distance (s : GameState) :
    (closeInfo s).distance = s.distance := by
  unfold closeInfo; rfl

@[simp] theorem closeInfo_isDead (s : GameState) :
    (closeInfo s).isDead = s.isDead := by
  unfold closeInfo; rfl

@[simp] theorem closeInfo_cameraX (s : GameState) :
    (closeInfo s).cameraX = s.cameraX := by
  unfold closeInfo; rfl

@[simp] theorem closeInfo_frame (s : GameState) :
    (closeInfo s).frame = s.frame := by
  unfold closeInfo; rfl

@[simp] theorem closeInfo_floatingCoins (s : GameState) :
    (closeInfo s).floatingCoins = s.floatingCoins := by
  unfold closeInfo; rfl

@[simp] theorem closeInfo_clouds (s : GameState) :
    (closeInfo s).clouds = s.clouds := by
  unfold closeInfo; rfl

@[simp] theorem closeInfo_platforms (s : GameState) :
    (closeInfo s).platforms = s.platforms := by
  unfold closeInfo; rfl

@[simp] theorem closeInfo_lastPlatformX (s : GameState) :
    (closeInfo s).lastPlatformX = s.lastPlatformX := by
  unfold closeInfo; rfl

@[simp] theorem closeInfo_panelContent (s : GameState) :
    (closeInfo s).panelContent = s.panelContent := by
  unfold closeInfo; rfl

@[simp] theorem showInfo_canvasWidth (type : String) (s : GameState) :
    (showInfo type s).canvasWidth = s.canvasWidth := by
  unfold showInfo; split_ifs <;> rfl

@[simp] theorem showInfo_canvasHeight (type : String) (s : GameState) :
    (showInfo type s).canvasHeight = s.canvasHeight := by
  unfold showInfo; split_ifs <;> rfl

@[simp] theorem showInfo_isActive (type : String) (s : GameState) :
    (showInfo type s).isActive = s.isActive := by
  unfold showInfo; split_ifs <;> rfl

@[simp] theorem showInfo_player (type : String) (s : GameState) :
    (showInfo type s).player = s.player := by
  unfold showInfo; split_ifs <;> rfl

@[simp] theorem showInfo_keys (type : String) (s : GameState) :
    (showInfo type s).keys = s.keys := by
  unfold showInfo; split_ifs <;> rfl

@[simp] theorem showInfo_currentRoom (type : String) (s : GameState) :
    (showInfo type s).currentRoom = s.currentRoom := by
  unfold showInfo; split_ifs <;> rfl

@[simp] theorem showInfo_coins (type : String) (s : GameState) :
    (showInfo type s).coins = s.coins := by
  unfold showInfo; split_ifs <;> rfl

@[simp] theorem showInfo_distance (type : String) (s : GameState) :
    (showInfo type s).distance = s.distance := by
  unfold showInfo; split_ifs <;> rfl

@[simp] theorem showInfo_isDead (type : String) (s : GameState) :
    (showInfo type s).isDead = s.isDead := by
  unfold showInfo; split_ifs <;> rfl

@[simp] theorem showInfo_cameraX (type : String) (s : GameState) :
    (showInfo type s).cameraX = s.cameraX := by
  unfold showInfo; split_ifs <;> rfl

@[simp] theorem showInfo_frame (type : String) (s : GameState) :
    (showInfo type s).frame = s.frame := by
  unfold showInfo; split_ifs <;> rfl

@[simp] theorem showInfo_floatingCoins (type : String) (s : GameState) :
    (showInfo type s).floatingCoins = s.floatingCoins := by
  unfold showInfo; split_ifs <;> rfl

@[simp] theorem showInfo_clouds (type : String) (s : GameState) :
    (showInfo type s).clouds = s.clouds := by
  unfold showInfo; split_ifs <;> rfl

@[simp] theorem showInfo_platforms (type : String) (s : GameState) :
    (showInfo type s).platforms = s.platforms := by
  unfold showInfo; split_ifs <;> rfl

@[simp] theorem showInfo_lastPlatformX (type : String) (s : GameState) :
    (showInfo type s).lastPlatformX = s.lastPlatformX := by
  unfold showInfo; split_ifs <;> rfl

@[simp] theorem interactWith_canvasWidth (s : GameState) (p : Platform) :
    (interactWith s p).canvasWidth = s.canvasWidth := by
  unfold interactWith; split <;> [split_ifs <;> simp; rfl]

@[simp] theorem interactWith_canvasHeight (s : GameState) (p : Platform) :
    (interactWith s p).canvasHeight = s.canvasHeight := by
  unfold interactWith; split <;> [split_ifs <;> simp; rfl]

@[simp] theorem interactWith_isActive (s : GameState) (p : Platform) :
    (interactWith s p).isActive = s.isActive := by
  unfold interactWith; split <;> [split_ifs <;> simp; rfl]

@[simp] theorem interactWith_player (s : GameState) (p : Platform) :
    (interactWith s p).player = s.player := by
  unfold interactWith; split <;> [split_ifs <;> simp; rfl]

@[simp] theorem interactWith_keys (s : GameState) (p : Platform) :
    (interactWith s p).keys = s.keys := by
  unfold interactWith; split <;> [split_ifs <;> simp; rfl]

@[simp] theorem interactWith_currentRoom (s : GameState) (p : Platform) :
    (interactWith s p).currentRoom = s.currentRoom := by
  unfold interactWith; split <;> [split_ifs <;> simp; rfl]

@[simp] theorem interactWith_coins (s : GameState) (p : Platform) :
    (interactWith s p).coins = s.coins := by
  unfold interactWith; split <;> [split_ifs <;> simp; rfl]

@[simp] theorem interactWith_distance (s : GameState) (p : Platform) :
    (interactWith s p).distance = s.distance := by
  unfold interactWith; split <;> [split_ifs <;> simp; rfl]

@[simp] theorem interactWith_isDead (s : GameState) (p : Platform) :
    (interactWith s p).isDead = s.isDead := by
  unfold interactWith; split <;> [split_ifs <;> simp; rfl]

@[simp] theorem interactWith_cameraX (s : GameState) (p : Platform) :
    (interactWith s p).cameraX = s.cameraX := by
  unfold interactWith; split <;> [split_ifs <;> simp; rfl]

@[simp] theorem interactWith_frame (s : GameState) (p : Platform) :
    (interactWith s p).frame = s.frame := by
  unfold interactWith; split <;> [split_ifs <;> simp; rfl]

@[simp] theorem interactWith_floatingCoins (s : GameState) (p : Platform) :
    (interactWith s p).floatingCoins = s.floatingCoins := by
  unfold interactWith; split <;> [split_ifs <;> simp; rfl]

@[simp] theorem interactWith_clouds (s : GameState) (p : Platform) :
    (interactWith s p).clouds = s.clouds := by
  unfold interactWith; split <;> [split_ifs <;> simp; rfl]

@[simp] theorem interactWith_platforms (s : GameState) (p : Platform) :
    (interactWith s p).platforms = s.platforms := by
  unfold interactWith; split <;> [split_ifs <;> simp; rfl]

@[simp] theorem interactWith_lastPlatformX (s : GameState) (p : Platform) :
    (interactWith s p).lastPlatformX = s.lastPlatformX := by
  unfold interactWith; split <;> [split_ifs <;> simp; rfl]

@[simp] theorem recordKey_canvasWidth (k : String) (s : GameState) :
    (recordKey k s).canvasWidth = s.canvasWidth := by
  unfold recordKey; rfl

@[simp] theorem recordKey_canvasHeight (k : String) (s : GameState) :
    (recordKey k s).canvasHeight = s.canvasHeight := by
  unfold recordKey; rfl

@[simp] theorem recordKey_isActive (k : String) (s : GameState) :
    (recordKey k s).isActive = s.isActive := by
  unfold recordKey; rfl

@[simp] theorem recordKey_player (k : String) (s : GameState) :
    (recordKey k s).player = s.player := by
  unfold recordKey; rfl

@[simp] theorem recordKey_currentRoom (k : String) (s : GameState) :
    (recordKey k s).currentRoom = s.currentRoom := by
  unfold recordKey; rfl

@[simp] theorem recordKey_coins (k : String) (s : GameState) :
    (recordKey k s).coins = s.coins := by
  unfold recordKey; rfl

@[simp] theorem recordKey_distance (k : String) (s : GameState) :
    (recordKey k s).distance = s.distance := by
  unfold recordKey; rfl

@[simp] theorem recordKey_isDead (k : String) (s : GameState) :
    (recordKey k s).isDead = s.isDead := by
  unfold recordKey; rfl

@[simp] theorem recordKey_cameraX (k : String) (s : GameState) :
    (recordKey k s).cameraX = s.cameraX := by
  unfold recordKey; rfl

@[simp] theorem recordKey_frame (k : String) (s : GameState) :
    (recordKey k s).frame = s.frame := by
  unfold recordKey; rfl

@[simp] theorem recordKey_floatingCoins (k : String) (s : GameState) :
    (recordKey k s).floatingCoins = s.floatingCoins := by
  unfold recordKey; rfl

@[simp] theorem recordKey_clouds (k : String) (s : GameState) :
    (recordKey k s).clouds = s.clouds := by
  unfold recordKey; rfl

@[simp] theorem recordKey_platforms (k : String) (s : GameState) :
    (recordKey k s).platforms = s.platforms := by
  unfold recordKey; rfl

@[simp] theorem recordKey_lastPlatformX (k : String) (s : GameState) :
    (recordKey k s).lastPlatformX = s.lastPlatformX := by
  unfold recordKey; rfl

@[simp] theorem recordKey_activePanel (k : String) (s : GameState) :
    (recordKey k s).activePanel = s.activePanel := by
  unfold recordKey; rfl

@[simp] theorem recordKey_panelActive (k : String) (s : GameState) :
    (recordKey k s).panelActive = s.panelActive := by
  unfold recordKey; rfl

@[simp] theorem recordKey_panelContent (k : String) (s : GameState) :
    (recordKey k s).panelContent = s.panelContent := by
  unfold recordKey; rfl

@[simp] theorem jump_canvasWidth (s : GameState) :
    (jump s).canvasWidth = s.canvasWidth := by
  unfold jump; rfl

@[simp] theorem jump_canvasHeight (s : GameState) :
    (jump s).canvasHeight = s.canvasHeight := by
  unfold jump; rfl

@[simp] theorem jump_isActive (s : GameState) :
    (jump s).isActive = s.isActive := by
  unfold jump; rfl

@[simp] theorem jump_keys (s : GameState) :
    (jump s).keys = s.keys := by
  unfold jump; rfl

@[simp] theorem jump_currentRoom (s : GameState) :
    (jump s).currentRoom = s.currentRoom := by
  unfold jump; rfl

@[simp] theorem jump_coins (s : GameState) :
    (jump s).coins = s.coins := by
  unfold jump; rfl

@[simp] theorem jump_distance (s : GameState) :
    (jump s).distance = s.distance := by
  unfold jump; rfl

@[simp] theorem jump_isDead (s : GameState) :
    (jump s).isDead = s.isDead := by
  unfold jump; rfl

@[simp] theorem jump_cameraX (s : GameState) :
    (jump s).cameraX = s.cameraX := by
  unfold jump; rfl

@[simp] theorem jump_frame (s : GameState) :
    (jump s).frame = s.frame := by
  unfold jump; rfl

@[simp] theorem jump_floatingCoins (s : GameState) :
    (jump s).floatingCoins = s.floatingCoins := by
  unfold jump; rfl

@[simp] theorem jump_clouds (s : GameState) :
    (jump s).clouds = s.clouds := by
  unfold jump; rfl

@[simp] theorem jump_platforms (s : GameState) :
    (jump s).platforms = s.platforms := by
  unfold jump; rfl

@[simp] theorem jump_lastPlatformX (s : GameState) :
    (jump s).lastPlatformX = s.lastPlatformX := by
  unfold jump; rfl

@[simp] theorem jump_activePanel (s : GameState) :
    (jump s).activePanel = s.activePanel := by
  unfold jump; rfl

@[simp] theorem jump_panelActive (s : GameState) :
    (jump s).panelActive = s.panelActive := by
  unfold jump; rfl

@[simp] theorem jump_panelContent (s : GameState) :
    (jump s).panelContent = s.panelContent := by
  unfold jump; rfl

@[simp] theorem jump_player_x (s : GameState) :
    (jump s).player.x = s.player.x := by
  unfold jump; rfl

@[simp] theorem jump_player_y (s : GameState) :
    (jump s).player.y = s.player.y := by
  unfold jump; rfl

@[simp] theorem jump_player_width (s : GameState) :
    (jump s).player.width = s.player.width := by
  unfold jump; rfl

@[simp] theorem jump_player_height (s : GameState) :
    (jump s).player.height = s.player.height := by
  unfold jump; rfl

@[simp] theorem jump_player_speed (s : GameState) :
    (jump s).player.speed = s.player.speed := by
  unfold jump; rfl

@[simp] theorem jump_player_gravity (s : GameState) :
    (jump s).player.gravity = s.player.gravity := by
  unfold jump; rfl

@[simp] theorem jump_player_jumpPower (s : GameState) :
    (jump s).player.jumpPower = s.player.jumpPower := by
  unfold jump; rfl

@[simp] theorem jump_player_direction (s : GameState) :
    (jump s).player.direction = s.player.direction := by
  unfold jump; rfl

@[simp] theorem jump_player_velocityX (s : GameState) :
    (jump s).player.velocityX = s.player.velocityX := by
  unfold jump; rfl

@[simp] theorem start_canvasWidth (s : GameState) :
    (start s).canvasWidth = s.canvasWidth := by
  unfold start; rfl

@[simp] theorem start_canvasHeight (s : GameState) :
    (start s).canvasHeight = s.canvasHeight := by
  unfold start; rfl

@[simp] theorem start_player (s : GameState) :
    (start s).player = s.player := by
  unfold start; rfl

@[simp] theorem start_keys (s : GameState) :
    (start s).keys = s.keys := by
  unfold start; rfl

@[simp] theorem start_currentRoom (s : GameState) :
    (start s).currentRoom = s.currentRoom := by
  unfold start; rfl

@[simp] theorem start_coins (s : GameState) :
    (start s).coins = s.coins := by
  unfold start; rfl

@[simp] theorem start_distance (s : GameState) :
    (start s).distance = s.distance := by
  unfold start; rfl

@[simp] theorem start_isDead (s : GameState) :
    (start s).isDead = s.isDead := by
  unfold start; rfl

@[simp] theorem start_cameraX (s : GameState) :
    (start s).cameraX = s.cameraX := by
  unfold start; rfl

@[simp] theorem start_frame (s : GameState) :
    (start s).frame = s.frame := by
  unfold start; rfl

@[simp] theorem start_floatingCoins (s : GameState) :
    (start s).floatingCoins = s.floatingCoins := by
  unfold start; rfl

@[simp] theorem start_clouds (s : GameState) :
    (start s).clouds = s.clouds := by
  unfold start; rfl

@[simp] theorem start_platforms (s : GameState) :
    (start s).platforms = s.platforms := by
  unfold start; rfl

@[simp] theorem start_lastPlatformX (s : GameState) :
    (start s).lastPlatformX = s.lastPlatformX := by
  unfold start; rfl

@[simp] theorem start_activePanel (s : GameState) :
    (start s).activePanel = s.activePanel := by
  unfold start; rfl

@[simp] theorem start_panelActive (s : GameState) :
    (start s).panelActive = s.panelActive := by
  unfold start; rfl

@[simp] theorem start_panelContent (s : GameState) :
    (start s).panelContent = s.panelContent := by
  unfold start; rfl

@[simp] theorem stop_canvasWidth (s : GameState) :
    (stop s).canvasWidth = s.canvasWidth := by
  unfold stop closeInfo; rfl

@[simp] theorem stop_canvasHeight (s : GameState) :
    (stop s).canvasHeight = s.canvasHeight := by
  unfold stop closeInfo; rfl

@[simp] theorem stop_player (s : GameState) :
    (stop s).player = s.player := by
  unfold stop closeInfo; rfl

@[simp] theorem stop_keys (s : GameState) :
    (stop s).keys = s.keys := by
  unfold stop closeInfo; rfl

@[simp] theorem stop_currentRoom (s : GameState) :
    (stop s).currentRoom = s.currentRoom := by
  unfold stop closeInfo; rfl

@[simp] theorem stop_coins (s : GameState) :
    (stop s).coins = s.coins := by
  unfold stop closeInfo; rfl

@[simp] theorem stop_distance (s : GameState) :
    (stop s).distance = s.distance := by
  unfold stop closeInfo; rfl

@[simp] theorem stop_isDead (s : GameState) :
    (stop s).isDead = s.isDead := by
  unfold stop closeInfo; rfl

@[simp] theorem stop_cameraX (s : GameState) :
    (stop s).cameraX = s.cameraX := by
  unfold stop closeInfo; rfl

@[simp] theorem stop_frame (s : GameState) :
    (stop s).frame = s.frame := by
  unfold stop closeInfo; rfl

@[simp] theorem stop_floatingCoins (s : GameState) :
    (stop s).floatingCoins = s.floatingCoins := by
  unfold stop closeInfo; rfl

@[simp] theorem stop_clouds (s : GameState) :
    (stop s).clouds = s.clouds := by
  unfold stop closeInfo; rfl

@[simp] theorem stop_platforms (s : GameState) :
    (stop s).platforms = s.platforms := by
  unfold stop closeInfo; rfl

@[simp] theorem stop_lastPlatformX (s : GameState) :
    (stop s).lastPlatformX = s.lastPlatformX := by
  unfold stop closeInfo; rfl

@[simp] theorem stop_panelContent (s : GameState) :
    (stop s).panelContent = s.panelContent := by
  unfold stop closeInfo; rfl

@[simp] theorem resizeCanvas_isActive (w h : ℚ) (s : GameState) :
    (resizeCanvas w h s).isActive = s.isActive := by
  unfold resizeCanvas; rfl

@[simp] theorem resizeCanvas_player (w h : ℚ) (s : GameState) :
    (resizeCanvas w h s).player = s.player := by
  unfold resizeCanvas; rfl

@[simp] theorem resizeCanvas_keys (w h : ℚ) (s : GameState) :
    (resizeCanvas w h s).keys = s.keys := by
  unfold resizeCanvas; rfl

@[simp] theorem resizeCanvas_currentRoom (w h : ℚ) (s : GameState) :
    (resizeCanvas w h s).currentRoom = s.currentRoom := by
  unfold resizeCanvas; rfl

@[simp] theorem resizeCanvas_coins (w h : ℚ) (s : GameState) :
    (resizeCanvas w h s).coins = s.coins := by
  unfold resizeCanvas; rfl

@[simp] theorem resizeCanvas_distance (w h : ℚ) (s : GameState) :
    (resizeCanvas w h s).distance = s.distance := by
  unfold resizeCanvas; rfl

@[simp] theorem resizeCanvas_isDead (w h : ℚ) (s : GameState) :
    (resizeCanvas w h s).isDead = s.isDead := by
  unfold resizeCanvas; rfl

@[simp] theorem resizeCanvas_cameraX (w h : ℚ) (s : GameState) :
    (resizeCanvas w h s).cameraX = s.cameraX := by
  unfold resizeCanvas; rfl

@[simp] theorem resizeCanvas_frame (w h : ℚ) (s : GameState) :
    (resizeCanvas w h s).frame = s.frame := by
  unfold resizeCanvas; rfl

@[simp] theorem resizeCanvas_floatingCoins (w h : ℚ) (s : GameState) :
    (resizeCanvas w h s).floatingCoins = s.floatingCoins := by
  unfold resizeCanvas; rfl

@[simp] theorem resizeCanvas_clouds (w h : ℚ) (s : GameState) :
    (resizeCanvas w h s).clouds = s.clouds := by
  unfold resizeCanvas; rfl

@[simp] theorem resizeCanvas_platforms (w h : ℚ) (s : GameState) :
    (resizeCanvas w h s).platforms = s.platforms := by
  unfold resizeCanvas; rfl

@[simp] theorem resizeCanvas_lastPlatformX (w h : ℚ) (s : GameState) :
    (resizeCanvas w h s).lastPlatformX = s.lastPlatformX := by
  unfold resizeCanvas; rfl

@[simp] theorem resizeCanvas_activePanel (w h : ℚ) (s : GameState) :
    (resizeCanvas w h s).activePanel = s.activePanel := by
  unfold resizeCanvas; rfl

@[simp] theorem resizeCanvas_panelActive (w h : ℚ) (s : GameState) :
    (resizeCanvas w h s).panelActive = s.panelActive := by
  unfold resizeCanvas; rfl

@[simp] theorem resizeCanvas_panelContent (w h : ℚ) (s : GameState) :
    (resizeCanvas w h s).panelContent = s.panelContent := by
  unfold resizeCanvas; rfl

@[simp] theorem respawn_canvasWidth (d : ℕ → PlatformDraws) (s : GameState) :
    (respawn d s).canvasWidth = s.canvasWidth := by
  unfold respawn; simp

@[simp] theorem respawn_canvasHeight (d : ℕ → PlatformDraws) (s : GameState) :
    (respawn d s).canvasHeight = s.canvasHeight := by
  unfold respawn; simp

@[simp] theorem respawn_isActive (d : ℕ → PlatformDraws) (s : GameState) :
    (respawn d s).isActive = s.isActive := by
  unfold respawn; simp

@[simp] theorem respawn_keys (d : ℕ → PlatformDraws) (s : GameState) :
    (respawn d s).keys = s.keys := by
  unfold respawn; simp

@[simp] theorem respawn_currentRoom (d : ℕ → PlatformDraws) (s : GameState) :
    (respawn d s).currentRoom = s.currentRoom := by
  unfold respawn; simp

@[simp] theorem respawn_frame (d : ℕ → PlatformDraws) (s : GameState) :
    (respawn d s).frame = s.frame := by
  unfold respawn; simp

@[simp] theorem respawn_clouds (d : ℕ → PlatformDraws) (s : GameState) :
    (respawn d s).clouds = s.clouds := by
  unfold respawn; simp

@[simp] theorem respawn_activePanel (d : ℕ → PlatformDraws) (s : GameState) :
    (respawn d s).activePanel = s.activePanel := by
  unfold respawn; simp

@[simp] theorem respawn_panelContent (d : ℕ → PlatformDraws) (s : GameState) :
    (respawn d s).panelContent = s.panelContent := by
  unfold respawn; simp

/-! ## The update tick: vertical motion -/

theorem update_running (d : TickDraws) (s : GameState) (h : Running s) :
    update d s =
      frameStep (boundaryStep (deathStep d.death (cloudStep d.cloud (updateToGeneration d s)))) := by
  obtain ⟨hA, hD⟩ := h
  simp [update, hA, hD]

/-- A player that is not falling passes the collision loop unchanged. -/
theorem foldl_collide_of_not_falling (cam : ℚ) (ps : List Platform) (pl : Player)
    (h : ¬ pl.velocityY > 0) : ps.foldl (collide cam) pl = pl := by
  induction ps with
  | nil => rfl
  | cons p ps ih =>
    have : collide cam pl p = pl := by
      unfold collide
      rw [if_neg]
      intro hl
      exact h hl.2.2.2.2
    rw [List.foldl_cons, this, ih]

/-- The collision loop either finds no platform the player lands on and leaves
the player alone, or snaps the player onto the first such platform. -/
theorem foldl_collide (cam : ℚ) (ps : List Platform) (pl : Player) :
    ((∀ p ∈ ps, ¬ lands cam pl p) ∧ ps.foldl (collide cam) pl = pl) ∨
    ∃ pre p post, ps = pre ++ p :: post ∧ (∀ q ∈ pre, ¬ lands cam pl q) ∧ lands cam pl p ∧
      ps.foldl (collide cam) pl =
        { pl with y := p.y - pl.height, velocityY := 0, isJumping := false } := by
  induction ps with
  | nil => left; simp
  | cons p ps ih =>
    by_cases hl : lands cam pl p
    · right
      refine ⟨[], p, ps, rfl, by simp, hl, ?_⟩
      rw [List.foldl_cons]
      have : collide cam pl p =
          { pl with y := p.y - pl.height, velocityY := 0, isJumping := false } := by
        unfold collide; rw [if_pos hl]
      rw [this]
      apply foldl_collide_of_not_falling
      simp
    · have hc : collide cam pl p = pl := by unfold collide; rw [if_neg hl]
      rw [List.foldl_cons, hc]
      rcases ih with ⟨hno, he⟩ | ⟨pre, q, post, hps, hpre, hq, he⟩
      · left
        refine ⟨?_, he⟩
        intro r hr
        rcases List.mem_cons.1 hr with rfl | hr
        · exact hl
        · exact hno r hr
      · right
        refine ⟨p :: pre, q, post, by rw [hps]; rfl, ?_, hq, he⟩
        intro r hr
        rcases List.mem_cons.1 hr with rfl | hr
        · exact hl
        · exact hpre r hr

theorem update_player_vertical (d : TickDraws) (s : GameState) (h : Running s) :
    (update d s).player.velocityY =
      ((collisionStep (gravityStep (cameraStep (moveStep s)))).player).velocityY ∧
    (update d s).player.isJumping =
      ((collisionStep (gravityStep (cameraStep (moveStep s)))).player).isJumping ∧
    (update d s).player.y =
      ((collisionStep (gravityStep (cameraStep (moveStep s)))).player).y := by
  rw [update_running d s h]
  simp [frameStep, updateToGeneration, coinStep]

/-- Outcome of the vertical part of a tick: airborne with gravity added, or
snapped onto a platform with velocity zero. -/
theorem update_vertical_cases (d : TickDraws) (s : GameState) (h : Running s) :
    ((update d s).player.velocityY = s.player.velocityY + s.player.gravity ∧
      (update d s).player.isJumping = true ∧
      ∀ p ∈ s.platforms,
        ¬ lands (update d s).cameraX (gravityStep (cameraStep (moveStep s))).player p) ∨
    ((update d s).player.velocityY = 0 ∧
      (update d s).player.isJumping = false ∧
      ∃ p ∈ s.platforms,
        lands (update d s).cameraX (gravityStep (cameraStep (moveStep s))).player p ∧
        (update d s).player.y = p.y - s.player.height) := by
  obtain ⟨hv, hj, hy⟩ := update_player_vertical d s h
  have hcam : (update d s).cameraX = (cameraStep (moveStep s)).cameraX := by
    rw [update_running d s h]
    simp [frameStep, updateToGeneration, coinStep, collisionStep, gravityStep]
  rw [hv, hj, hy, hcam]
  have hp : (collisionStep (gravityStep (cameraStep (moveStep s)))).player =
      s.platforms.foldl (collide (cameraStep (moveStep s)).cameraX)
        (gravityStep (cameraStep (moveStep s))).player := by
    simp [collisionStep, gravityStep, cameraStep]
  rw [hp]
  rcases foldl_collide (cameraStep (moveStep s)).cameraX s.platforms
      (gravityStep (cameraStep (moveStep s))).player with ⟨hno, he⟩ | ⟨pre, p, post, hps, _, hl, he⟩
  · left
    rw [he]
    refine ⟨?_, ?_, hno⟩
    · simp [gravityStep, cameraStep]
    · simp [gravityStep]
  · right
    rw [he]
    refine ⟨rfl, rfl, p, ?_, hl, ?_⟩
    · rw [hps]; simp
    · simp [gravityStep, cameraStep]


/-! ## The update tick: camera and left boundary -/

theorem update_canvasWidth (d : TickDraws) (s : GameState) :
    (update d s).canvasWidth = s.canvasWidth := by
  unfold update
  split_ifs
  · rfl
  · simp [frameStep, updateToGeneration, coinStep, collisionStep, gravityStep, cameraStep]

theorem foldl_collide_x (cam : ℚ) (ps : List Platform) (pl : Player) :
    (ps.foldl (collide cam) pl).x = pl.x := by
  rcases foldl_collide cam ps pl with ⟨_, he⟩ | ⟨_, _, _, _, _, _, he⟩ <;> rw [he]

theorem boundaryStep_player_x (s : GameState) :
    (boundaryStep s).player.x = if s.player.x < s.cameraX then s.cameraX else s.player.x := by
  unfold boundaryStep; split_ifs <;> rfl

theorem cameraStep_cameraX (s : GameState) :
    (cameraStep s).cameraX = max 0 (s.player.x - s.canvasWidth / 2) := by
  unfold cameraStep; rfl

theorem collisionStep_player (s : GameState) :
    (collisionStep s).player = s.platforms.foldl (collide s.cameraX) s.player := by
  unfold collisionStep; rfl

theorem gravityStep_player (s : GameState) :
    (gravityStep s).player =
      { s.player with
        velocityY := s.player.velocityY + s.player.gravity
        y := s.player.y + (s.player.velocityY + s.player.gravity)
        isJumping := true } := by
  unfold gravityStep; rfl

theorem updateToGeneration_player (d : TickDraws) (s : GameState) :
    (updateToGeneration d s).player =
      (collisionStep (gravityStep (cameraStep (moveStep s)))).player := by
  unfold updateToGeneration
  rw [generateStep_player, coinStep_player]

theorem updateToGeneration_player_x (d : TickDraws) (s : GameState) :
    (updateToGeneration d s).player.x = (moveStep s).player.x := by
  rw [updateToGeneration_player, collisionStep_player, foldl_collide_x, gravityStep_player_x,
    cameraStep_player]

theorem updateToGeneration_cameraX (d : TickDraws) (s : GameState) :
    (updateToGeneration d s).cameraX = max 0 ((moveStep s).player.x - s.canvasWidth / 2) := by
  unfold updateToGeneration
  rw [generateStep_cameraX, coinStep_cameraX, collisionStep_cameraX, gravityStep_cameraX,
    cameraStep_cameraX, moveStep_canvasWidth]

theorem update_cameraX (d : TickDraws) (s : GameState) (h : Running s) :
    (update d s).cameraX = max 0 ((moveStep s).player.x - s.canvasWidth / 2) := by
  rw [update_running d s h, frameStep_cameraX, boundaryStep_cameraX, deathStep_cameraX,
    cloudStep_cameraX, updateToGeneration_cameraX]

theorem update_player_x (d : TickDraws) (s : GameState) (h : Running s) :
    (update d s).player.x =
      if (moveStep s).player.x < (update d s).cameraX then (update d s).cameraX
      else (moveStep s).player.x := by
  rw [update_cameraX d s h, update_running d s h, frameStep_player, boundaryStep_player_x,
    deathStep_player, cloudStep_player, deathStep_cameraX, cloudStep_cameraX,
    updateToGeneration_player_x, updateToGeneration_cameraX]

/-- The left-boundary clamp keeps the camera formula true of the final `x`. -/
theorem update_camera_clamp (d : TickDraws) (s : GameState) (h : Running s)
    (hw : 0 ≤ s.canvasWidth) :
    (update d s).cameraX =
        max 0 ((update d s).player.x - (update d s).canvasWidth / 2) ∧
      (update d s).cameraX ≤ (update d s).player.x ∧ 0 ≤ (update d s).cameraX := by
  have hc := update_cameraX d s h
  have hx := update_player_x d s h
  rw [update_canvasWidth]
  generalize (update d s).cameraX = c at hc hx ⊢
  generalize (update d s).player.x = x at hx ⊢
  generalize (moveStep s).player.x = m at hc hx
  have h0 : 0 ≤ c := by rw [hc]; exact le_max_left _ _
  split_ifs at hx with hlt
  · subst hx
    have hm : m - s.canvasWidth / 2 ≤ 0 := by
      by_contra hcon
      push_neg at hcon
      rw [max_eq_right hcon.le] at hc
      linarith
    have hcz : x = 0 := by rw [hc]; exact max_eq_left hm
    refine ⟨?_, le_refl _, h0⟩
    rw [hcz]
    symm
    apply max_eq_left
    linarith
  · subst hx
    push_neg at hlt
    exact ⟨hc, hlt, h0⟩


/-! ## The frontier `lastPlatformX` -/

theorem generateNewPlatform_lastPlatformX (d : PlatformDraws) (s : GameState) :
    (generateNewPlatform d s).lastPlatformX =
      s.lastPlatformX + (100 + d.gap * 100) + (90 + d.width * 70) := by
  unfold generateNewPlatform; rfl

/-- Each synthesis moves the frontier by at least 190. -/
theorem generatePlatforms_lastPlatformX_ge (n : ℕ) (d : ℕ → PlatformDraws) (s : GameState)
    (hd : ∀ i < n, (d i).valid) :
    s.lastPlatformX + 190 * (n : ℚ) ≤ (generatePlatforms n d s).lastPlatformX := by
  induction n with
  | zero => simp [generatePlatforms_zero]
  | succ n ih =>
    rw [generatePlatforms_succ, generateNewPlatform_lastPlatformX]
    obtain ⟨⟨hg, _⟩, _, ⟨hw, _⟩, _⟩ := hd n (Nat.lt_succ_self n)
    have := ih (fun i hi => hd i (Nat.lt_succ_of_lt hi))
    push_cast
    nlinarith

/-- Each synthesis moves the frontier by at most 360. -/
theorem generatePlatforms_lastPlatformX_le (n : ℕ) (d : ℕ → PlatformDraws) (s : GameState)
    (hd : ∀ i < n, (d i).valid) :
    (generatePlatforms n d s).lastPlatformX ≤ s.lastPlatformX + 360 * (n : ℚ) := by
  induction n with
  | zero => simp [generatePlatforms_zero]
  | succ n ih =>
    rw [generatePlatforms_succ, generateNewPlatform_lastPlatformX]
    obtain ⟨⟨_, hg⟩, _, ⟨_, hw⟩, _⟩ := hd n (Nat.lt_succ_self n)
    have := ih (fun i hi => hd i (Nat.lt_succ_of_lt hi))
    push_cast
    nlinarith

theorem construct_player (w h : ℚ) (d : InitDraws) : (construct w h d).player = spawnPlayer := by
  unfold construct
  simp only [generateInitialCoins_player, generateInitialPlatforms_player, generateClouds_player]
  rfl

theorem construct_fields (w h : ℚ) (d : InitDraws) :
    (construct w h d).canvasWidth = w ∧ (construct w h d).canvasHeight = h ∧
    (construct w h d).isActive = false ∧ (construct w h d).isDead = false ∧
    (construct w h d).cameraX = 0 ∧ (construct w h d).coins = 0 ∧
    (construct w h d).distance = 0 ∧ (construct w h d).keys = [] ∧
    (construct w h d).activePanel = none ∧ (construct w h d).frame = 0 := by
  unfold construct
  simp [initialFields]

theorem generateInitialPlatforms_lastPlatformX_ge (d : ℕ → PlatformDraws) (s : GameState)
    (hd : ∀ i < 50, (d i).valid) : 10500 ≤ (generateInitialPlatforms d s).lastPlatformX := by
  unfold generateInitialPlatforms
  have := generatePlatforms_lastPlatformX_ge 50 d
    { s with platforms := s.platforms ++ fixedPlatforms, lastPlatformX := 1000 } hd
  norm_num at this
  linarith

theorem generateInitialPlatforms_lastPlatformX_le (d : ℕ → PlatformDraws) (s : GameState)
    (hd : ∀ i < 50, (d i).valid) : (generateInitialPlatforms d s).lastPlatformX ≤ 19000 := by
  unfold generateInitialPlatforms
  have := generatePlatforms_lastPlatformX_le 50 d
    { s with platforms := s.platforms ++ fixedPlatforms, lastPlatformX := 1000 } hd
  norm_num at this
  linarith

theorem construct_lastPlatformX_ge (w h : ℚ) (d : InitDraws)
    (hd : ∀ i < 50, (d.platforms i).valid) : 10500 ≤ (construct w h d).lastPlatformX := by
  unfold construct
  rw [generateInitialCoins_lastPlatformX]
  apply generateInitialPlatforms_lastPlatformX_ge _ _ hd

theorem construct_lastPlatformX_le (w h : ℚ) (d : InitDraws)
    (hd : ∀ i < 50, (d.platforms i).valid) : (construct w h d).lastPlatformX ≤ 19000 := by
  unfold construct
  rw [generateInitialCoins_lastPlatformX]
  apply generateInitialPlatforms_lastPlatformX_le _ _ hd

/-- The generation step either finds the margin short and moves the frontier
by three syntheses, or finds it long enough and leaves the frontier. -/
theorem generateStep_lastPlatformX (d : ℕ → PlatformDraws) (s : GameState)
    (hd : ∀ i < 3, (d i).valid) :
    (s.lastPlatformX - s.cameraX < s.canvasWidth + 500 ∧
      s.lastPlatformX + 570 ≤ (generateStep d s).lastPlatformX ∧
      (generateStep d s).lastPlatformX ≤ s.lastPlatformX + 1080) ∨
    (s.canvasWidth + 500 ≤ s.lastPlatformX - s.cameraX ∧
      (generateStep d s).lastPlatformX = s.lastPlatformX) := by
  unfold generateStep
  split_ifs with hlt
  · left
    have h1 := generatePlatforms_lastPlatformX_ge 3 d s hd
    have h2 := generatePlatforms_lastPlatformX_le 3 d s hd
    norm_num at h1 h2
    exact ⟨hlt, h1, h2⟩
  · right
    exact ⟨not_lt.1 hlt, rfl⟩

theorem updateToGeneration_lastPlatformX (d : TickDraws) (s : GameState)
    (hd : ∀ i < 3, (d.platforms i).valid) :
    (s.lastPlatformX - (updateToGeneration d s).cameraX < s.canvasWidth + 500 ∧
      s.lastPlatformX + 570 ≤ (updateToGeneration d s).lastPlatformX ∧
      (updateToGeneration d s).lastPlatformX ≤ s.lastPlatformX + 1080) ∨
    (s.canvasWidth + 500 ≤ s.lastPlatformX - (updateToGeneration d s).cameraX ∧
      (updateToGeneration d s).lastPlatformX = s.lastPlatformX) := by
  have := generateStep_lastPlatformX d.platforms
    (coinStep (collisionStep (gravityStep (cameraStep (moveStep s))))) hd
  have e3 : (coinStep (collisionStep (gravityStep (cameraStep (moveStep s))))).cameraX =
      (updateToGeneration d s).cameraX := by
    unfold updateToGeneration
    rw [generateStep_cameraX]
  rw [e3] at this
  simp only [coinStep_lastPlatformX, collisionStep_lastPlatformX, gravityStep_lastPlatformX,
    cameraStep_lastPlatformX, moveStep_lastPlatformX, coinStep_canvasWidth,
    collisionStep_canvasWidth, gravityStep_canvasWidth, cameraStep_canvasWidth,
    moveStep_canvasWidth] at this
  unfold updateToGeneration at this ⊢
  exact this

theorem update_lastPlatformX (d : TickDraws) (s : GameState) (h : Running s) :
    (update d s).lastPlatformX = (updateToGeneration d s).lastPlatformX := by
  rw [update_running d s h]
  simp only [frameStep_lastPlatformX, boundaryStep_lastPlatformX, deathStep_lastPlatformX,
    cloudStep_lastPlatformX]

theorem update_cameraX_eq (d : TickDraws) (s : GameState) (h : Running s) :
    (update d s).cameraX = (updateToGeneration d s).cameraX := by
  rw [update_cameraX d s h, updateToGeneration_cameraX]

/-! ## Key presses -/

/-- The interaction loop touches the panel only. -/
theorem foldl_interactWith_eq (ps : List Platform) (s : GameState) :
    ps.foldl interactWith s =
      { s with
        panelActive := (ps.foldl interactWith s).panelActive
        activePanel := (ps.foldl interactWith s).activePanel
        panelContent := (ps.foldl interactWith s).panelContent } := by
  induction ps generalizing s with
  | nil => rfl
  | cons p ps ih =>
    rw [List.foldl_cons]
    have h := ih (interactWith s p)
    generalize List.foldl interactWith (interactWith s p) ps = t at h ⊢
    rw [h]
    simp

theorem checkInteraction_eq (s : GameState) :
    checkInteraction s =
      { s with
        panelActive := (checkInteraction s).panelActive
        activePanel := (checkInteraction s).activePanel
        panelContent := (checkInteraction s).panelContent } := by
  unfold checkInteraction
  split_ifs
  · rfl
  · rfl
  · exact foldl_interactWith_eq s.platforms s

theorem SameWorld.refl (s : GameState) : SameWorld s s := rfl

theorem sameWorld_recordKey (s : GameState) (k : String) :
    SameWorld s (recordKey k s) := by
  unfold recordKey; rfl

theorem sameWorld_closeInfo (s s1 : GameState) (h : SameWorld s s1) :
    SameWorld s (closeInfo s1) := by
  unfold SameWorld at h ⊢
  unfold closeInfo
  rw [h]

theorem sameWorld_checkInteraction (s s1 : GameState) (h : SameWorld s s1) :
    SameWorld s (checkInteraction s1) := by
  have e := checkInteraction_eq s1
  generalize checkInteraction s1 = t at e ⊢
  unfold SameWorld at h ⊢
  rw [e, h]

theorem sameWorld_interact (s s1 : GameState) (h : SameWorld s s1) :
    SameWorld s (interact s1) := by
  unfold interact
  split_ifs
  · exact sameWorld_closeInfo s s1 h
  · exact sameWorld_checkInteraction s s1 h

/-- A key press leaves the state alone, makes the player jump, or changes keys
and panel only and then possibly respawns. -/
theorem keyDown_cases (d : ℕ → PlatformDraws) (key : String) (s : GameState) :
    keyDown d key s = s ∨ keyDown d key s = jump s ∨
    ∃ s2, SameWorld s s2 ∧
      (keyDown d key s = s2 ∨ (s2.isDead = true ∧ keyDown d key s = respawn d s2)) := by
  unfold keyDown
  by_cases h1 : (!s.isActive) = true
  · left; rw [if_pos h1]
  rw [if_neg h1]
  by_cases h2 : key = " "
  · rw [if_pos h2]
    by_cases h3 : (!s.player.isJumping) = true
    · right; left; rw [if_pos h3]
    · left; rw [if_neg h3]
  rw [if_neg h2]
  right; right
  simp only []
  have w1 : SameWorld s (recordKey (toLowerCase key) s) := sameWorld_recordKey s _
  generalize recordKey (toLowerCase key) s = s1 at w1 ⊢
  have w2 : SameWorld s (if toLowerCase key = "e" then interact s1 else s1) := by
    split_ifs
    · exact sameWorld_interact s s1 w1
    · exact w1
  generalize (if toLowerCase key = "e" then interact s1 else s1) = s2 at w2 ⊢
  refine ⟨s2, w2, ?_⟩
  split_ifs with h4
  · right; exact ⟨h4.2, rfl⟩
  · left; rfl

/-! ## Respawn, and more on the update tick -/

theorem zeroPlatformDraws_valid : zeroPlatformDraws.valid := by
  norm_num [PlatformDraws.valid, unit, zeroPlatformDraws]

theorem update_not_running (d : TickDraws) (s : GameState) (h : ¬ Running s) :
    update d s = s := by
  unfold update
  rw [if_pos]
  unfold Running at h
  cases hA : s.isActive <;> cases hD : s.isDead <;> simp_all

theorem start_isActive (s : GameState) : (start s).isActive = true := by
  unfold start; rfl

theorem SameWorld.fields {s s2 : GameState} (h : SameWorld s s2) :
    s2.canvasWidth = s.canvasWidth ∧ s2.canvasHeight = s.canvasHeight ∧
    s2.isActive = s.isActive ∧ s2.player = s.player ∧ s2.coins = s.coins ∧
    s2.distance = s.distance ∧ s2.isDead = s.isDead ∧ s2.cameraX = s.cameraX ∧
    s2.frame = s.frame ∧ s2.floatingCoins = s.floatingCoins ∧ s2.clouds = s.clouds ∧
    s2.platforms = s.platforms ∧ s2.lastPlatformX = s.lastPlatformX := by
  unfold SameWorld at h
  rw [h]
  simp

theorem respawn_player (d : ℕ → PlatformDraws) (s : GameState) :
    (respawn d s).player =
      { s.player with x := 150, y := 300, velocityY := 0, velocityX := some 0 } := by
  unfold respawn
  simp

theorem respawn_fields (d : ℕ → PlatformDraws) (s : GameState) :
    (respawn d s).cameraX = 0 ∧ (respawn d s).isDead = false ∧ (respawn d s).distance = 0 ∧
    (respawn d s).coins = 0 ∧ (respawn d s).panelActive = false := by
  unfold respawn
  simp

theorem respawn_lastPlatformX (d : ℕ → PlatformDraws) (s : GameState)
    (hd : ∀ i < 50, (d i).valid) :
    10500 ≤ (respawn d s).lastPlatformX ∧ (respawn d s).lastPlatformX ≤ 19000 := by
  unfold respawn
  exact ⟨generateInitialPlatforms_lastPlatformX_ge d _ hd,
    generateInitialPlatforms_lastPlatformX_le d _ hd⟩

/-- The collision loop changes `y`, `velocityY` and `isJumping` only. -/
theorem foldl_collide_eq (cam : ℚ) (ps : List Platform) (pl : Player) :
    ps.foldl (collide cam) pl =
      { pl with
        y := (ps.foldl (collide cam) pl).y
        velocityY := (ps.foldl (collide cam) pl).velocityY
        isJumping := (ps.foldl (collide cam) pl).isJumping } := by
  rcases foldl_collide cam ps pl with ⟨_, he⟩ | ⟨_, _, _, _, _, _, he⟩ <;> rw [he]

theorem moveStep_player_x_le (s : GameState) (h : 0 ≤ s.player.speed) :
    (moveStep s).player.x ≤ s.player.x + s.player.speed := by
  unfold moveStep
  dsimp only
  split_ifs <;> simp <;> linarith

theorem update_player_speed (d : TickDraws) (s : GameState) :
    (update d s).player.speed = s.player.speed := by
  by_cases h : Running s
  · rw [update_running d s h, frameStep_player, boundaryStep_player_speed, deathStep_player,
      cloudStep_player, updateToGeneration_player, collisionStep_player, foldl_collide_eq,
      gravityStep_player_speed, cameraStep_player, moveStep_player_speed]
  · rw [update_not_running d s h]

/-! ## Event sequences and the frontier invariant -/

theorem run_nil (s : GameState) : run [] s = s := rfl

theorem run_cons (e : Event) (es : List Event) (s : GameState) :
    run (e :: es) s = run es (e.apply s) := rfl

theorem run_append (es fs : List Event) (s : GameState) :
    run (es ++ fs) s = run fs (run es s) := by
  unfold run; rw [List.foldl_append]

theorem max_sub_le_add (x m w c : ℚ) (hm : m ≤ x + c) (hc : 0 ≤ c) :
    max 0 (m - w / 2) ≤ max 0 (x - w / 2) + c := by
  apply max_le
  · have := le_max_left 0 (x - w / 2); linarith
  · have := le_max_right 0 (x - w / 2); linarith

/-- A tick keeps the frontier ahead. -/
theorem update_frontierAhead (w : ℚ) (d : TickDraws) (s : GameState) (hw : 0 ≤ w)
    (hd : ∀ i < 3, (d.platforms i).valid) (h : FrontierAhead w s) :
    FrontierAhead w (update d s) := by
  by_cases hr : Running s
  · obtain ⟨hcw, hsp, hm⟩ := h
    have hcl := update_camera_clamp d s hr (by rw [hcw]; exact hw)
    rw [update_canvasWidth, hcw] at hcl
    refine ⟨by rw [update_canvasWidth, hcw], by rw [update_player_speed, hsp], ?_⟩
    rw [← hcl.1, update_lastPlatformX d s hr, update_cameraX d s hr, hcw]
    have hx := moveStep_player_x_le s (by rw [hsp]; norm_num)
    rw [hsp] at hx
    have hcam := max_sub_le_add s.player.x (moveStep s).player.x w 5 hx (by norm_num)
    have hgen := updateToGeneration_lastPlatformX d s hd
    rw [updateToGeneration_cameraX, hcw] at hgen
    rcases hgen with ⟨_, h2, _⟩ | ⟨h1, h2⟩
    · linarith
    · rw [h2]; exact h1
  · rw [update_not_running d s hr]; exact h

theorem respawn_frontierAhead (w : ℚ) (d : ℕ → PlatformDraws) (s : GameState) (hw : w ≤ 9850)
    (hd : ∀ i < 50, (d i).valid) (h : FrontierAhead w s) :
    FrontierAhead w (respawn d s) := by
  obtain ⟨hcw, hsp, _⟩ := h
  refine ⟨by rw [respawn_canvasWidth, hcw], by rw [respawn_player]; exact hsp, ?_⟩
  have hL := (respawn_lastPlatformX d s hd).1
  rw [respawn_player]
  show w + 500 ≤ (respawn d s).lastPlatformX - max 0 (150 - w / 2)
  rcases le_total (150 - w / 2) 0 with h0 | h0
  · rw [max_eq_left h0]; linarith
  · rw [max_eq_right h0]; linarith

theorem sameWorld_frontierAhead (w : ℚ) (s s2 : GameState) (hs : SameWorld s s2)
    (h : FrontierAhead w s) : FrontierAhead w s2 := by
  obtain ⟨h1, _, _, h4, _, _, _, _, _, _, _, _, h13⟩ := hs.fields
  unfold FrontierAhead at h ⊢
  rw [h1, h4, h13]
  exact h

theorem keyDown_frontierAhead (w : ℚ) (d : ℕ → PlatformDraws) (key : String) (s : GameState)
    (hw : w ≤ 9850) (hd : ∀ i < 50, (d i).valid) (h : FrontierAhead w s) :
    FrontierAhead w (keyDown d key s) := by
  rcases keyDown_cases d key s with he | he | ⟨s2, hs, he | ⟨_, he⟩⟩
  · rw [he]; exact h
  · rw [he]
    unfold FrontierAhead at h ⊢
    rw [jump_canvasWidth, jump_player_speed, jump_lastPlatformX, jump_player_x]
    exact h
  · rw [he]; exact sameWorld_frontierAhead w s s2 hs h
  · rw [he]
    exact respawn_frontierAhead w d s2 hw hd (sameWorld_frontierAhead w s s2 hs h)

theorem keyUp_eq (key : String) (s : GameState) :
    keyUp key s = { s with keys := (keyUp key s).keys } := by
  unfold keyUp
  split_ifs <;> rfl

/-- Every event but a resize keeps the frontier ahead. -/
theorem apply_frontierAhead (w : ℚ) (e : Event) (s : GameState) (hw0 : 0 ≤ w) (hw : w ≤ 9850)
    (hv : e.valid) (hr : e.isResize = false) (h : FrontierAhead w s) :
    FrontierAhead w (e.apply s) := by
  cases e with
  | tick d => exact update_frontierAhead w d s hw0 hv h
  | keyDown d key => exact keyDown_frontierAhead w d key s hw hv h
  | keyUp key =>
    show FrontierAhead w (keyUp key s)
    rw [keyUp_eq]; exact h
  | respawn d => exact respawn_frontierAhead w d s hw hv h
  | closeInfo =>
    show FrontierAhead w (closeInfo s)
    unfold closeInfo; exact h
  | start =>
    show FrontierAhead w (start s)
    unfold start; exact h
  | stop =>
    show FrontierAhead w (stop s)
    unfold stop closeInfo; exact h
  | resize a b => simp [Event.isResize] at hr

theorem run_frontierAhead (w : ℚ) (es : List Event) (s : GameState) (hw0 : 0 ≤ w)
    (hw : w ≤ 9850) (hes : ∀ e ∈ es, e.valid ∧ e.isResize = false) (h : FrontierAhead w s) :
    FrontierAhead w (run es s) := by
  induction es generalizing s with
  | nil => exact h
  | cons e es ih =>
    rw [run_cons]
    obtain ⟨hv, hr⟩ := hes e (List.mem_cons_self _ _)
    exact ih (e.apply s) (fun e he => hes e (List.mem_cons_of_mem _ he))
      (apply_frontierAhead w e s hw0 hw hv hr h)

theorem construct_frontierAhead (w h : ℚ) (d : InitDraws) (hw : w ≤ 9850)
    (hd : ∀ i < 50, (d.platforms i).valid) : FrontierAhead w (construct w h d) := by
  refine ⟨(construct_fields w h d).1, by rw [construct_player]; rfl, ?_⟩
  have hL := construct_lastPlatformX_ge w h d hd
  rw [construct_player]
  show w + 500 ≤ (construct w h d).lastPlatformX - max 0 (150 - w / 2)
  rcases le_total (150 - w / 2) 0 with h0 | h0
  · rw [max_eq_left h0]; linarith
  · rw [max_eq_right h0]; linarith

theorem zeroInit_valid : ∀ i < 50, (zeroInit.platforms i).valid :=
  fun _ _ => zeroPlatformDraws_valid

theorem zeroTick_valid : ∀ i < 3, (zeroTick.platforms i).valid :=
  fun _ _ => zeroPlatformDraws_valid

theorem running_start_construct (w h : ℚ) (d : InitDraws) :
    Running (start (construct w h d)) := by
  refine ⟨start_isActive _, ?_⟩
  rw [start_isDead]
  exact (construct_fields w h d).2.2.2.1

/-! ## Coins -/

theorem collectedCount_nil : collectedCount [] = 0 := rfl

theorem collectedCount_cons (c : Coin) (cs : List Coin) :
    collectedCount (c :: cs) = collectedCount cs + (if c.collected then 1 else 0) := by
  unfold collectedCount
  rw [List.countP_cons]

theorem collectedCount_append (cs ds : List Coin) :
    collectedCount (cs ++ ds) = collectedCount cs + collectedCount ds := by
  unfold collectedCount
  rw [List.countP_append]

theorem collectedCount_eq_zero (cs : List Coin) (h : ∀ c ∈ cs, c.collected = false) :
    collectedCount cs = 0 := by
  unfold collectedCount
  rw [List.countP_eq_zero]
  intro c hc
  simp [h c hc]

/-- The coin loop keeps the list positions, raises flags only, and counts what
it raises. -/
theorem collectCoins_spec (cam : ℚ) (pl : Player) (cs : List Coin) (n : ℕ) :
    List.Forall₂ flagRaised cs (collectCoins cam pl cs n).1 ∧
    (collectCoins cam pl cs n).2 = n + newlyMarked cs (collectCoins cam pl cs n).1 ∧
    (collectCoins cam pl cs n).2 + collectedCount cs =
      n + collectedCount (collectCoins cam pl cs n).1 := by
  induction cs generalizing n with
  | nil =>
    unfold collectCoins
    simp [newlyMarked, collectedCount]
  | cons c cs ih =>
    unfold collectCoins
    split_ifs with hc
    · obtain ⟨h1, h2, h3⟩ := ih (n + 1)
      refine ⟨List.Forall₂.cons (Or.inr ⟨hc.1, rfl⟩) h1, ?_, ?_⟩
      · simp only [h2, newlyMarked, List.zip_cons_cons, List.countP_cons, hc.1]
        simp
        omega
      · simp only [collectedCount_cons, hc.1]
        simp
        omega
    · obtain ⟨h1, h2, h3⟩ := ih n
      refine ⟨List.Forall₂.cons (Or.inl rfl) h1, ?_, ?_⟩
      · simp only [h2, newlyMarked, List.zip_cons_cons, List.countP_cons]
        simp
      · simp only [collectedCount_cons]
        omega

theorem generateNewPlatform_floatingCoins (d : PlatformDraws) (s : GameState) :
    ∃ extra, (generateNewPlatform d s).floatingCoins = s.floatingCoins ++ extra ∧
      (∀ c ∈ extra, c.collected = false) ∧ extra.length ≤ 2 := by
  unfold generateNewPlatform
  dsimp only
  split_ifs
  · refine ⟨[_, _], List.append_assoc _ _ _, ?_, by simp⟩
    intro c hc
    simp only [List.mem_cons, List.mem_singleton, List.not_mem_nil, or_false] at hc
    rcases hc with rfl | rfl <;> rfl
  · refine ⟨[_], rfl, ?_, by simp⟩
    intro c hc
    rw [List.mem_singleton.1 hc]
  · refine ⟨[_], rfl, ?_, by simp⟩
    intro c hc
    rw [List.mem_singleton.1 hc]
  · exact ⟨[], by simp, by simp, by simp⟩

theorem generatePlatforms_floatingCoins (n : ℕ) (d : ℕ → PlatformDraws) (s : GameState) :
    ∃ extra, (generatePlatforms n d s).floatingCoins = s.floatingCoins ++ extra ∧
      (∀ c ∈ extra, c.collected = false) ∧ extra.length ≤ 2 * n := by
  induction n with
  | zero => exact ⟨[], by rw [generatePlatforms_zero]; simp, by simp, by simp⟩
  | succ n ih =>
    obtain ⟨e1, h1, h2, h3⟩ := ih
    obtain ⟨e2, k1, k2, k3⟩ := generateNewPlatform_floatingCoins (d n) (generatePlatforms n d s)
    refine ⟨e1 ++ e2, ?_, ?_, ?_⟩
    · rw [generatePlatforms_succ, k1, h1, List.append_assoc]
    · intro c hc
      rcases List.mem_append.1 hc with hc | hc
      · exact h2 c hc
      · exact k2 c hc
    · rw [List.length_append]; omega

theorem generateStep_floatingCoins (d : ℕ → PlatformDraws) (s : GameState) :
    ∃ extra, (generateStep d s).floatingCoins = s.floatingCoins ++ extra ∧
      (∀ c ∈ extra, c.collected = false) := by
  unfold generateStep
  split_ifs
  · obtain ⟨e, h1, h2, _⟩ := generatePlatforms_floatingCoins 3 d s
    exact ⟨e, h1, h2⟩
  · exact ⟨[], by simp, by simp⟩

theorem coinStep_floatingCoins (s : GameState) :
    (coinStep s).floatingCoins = (collectCoins s.cameraX s.player s.floatingCoins s.coins).1 := by
  unfold coinStep; rfl

theorem coinStep_coins (s : GameState) :
    (coinStep s).coins = (collectCoins s.cameraX s.player s.floatingCoins s.coins).2 := by
  unfold coinStep; rfl

theorem forall₂_flagRaised_refl (cs : List Coin) : List.Forall₂ flagRaised cs cs := by
  induction cs with
  | nil => exact List.Forall₂.nil
  | cons c cs ih => exact List.Forall₂.cons (Or.inl rfl) ih

theorem newlyMarked_self (cs : List Coin) : newlyMarked cs cs = 0 := by
  induction cs with
  | nil => rfl
  | cons c cs ih =>
    unfold newlyMarked at ih ⊢
    rw [List.zip_cons_cons, List.countP_cons, ih]
    cases c.collected <;> simp

/-- Coins of a tick: the old list with some flags raised, followed by new
uncollected coins; the counter grows by the number of raised flags. -/
theorem update_coins (d : TickDraws) (s : GameState) :
    ∃ marked extra, (update d s).floatingCoins = marked ++ extra ∧
      List.Forall₂ flagRaised s.floatingCoins marked ∧
      (∀ c ∈ extra, c.collected = false) ∧
      (update d s).coins = s.coins + newlyMarked s.floatingCoins marked ∧
      (update d s).coins + collectedCount s.floatingCoins =
        s.coins + collectedCount (update d s).floatingCoins := by
  by_cases hr : Running s
  · have hf : (update d s).floatingCoins = (updateToGeneration d s).floatingCoins := by
      rw [update_running d s hr, frameStep_floatingCoins, boundaryStep_floatingCoins,
        deathStep_floatingCoins, cloudStep_floatingCoins]
    have hc : (update d s).coins = (updateToGeneration d s).coins := by
      rw [update_running d s hr, frameStep_coins, boundaryStep_coins,
        deathStep_coins, cloudStep_coins]
    rw [hf, hc]
    unfold updateToGeneration
    generalize hX : collisionStep (gravityStep (cameraStep (moveStep s))) = X
    have hXf : X.floatingCoins = s.floatingCoins := by
      rw [← hX, collisionStep_floatingCoins, gravityStep_floatingCoins,
        cameraStep_floatingCoins, moveStep_floatingCoins]
    have hXc : X.coins = s.coins := by
      rw [← hX, collisionStep_coins, gravityStep_coins, cameraStep_coins, moveStep_coins]
    obtain ⟨extra, he, hu⟩ := generateStep_floatingCoins d.platforms (coinStep X)
    obtain ⟨h1, h2, h3⟩ := collectCoins_spec X.cameraX X.player X.floatingCoins X.coins
    rw [generateStep_coins, he, coinStep_floatingCoins, coinStep_coins]
    rw [hXf, hXc] at h1 h2 h3
    rw [hXf, hXc]
    refine ⟨_, extra, rfl, h1, hu, h2, ?_⟩
    rw [collectedCount_append, collectedCount_eq_zero extra hu]
    omega
  · rw [update_not_running d s hr]
    exact ⟨s.floatingCoins, [], by simp, forall₂_flagRaised_refl _, by simp,
      by rw [newlyMarked_self]; rfl, rfl⟩

theorem update_coinsCounted (d : TickDraws) (s : GameState) (h : CoinsCounted s) :
    CoinsCounted (update d s) := by
  obtain ⟨_, _, _, _, _, _, h5⟩ := update_coins d s
  unfold CoinsCounted at h ⊢
  omega

theorem generateInitialPlatforms_floatingCoins (d : ℕ → PlatformDraws) (s : GameState) :
    ∃ extra, (generateInitialPlatforms d s).floatingCoins = s.floatingCoins ++ extra ∧
      (∀ c ∈ extra, c.collected = false) ∧ extra.length ≤ 100 := by
  unfold generateInitialPlatforms
  exact generatePlatforms_floatingCoins 50 d _

theorem respawn_floatingCoins (d : ℕ → PlatformDraws) (s : GameState) :
    (∀ c ∈ (respawn d s).floatingCoins, c.collected = false) ∧
      (respawn d s).floatingCoins.length ≤ 100 := by
  unfold respawn
  dsimp only
  obtain ⟨extra, h1, h2, h3⟩ := generateInitialPlatforms_floatingCoins d
    { s with
      player := { s.player with x := 150, y := 300, velocityY := 0, velocityX := some 0 }
      cameraX := 0
      isDead := false
      distance := 0
      coins := 0
      platforms := []
      floatingCoins := []
      lastPlatformX := 0 }
  rw [h1]
  simp only [List.nil_append]
  exact ⟨h2, h3⟩

theorem respawn_coinsCounted (d : ℕ → PlatformDraws) (s : GameState) :
    CoinsCounted (respawn d s) := by
  unfold CoinsCounted
  rw [(respawn_fields d s).2.2.2.1, collectedCount_eq_zero _ (respawn_floatingCoins d s).1]

theorem sameWorld_coinsCounted (s s2 : GameState) (hs : SameWorld s s2)
    (h : CoinsCounted s) : CoinsCounted s2 := by
  obtain ⟨_, _, _, _, h5, _, _, _, _, h10, _⟩ := hs.fields
  unfold CoinsCounted at h ⊢
  rw [h5, h10]
  exact h

theorem keyDown_coinsCounted (d : ℕ → PlatformDraws) (key : String) (s : GameState)
    (h : CoinsCounted s) : CoinsCounted (keyDown d key s) := by
  rcases keyDown_cases d key s with he | he | ⟨s2, hs, he | ⟨_, he⟩⟩
  · rw [he]; exact h
  · rw [he]
    unfold CoinsCounted at h ⊢
    rw [jump_coins, jump_floatingCoins]
    exact h
  · rw [he]; exact sameWorld_coinsCounted s s2 hs h
  · rw [he]; exact respawn_coinsCounted d s2

theorem apply_coinsCounted (e : Event) (s : GameState) (h : CoinsCounted s) :
    CoinsCounted (e.apply s) := by
  cases e with
  | tick d => exact update_coinsCounted d s h
  | keyDown d key => exact keyDown_coinsCounted d key s h
  | keyUp key =>
    show CoinsCounted (keyUp key s)
    rw [keyUp_eq]; exact h
  | respawn d => exact respawn_coinsCounted d s
  | closeInfo =>
    show CoinsCounted (closeInfo s)
    unfold closeInfo; exact h
  | start =>
    show CoinsCounted (start s)
    unfold start; exact h
  | stop =>
    show CoinsCounted (stop s)
    unfold stop closeInfo; exact h
  | resize a b =>
    show CoinsCounted (resizeCanvas a b s)
    unfold resizeCanvas; exact h

theorem run_coinsCounted (es : List Event) (s : GameState) (h : CoinsCounted s) :
    CoinsCounted (run es s) := by
  induction es generalizing s with
  | nil => exact h
  | cons e es ih =>
    rw [run_cons]
    exact ih (e.apply s) (apply_coinsCounted e s h)

theorem construct_floatingCoins (w h : ℚ) (d : InitDraws) :
    ∀ c ∈ (construct w h d).floatingCoins, c.collected = false := by
  unfold construct
  rw [generateInitialCoins_eq]
  dsimp only
  obtain ⟨extra, h1, h2, _⟩ := generateInitialPlatforms_floatingCoins d.platforms
    (generateClouds d.clouds (initialFields w h))
  rw [h1, generateClouds_floatingCoins]
  intro c hc
  rw [show (initialFields w h).floatingCoins = [] from rfl] at hc
  simp only [List.nil_append, List.mem_append, List.mem_map, List.mem_range] at hc
  rcases hc with hc | ⟨i, _, rfl⟩
  · exact h2 c hc
  · rfl

theorem construct_coinsCounted (w h : ℚ) (d : InitDraws) : CoinsCounted (construct w h d) := by
  unfold CoinsCounted
  rw [(construct_fields w h d).2.2.2.2.2.1, collectedCount_eq_zero _ (construct_floatingCoins w h d)]

/-! ## Movement and distance -/

theorem moveStep_distance (s : GameState) :
    (moveStep s).distance =
      if "d" ∈ s.keys ∨ "arrowright" ∈ s.keys then s.distance + 1 / 10 else s.distance := by
  unfold moveStep
  dsimp only
  split_ifs <;> rfl

theorem moveStep_player_x (s : GameState) :
    (moveStep s).player.x =
      (if "a" ∈ s.keys ∨ "arrowleft" ∈ s.keys then s.player.x - s.player.speed else s.player.x) +
      (if "d" ∈ s.keys ∨ "arrowright" ∈ s.keys then s.player.speed else 0) := by
  unfold moveStep
  dsimp only
  split_ifs <;> simp_all

theorem update_distance (d : TickDraws) (s : GameState) (h : Running s) :
    (update d s).distance = (moveStep s).distance := by
  rw [update_running d s h, frameStep_distance, boundaryStep_distance, deathStep_distance,
    cloudStep_distance]
  unfold updateToGeneration
  rw [generateStep_distance, coinStep_distance, collisionStep_distance, gravityStep_distance,
    cameraStep_distance]

/-- A key press that is neither Space, E nor R only records the key. -/
theorem keyDown_plain (d : ℕ → PlatformDraws) (key : String) (s : GameState)
    (hA : s.isActive = true) (h1 : key ≠ " ") (h2 : toLowerCase key ≠ "e")
    (h3 : toLowerCase key ≠ "r") : keyDown d key s = recordKey (toLowerCase key) s := by
  unfold keyDown
  simp [hA, h1, h2, h3]

theorem recordKey_keys (k : String) (s : GameState) :
    (recordKey k s).keys = if k ∈ s.keys then s.keys else k :: s.keys := by
  unfold recordKey; rfl

theorem bothKeysHeld_eq :
    bothKeysHeld = recordKey "d" (recordKey "a" (start (construct 800 600 zeroInit))) := by
  unfold bothKeysHeld
  rw [run_cons, run_cons, run_cons, run_nil]
  show keyDown _ "d" (keyDown _ "a" (start _)) = _
  rw [keyDown_plain _ "a" _ (start_isActive _) (by decide) (by decide) (by decide)]
  rw [keyDown_plain _ "d" _ (by rw [recordKey_isActive]; exact start_isActive _) (by decide)
    (by decide) (by decide)]
  rfl

theorem bothKeysHeld_keys : bothKeysHeld.keys = ["d", "a"] := by
  rw [bothKeysHeld_eq, recordKey_keys, recordKey_keys, start_keys,
    (construct_fields 800 600 zeroInit).2.2.2.2.2.2.2.1]
  decide

theorem bothKeysHeld_running : Running bothKeysHeld := by
  rw [bothKeysHeld_eq]
  refine ⟨?_, ?_⟩
  · rw [recordKey_isActive, recordKey_isActive]; exact start_isActive _
  · rw [recordKey_isDead, recordKey_isDead, start_isDead]
    exact (construct_fields 800 600 zeroInit).2.2.2.1

theorem bothKeysHeld_player : bothKeysHeld.player = spawnPlayer := by
  rw [bothKeysHeld_eq, recordKey_player, recordKey_player, start_player, construct_player]

theorem bothKeysHeld_distance : bothKeysHeld.distance = 0 := by
  rw [bothKeysHeld_eq, recordKey_distance, recordKey_distance, start_distance]
  exact (construct_fields 800 600 zeroInit).2.2.2.2.2.2.1

theorem bothKeysHeld_canvasWidth : bothKeysHeld.canvasWidth = 800 := by
  rw [bothKeysHeld_eq, recordKey_canvasWidth, recordKey_canvasWidth, start_canvasWidth]
  exact (construct_fields 800 600 zeroInit).1

/-- In an update tick of a Running game `distance` never decreases; it grows
by exactly 0.1 when a move-right key (`d` or `arrowright`) is held and is
unchanged otherwise. For a positive speed the player `x` after the movement
step is greater than before exactly when a move-right key is held and no
move-left key is. -/
theorem update_distance_cases (d : TickDraws) (s : GameState) (h : Running s) :
    s.distance ≤ (update d s).distance ∧
    (("d" ∈ s.keys ∨ "arrowright" ∈ s.keys) → (update d s).distance = s.distance + 1 / 10) ∧
    (¬ ("d" ∈ s.keys ∨ "arrowright" ∈ s.keys) → (update d s).distance = s.distance) ∧
    (0 < s.player.speed →
      (s.player.x < (moveStep s).player.x ↔
        (("d" ∈ s.keys ∨ "arrowright" ∈ s.keys) ∧ ¬ ("a" ∈ s.keys ∨ "arrowleft" ∈ s.keys)))) := by
  rw [update_distance d s h, moveStep_distance, moveStep_player_x]
  refine ⟨?_, ?_, ?_, ?_⟩
  · split_ifs <;> linarith
  · intro hr; rw [if_pos hr]
  · intro hr; rw [if_neg hr]
  · intro hs
    by_cases hl : "a" ∈ s.keys ∨ "arrowleft" ∈ s.keys <;>
      by_cases hr : "d" ∈ s.keys ∨ "arrowright" ∈ s.keys
    · rw [if_pos hl, if_pos hr]
      constructor
      · intro hlt; linarith
      · intro hc; exact absurd hl hc.2
    · rw [if_pos hl, if_neg hr]
      constructor
      · intro hlt; linarith
      · intro hc; exact absurd hc.1 hr
    · rw [if_neg hl, if_pos hr]
      constructor
      · intro _; exact ⟨hr, hl⟩
      · intro _; linarith
    · rw [if_neg hl, if_neg hr]
      constructor
      · intro hlt; linarith
      · intro hc; exact absurd hc.1 hr

/-! ## What platform synthesis appends -/

theorem pick_types_ne_ground (v : ℚ) :
    pick ["block", "question", "brick"] v ≠ some "ground" := by
  unfold pick
  split_ifs
  · simp
  · generalize (Rat.floor v).toNat = n
    match n with
    | 0 => decide
    | 1 => decide
    | 2 => decide
    | n + 3 => simp

theorem generateNewPlatform_platforms (d : PlatformDraws) (s : GameState) :
    (generateNewPlatform d s).platforms =
      s.platforms ++ [newPlatform (s.lastPlatformX + (100 + d.gap * 100)) (350 + d.y * 120)
        (90 + d.width * 70) (pick ["block", "question", "brick"] (d.type * 3))] := by
  unfold generateNewPlatform; rfl

/-- The platforms a run of syntheses appends: as many as there are syntheses,
none with a door, none of type ground. -/
theorem generatePlatforms_platforms (n : ℕ) (d : ℕ → PlatformDraws) (s : GameState) :
    ∃ extra, (generatePlatforms n d s).platforms = s.platforms ++ extra ∧
      extra.length = n ∧ ∀ p ∈ extra, p.door = none ∧ p.type ≠ some "ground" := by
  induction n with
  | zero => exact ⟨[], by rw [generatePlatforms_zero]; simp, rfl, by simp⟩
  | succ n ih =>
    obtain ⟨extra, h1, h2, h3⟩ := ih
    refine ⟨extra ++ [newPlatform ((generatePlatforms n d s).lastPlatformX + (100 + (d n).gap * 100))
      (350 + (d n).y * 120) (90 + (d n).width * 70)
      (pick ["block", "question", "brick"] ((d n).type * 3))], ?_, ?_, ?_⟩
    · rw [generatePlatforms_succ, generateNewPlatform_platforms, h1, List.append_assoc]
    · rw [List.length_append, h2]; rfl
    · intro p hp
      rcases List.mem_append.1 hp with hp | hp
      · exact h3 p hp
      · rw [List.mem_singleton.1 hp]
        exact ⟨rfl, pick_types_ne_ground _⟩

/-- The coins one synthesis appends. -/
theorem generateNewPlatform_floatingCoins_eq (d : PlatformDraws) (s : GameState) :
    (generateNewPlatform d s).floatingCoins =
      s.floatingCoins ++
        ((if d.coin < 1 / 2 then
            [{ x := s.lastPlatformX + (100 + d.gap * 100) + (90 + d.width * 70) / 2 - 10
               y := 350 + d.y * 120 - 50, width := 20, height := 20, collected := false }]
          else []) ++
         (if d.between < 3 / 10 ∧ 100 + d.gap * 100 > 120 then
            [{ x := s.lastPlatformX + (100 + d.gap * 100) - (100 + d.gap * 100) / 2 - 10
               y := min (350 + d.y * 120) 400 - 60, width := 20, height := 20,
               collected := false }]
          else [])) := by
  unfold generateNewPlatform
  dsimp only
  split_ifs <;> simp

/-- With valid draws every platform a run of syntheses appends starts at least
100 beyond the frontier it started from, and every coin it appends lies at
least 40 beyond it. -/
theorem generatePlatforms_positions (n : ℕ) (d : ℕ → PlatformDraws) (s : GameState)
    (hd : ∀ i < n, (d i).valid) :
    ∃ ps cs, (generatePlatforms n d s).platforms = s.platforms ++ ps ∧
      (generatePlatforms n d s).floatingCoins = s.floatingCoins ++ cs ∧
      (∀ p ∈ ps, s.lastPlatformX + 100 ≤ p.x) ∧ (∀ c ∈ cs, s.lastPlatformX + 40 ≤ c.x) := by
  induction n with
  | zero =>
    rw [generatePlatforms_zero]
    exact ⟨[], [], by simp, by simp, by simp, by simp⟩
  | succ n ih =>
    obtain ⟨ps, cs, ih1, ih2, ih3, ih4⟩ := ih (fun i hi => hd i (Nat.lt_succ_of_lt hi))
    have hL := generatePlatforms_lastPlatformX_ge n d s (fun i hi => hd i (Nat.lt_succ_of_lt hi))
    have hn : (0 : ℚ) ≤ n := Nat.cast_nonneg n
    obtain ⟨⟨hg0, hg1⟩, _, ⟨hw0, hw1⟩, _⟩ := hd n (Nat.lt_succ_self n)
    rw [generatePlatforms_succ, generateNewPlatform_platforms,
      generateNewPlatform_floatingCoins_eq]
    generalize generatePlatforms n d s = t at ih1 ih2 hL ⊢
    rw [ih1, ih2]
    refine ⟨_, _, List.append_assoc _ _ _, List.append_assoc _ _ _, ?_, ?_⟩
    · intro p hp
      rcases List.mem_append.1 hp with hp | hp
      · exact ih3 p hp
      · rw [List.mem_singleton.1 hp]
        show s.lastPlatformX + 100 ≤ t.lastPlatformX + (100 + (d n).gap * 100)
        nlinarith
    · intro c hc
      rcases List.mem_append.1 hc with hc | hc
      · exact ih4 c hc
      rcases List.mem_append.1 hc with hc | hc
      · split_ifs at hc
        · rw [List.mem_singleton.1 hc]
          show s.lastPlatformX + 40 ≤
            t.lastPlatformX + (100 + (d n).gap * 100) + (90 + (d n).width * 70) / 2 - 10
          nlinarith
        · simp at hc
      · split_ifs at hc
        · rw [List.mem_singleton.1 hc]
          show s.lastPlatformX + 40 ≤
            t.lastPlatformX + (100 + (d n).gap * 100) - (100 + (d n).gap * 100) / 2 - 10
          nlinarith
        · simp at hc

theorem generateStep_positions (d : ℕ → PlatformDraws) (s : GameState)
    (hd : ∀ i < 3, (d i).valid) :
    ∃ ps cs, (generateStep d s).platforms = s.platforms ++ ps ∧
      (generateStep d s).floatingCoins = s.floatingCoins ++ cs ∧
      (∀ p ∈ ps, s.lastPlatformX + 100 ≤ p.x) ∧ (∀ c ∈ cs, s.lastPlatformX + 40 ≤ c.x) := by
  unfold generateStep
  split_ifs
  · exact generatePlatforms_positions 3 d s hd
  · exact ⟨[], [], by simp, by simp, by simp, by simp⟩

/-! ## Ticks with no key held -/
theorem moveStep_idle (s : GameState) (h : s.keys = []) : moveStep s = s := by
  unfold moveStep
  simp [h]

theorem foldl_collide_none (cam : ℚ) (ps : List Platform) (pl : Player)
    (h : ∀ p ∈ ps, ¬ lands cam pl p) : ps.foldl (collide cam) pl = pl := by
  rcases foldl_collide cam ps pl with ⟨_, he⟩ | ⟨pre, p, post, hps, _, hl, _⟩
  · exact he
  · exact absurd hl (h p (by rw [hps]; simp))

theorem collectCoins_none (cam : ℚ) (pl : Player) (cs : List Coin) (n : ℕ)
    (h : ∀ c ∈ cs, ¬ touches cam pl c) : collectCoins cam pl cs n = (cs, n) := by
  induction cs generalizing n with
  | nil => rfl
  | cons c cs ih =>
    unfold collectCoins
    rw [if_neg (fun hc => h c (List.mem_cons_self _ _) hc.2)]
    rw [ih n (fun c hc => h c (List.mem_cons_of_mem _ hc))]

theorem update_isActive (d : TickDraws) (s : GameState) :
    (update d s).isActive = s.isActive := by
  by_cases h : Running s
  · rw [update_running d s h]
    unfold updateToGeneration
    simp
  · rw [update_not_running d s h]

theorem update_keys (d : TickDraws) (s : GameState) : (update d s).keys = s.keys := by
  by_cases h : Running s
  · rw [update_running d s h]
    unfold updateToGeneration
    simp
  · rw [update_not_running d s h]

theorem update_canvasHeight (d : TickDraws) (s : GameState) :
    (update d s).canvasHeight = s.canvasHeight := by
  by_cases h : Running s
  · rw [update_running d s h]
    unfold updateToGeneration
    simp
  · rw [update_not_running d s h]

theorem update_activePanel (d : TickDraws) (s : GameState) :
    (update d s).activePanel = s.activePanel := by
  by_cases h : Running s
  · rw [update_running d s h]
    unfold updateToGeneration
    simp
  · rw [update_not_running d s h]

/-- A tick keeps the constants of the player object. -/
theorem update_player_constants (d : TickDraws) (s : GameState) :
    (update d s).player.width = s.player.width ∧
    (update d s).player.height = s.player.height ∧
    (update d s).player.gravity = s.player.gravity ∧
    (update d s).player.jumpPower = s.player.jumpPower := by
  by_cases h : Running s
  · rw [update_running d s h, frameStep_player, boundaryStep_player_width,
      boundaryStep_player_height, boundaryStep_player_gravity, boundaryStep_player_jumpPower,
      deathStep_player, cloudStep_player, updateToGeneration_player, collisionStep_player,
      foldl_collide_eq, gravityStep_player_width, gravityStep_player_height,
      gravityStep_player_gravity, gravityStep_player_jumpPower, cameraStep_player,
      moveStep_player_width, moveStep_player_height, moveStep_player_gravity,
      moveStep_player_jumpPower]
    exact ⟨rfl, rfl, rfl, rfl⟩
  · rw [update_not_running d s h]
    exact ⟨rfl, rfl, rfl, rfl⟩

/-- Platforms, coins and frontier after a Running tick, in terms of the
generation step. -/
theorem update_world (d : TickDraws) (s : GameState) (h : Running s) :
    (update d s).platforms = (updateToGeneration d s).platforms ∧
    (update d s).floatingCoins = (updateToGeneration d s).floatingCoins ∧
    (update d s).coins = (updateToGeneration d s).coins := by
  rw [update_running d s h]
  simp

theorem not_lands_of_right (cam : ℚ) (pl : Player) (p : Platform)
    (h : pl.x + pl.width ≤ p.x) : ¬ lands cam pl p := by
  intro hl
  have := hl.1
  linarith

theorem not_touches_of_right (cam : ℚ) (pl : Player) (c : Coin)
    (h : pl.x + pl.width ≤ c.x) : ¬ touches cam pl c := by
  intro hl
  have := hl.1
  linarith


/-- Outcome of the death check of a Running tick. -/
theorem update_death (d : TickDraws) (s : GameState) (h : Running s) :
    ((update d s).player.y > s.canvasHeight + 100 ∧ (update d s).isDead = true ∧
      (update d s).panelContent = PanelContent.death
        { message := pick deathMessages (d.death * 8)
          distance := Rat.floor (update d s).distance
          coins := (update d s).coins
          score := Rat.floor ((update d s).distance + ((update d s).coins : ℚ) * 50) }) ∨
    (¬ (update d s).player.y > s.canvasHeight + 100 ∧ (update d s).isDead = false ∧
      (update d s).panelContent = s.panelContent) := by
  have hD0 : (cloudStep d.cloud (updateToGeneration d s)).isDead = false := by
    unfold updateToGeneration
    simp [h.2]
  have hP0 : (cloudStep d.cloud (updateToGeneration d s)).panelContent = s.panelContent := by
    unfold updateToGeneration
    simp
  have hH : (cloudStep d.cloud (updateToGeneration d s)).canvasHeight = s.canvasHeight := by
    unfold updateToGeneration
    simp
  rw [update_running d s h]
  generalize cloudStep d.cloud (updateToGeneration d s) = T at hD0 hP0 hH
  simp only [frameStep_player, boundaryStep_player_y, frameStep_isDead, boundaryStep_isDead,
    frameStep_panelContent, boundaryStep_panelContent, frameStep_distance,
    boundaryStep_distance, frameStep_coins, boundaryStep_coins]
  unfold deathStep
  rw [hH]
  split_ifs with hy
  · left
    refine ⟨by rw [handleDeath_player]; exact hy, ?_, ?_⟩
    · unfold handleDeath; rfl
    · unfold handleDeath; rfl
  · right
    exact ⟨hy, hD0, hP0⟩

/-- With no movement key held, everything in the world lies where a tick found
it; the tick appends platforms and coins far to the right only. -/
theorem idle_generation (d : TickDraws) (s : GameState) (hW : IdleWorld s)
    (hd : ∀ i < 3, (d.platforms i).valid) :
    ∃ ps cs, (updateToGeneration d s).platforms = s.platforms ++ ps ∧
      (updateToGeneration d s).floatingCoins = s.floatingCoins ++ cs ∧
      (updateToGeneration d s).coins = s.coins ∧
      (∀ p ∈ ps, s.lastPlatformX + 100 ≤ p.x) ∧ (∀ c ∈ cs, s.lastPlatformX + 40 ≤ c.x) := by
  obtain ⟨_, hk, _, hx, hwd, _, _, _, _, _, hcoins, _⟩ := hW
  unfold updateToGeneration
  rw [moveStep_idle s hk]
  generalize hX : collisionStep (gravityStep (cameraStep s)) = X
  have hXp : X.player.x = 150 ∧ X.player.width = 32 := by
    rw [← hX, collisionStep_player, foldl_collide_eq]
    simp only [gravityStep_player_x, gravityStep_player_width, cameraStep_player]
    exact ⟨hx, hwd⟩
  have hXf : X.floatingCoins = s.floatingCoins := by
    rw [← hX]; simp
  have hXc : X.coins = s.coins := by
    rw [← hX]; simp
  have hXl : X.lastPlatformX = s.lastPlatformX := by
    rw [← hX]; simp
  have hXpl : X.platforms = s.platforms := by
    rw [← hX]; simp
  have hnone : collectCoins X.cameraX X.player X.floatingCoins X.coins =
      (X.floatingCoins, X.coins) := by
    apply collectCoins_none
    intro c hc
    apply not_touches_of_right
    rw [hXf] at hc
    have := hcoins c hc
    rw [hXp.1, hXp.2]
    linarith
  have hcs : coinStep X = X := by
    unfold coinStep
    rw [hnone]
  rw [hcs]
  obtain ⟨ps, cs, h1, h2, h3, h4⟩ := generateStep_positions d.platforms X hd
  refine ⟨ps, cs, ?_, ?_, ?_, ?_, ?_⟩
  · rw [h1, hXpl]
  · rw [h2, hXf]
  · rw [generateStep_coins, hXc]
  · rw [← hXl]; exact h3
  · rw [← hXl]; exact h4


/-- With no movement key held a tick keeps the idle world. -/
theorem idle_tick_world (d : TickDraws) (s : GameState) (hW : IdleWorld s)
    (hd : ∀ i < 3, (d.platforms i).valid) : IdleWorld (update d s) := by
  by_cases hr : Running s
  · obtain ⟨ps, cs, g1, g2, g3, g4, g5⟩ := idle_generation d s hW hd
    obtain ⟨hA, hk, hw, hx, hwd, hht, hg, hdist, hco, ⟨rest, hpl, hrest⟩, hcoins, hL⟩ := hW
    obtain ⟨c1, c2, c3, _⟩ := update_player_constants d s
    obtain ⟨w1, w2, w3⟩ := update_world d s hr
    have hm := moveStep_idle s hk
    refine ⟨by rw [update_isActive, hA], by rw [update_keys, hk],
      by rw [update_canvasWidth]; exact hw, ?_, by rw [c1, hwd], by rw [c2, hht],
      by rw [c3, hg], ?_, by rw [w3, g3, hco], ⟨rest ++ ps, ?_, ?_⟩, ?_, ?_⟩
    · rw [update_player_x d s hr, update_cameraX d s hr, hm, hx]
      rw [if_neg]
      rw [not_lt]
      apply max_le <;> linarith
    · rw [update_distance d s hr, hm, hdist]
    · rw [w1, g1, hpl]; rfl
    · intro p hp
      rcases List.mem_append.1 hp with hp | hp
      · exact hrest p hp
      · have := g4 p hp; linarith
    · intro c hc
      rw [w2, g2] at hc
      rcases List.mem_append.1 hc with hc | hc
      · exact hcoins c hc
      · have := g5 c hc; linarith
    · rw [update_lastPlatformX d s hr]
      rcases updateToGeneration_lastPlatformX d s hd with ⟨_, h2, _⟩ | ⟨_, h2⟩
      · linarith
      · rw [h2]; exact hL
  · rw [update_not_running d s hr]; exact hW

/-- Vertical outcome of a tick in the idle world: the player lands on the
ground platform when the fall ends inside its top band, and falls on
otherwise. -/
theorem idle_vertical (d : TickDraws) (s : GameState) (hW : IdleWorld s) (hr : Running s) :
    (502 < s.player.y + (s.player.velocityY + 4 / 5) ∧
      s.player.y + (s.player.velocityY + 4 / 5) < 532 ∧ 0 < s.player.velocityY + 4 / 5 →
      (update d s).player.y = 502 ∧ (update d s).player.velocityY = 0 ∧
        (update d s).player.isJumping = false) ∧
    (¬ (502 < s.player.y + (s.player.velocityY + 4 / 5) ∧
      s.player.y + (s.player.velocityY + 4 / 5) < 532 ∧ 0 < s.player.velocityY + 4 / 5) →
      (update d s).player.y = s.player.y + (s.player.velocityY + 4 / 5) ∧
        (update d s).player.velocityY = s.player.velocityY + 4 / 5 ∧
        (update d s).player.isJumping = true) := by
  obtain ⟨hA, hk, hw, hx, hwd, hht, hg, hdist, hco, ⟨rest, hpl, hrest⟩, hcoins, hL⟩ := hW
  obtain ⟨v1, v2, v3⟩ := update_player_vertical d s hr
  rw [v1, v2, v3, moveStep_idle s hk, collisionStep_player, gravityStep_platforms,
    cameraStep_platforms, hpl, List.foldl_cons]
  generalize hcam : (gravityStep (cameraStep s)).cameraX = cam
  have hp1 : (gravityStep (cameraStep s)).player =
      { s.player with
        velocityY := s.player.velocityY + 4 / 5
        y := s.player.y + (s.player.velocityY + 4 / 5)
        isJumping := true } := by
    rw [gravityStep_player, cameraStep_player, hg]
  rw [hp1]
  generalize hpl1 : ({ s.player with
        velocityY := s.player.velocityY + 4 / 5
        y := s.player.y + (s.player.velocityY + 4 / 5)
        isJumping := true } : Player) = pl1
  have e1 : pl1.x = 150 := by rw [← hpl1]; exact hx
  have e2 : pl1.width = 32 := by rw [← hpl1]; exact hwd
  have e3 : pl1.height = 48 := by rw [← hpl1]; exact hht
  have e4 : pl1.y = s.player.y + (s.player.velocityY + 4 / 5) := by rw [← hpl1]
  have e5 : pl1.velocityY = s.player.velocityY + 4 / 5 := by rw [← hpl1]
  have e6 : pl1.isJumping = true := by rw [← hpl1]
  rw [← e4, ← e5]
  have hrest2 : ∀ P : Player, P.x = 150 → P.width = 32 →
      rest.foldl (collide cam) P = P := by
    intro P h1 h2
    apply foldl_collide_none
    intro p hp
    apply not_lands_of_right
    have := hrest p hp
    rw [h1, h2]; linarith
  have hland : lands cam pl1 groundPlatform ↔
      (502 < pl1.y ∧ pl1.y < 532 ∧ 0 < pl1.velocityY) := by
    unfold lands groundPlatform
    simp only [e1, e2, e3]
    constructor
    · rintro ⟨_, _, h3, h4, h5⟩
      exact ⟨by linarith, by linarith, h5⟩
    · rintro ⟨h3, h4, h5⟩
      exact ⟨by linarith, by linarith, by linarith, by linarith, h5⟩
  constructor
  · intro hc
    have hl := hland.2 hc
    have : collide cam pl1 groundPlatform =
        { pl1 with y := groundPlatform.y - pl1.height, velocityY := 0, isJumping := false } := by
      unfold collide; rw [if_pos hl]
    rw [this, hrest2
      { pl1 with y := groundPlatform.y - pl1.height, velocityY := 0, isJumping := false } e1 e2]
    refine ⟨?_, rfl, rfl⟩
    show groundPlatform.y - pl1.height = 502
    rw [e3]; unfold groundPlatform; norm_num
  · intro hc
    have hl : ¬ lands cam pl1 groundPlatform := fun h => hc (hland.1 h)
    have : collide cam pl1 groundPlatform = pl1 := by
      unfold collide; rw [if_neg hl]
    rw [this, hrest2 pl1 e1 e2]
    exact ⟨rfl, rfl, e6⟩

/-! ## The fall from the spawn point -/

theorem rat_floor_zero : Rat.floor 0 = 0 := rfl

/-- A Running tick of the idle world that ends below the canvas ends the
game with nothing scored. -/
theorem idle_deadZero (d : TickDraws) (s : GameState) (hW : IdleWorld s)
    (hd : ∀ i < 3, (d.platforms i).valid) (hr : Running s)
    (hy : (update d s).player.y > s.canvasHeight + 100) : DeadZero (update d s) := by
  obtain ⟨_, _, _, _, _, _, _, hdist, hco, _⟩ := idle_tick_world d s hW hd
  rcases update_death d s hr with ⟨_, h2, h3⟩ | ⟨h1, _⟩
  · refine ⟨h2, by rw [update_canvasHeight]; exact hy, hdist, hco, _, h3, ?_, hco, ?_, ?_⟩
    · show Rat.floor (update d s).distance = 0
      rw [hdist]; exact rat_floor_zero
    · show Rat.floor ((update d s).distance + ((update d s).coins : ℚ) * 50) = 0
      rw [hdist, hco]; norm_num; exact rat_floor_zero
    · rfl
  · exact absurd hy h1

theorem idle_not_dead (d : TickDraws) (s : GameState) (hr : Running s)
    (hy : ¬ (update d s).player.y > s.canvasHeight + 100) : (update d s).isDead = false := by
  rcases update_death d s hr with ⟨h1, _⟩ | ⟨_, h2, _⟩
  · exact absurd h1 hy
  · exact h2

theorem running_of_idle (s : GameState) (hW : IdleWorld s) (hD : s.isDead = false) :
    Running s := ⟨hW.1, hD⟩

/-- One more tick of the free fall: it goes on, or it ends below the canvas. -/
theorem falling_step (d : TickDraws) (s : GameState) (k : ℕ) (hW : IdleWorld s)
    (hd : ∀ i < 3, (d.platforms i).valid) (hk : k ≤ 20) (hF : Falling k s) :
    ((Falling (k + 1) (update d s) ∧ (update d s).player.y ≤ s.canvasHeight + 100) ∨
      DeadZero (update d s)) ∧ (update d s).player.y ≤ 502 := by
  obtain ⟨hD, hv, hy⟩ := hF
  have hr := running_of_idle s hW hD
  have hkq : (k : ℚ) ≤ 20 := by exact_mod_cast hk
  have hk0 : (0 : ℚ) ≤ k := Nat.cast_nonneg k
  have hnl : ¬ (502 < s.player.y + (s.player.velocityY + 4 / 5) ∧
      s.player.y + (s.player.velocityY + 4 / 5) < 532 ∧ 0 < s.player.velocityY + 4 / 5) := by
    rintro ⟨h1, _, _⟩
    rw [hv, hy] at h1
    nlinarith
  obtain ⟨e1, e2, _⟩ := (idle_vertical d s hW hr).2 hnl
  refine ⟨?_, by rw [e1, hv, hy]; nlinarith⟩
  by_cases hdead : (update d s).player.y > s.canvasHeight + 100
  · right; exact idle_deadZero d s hW hd hr hdead
  · left
    refine ⟨⟨idle_not_dead d s hr hdead, ?_, ?_⟩, not_lt.1 hdead⟩
    · rw [e2, hv]; push_cast; ring
    · rw [e1, hv, hy]; push_cast; ring

/-- The tick after 21 ticks of free fall lands the player on the ground. -/
theorem landing_step (d : TickDraws) (s : GameState) (hW : IdleWorld s)
    (hd : ∀ i < 3, (d.platforms i).valid) (hF : Falling 21 s) :
    ((Landed (update d s) ∧ 502 ≤ s.canvasHeight + 100) ∨ DeadZero (update d s)) ∧
      (update d s).player.y ≤ 502 := by
  obtain ⟨hD, hv, hy⟩ := hF
  have hr := running_of_idle s hW hD
  have hl : 502 < s.player.y + (s.player.velocityY + 4 / 5) ∧
      s.player.y + (s.player.velocityY + 4 / 5) < 532 ∧ 0 < s.player.velocityY + 4 / 5 := by
    rw [hv, hy]; norm_num
  obtain ⟨e1, e2, e3⟩ := (idle_vertical d s hW hr).1 hl
  refine ⟨?_, by rw [e1]⟩
  by_cases hdead : (update d s).player.y > s.canvasHeight + 100
  · right; exact idle_deadZero d s hW hd hr hdead
  · left
    refine ⟨⟨idle_not_dead d s hr hdead, e2, e1, e3⟩, ?_⟩
    rw [e1] at hdead
    exact not_lt.1 hdead

/-- A tick of the landed player leaves the player on the ground. -/
theorem landed_step (d : TickDraws) (s : GameState) (hW : IdleWorld s)
    (hd : ∀ i < 3, (d.platforms i).valid) (hF : Landed s) :
    ((Landed (update d s) ∧ 502 ≤ s.canvasHeight + 100) ∨ DeadZero (update d s)) ∧
      (update d s).player.y ≤ 502 := by
  obtain ⟨hD, hv, hy, _⟩ := hF
  have hr := running_of_idle s hW hD
  have hl : 502 < s.player.y + (s.player.velocityY + 4 / 5) ∧
      s.player.y + (s.player.velocityY + 4 / 5) < 532 ∧ 0 < s.player.velocityY + 4 / 5 := by
    rw [hv, hy]; norm_num
  obtain ⟨e1, e2, e3⟩ := (idle_vertical d s hW hr).1 hl
  refine ⟨?_, by rw [e1]⟩
  by_cases hdead : (update d s).player.y > s.canvasHeight + 100
  · right; exact idle_deadZero d s hW hd hr hdead
  · left
    refine ⟨⟨idle_not_dead d s hr hdead, e2, e1, e3⟩, ?_⟩
    rw [e1] at hdead
    exact not_lt.1 hdead

theorem deadZero_step (d : TickDraws) (s : GameState) (h : DeadZero s) : update d s = s := by
  apply update_not_running
  intro hr
  have h2 := hr.2
  rw [h.1] at h2
  exact Bool.noConfusion h2

theorem ticks_succ (ds : ℕ → TickDraws) (n : ℕ) (s : GameState) :
    ticks ds (n + 1) s = update (ds n) (ticks ds n s) := rfl

theorem ticks_canvasHeight (ds : ℕ → TickDraws) (n : ℕ) (s : GameState) :
    (ticks ds n s).canvasHeight = s.canvasHeight := by
  induction n with
  | zero => rfl
  | succ n ih => rw [ticks_succ, update_canvasHeight, ih]

theorem ticks_idleWorld (ds : ℕ → TickDraws) (n : ℕ) (s : GameState) (hW : IdleWorld s)
    (hd : ∀ n, ∀ i < 3, ((ds n).platforms i).valid) : IdleWorld (ticks ds n s) := by
  induction n with
  | zero => exact hW
  | succ n ih => rw [ticks_succ]; exact idle_tick_world _ _ ih (hd n)

/-- The idle run from a free-fall start: after `n` ticks the game is over with
nothing scored, or the player is `n` ticks into the fall (up to 21 ticks) or
on the ground (from 22 ticks on), and then the canvas reaches below the
player; the player is never below the height 502. -/
theorem ticks_phase (ds : ℕ → TickDraws) (n : ℕ) (s : GameState) (hW : IdleWorld s)
    (hd : ∀ n, ∀ i < 3, ((ds n).platforms i).valid) (hF : Falling 0 s) :
    (DeadZero (ticks ds n s) ∨
      (n ≤ 21 ∧ Falling n (ticks ds n s)) ∨
      (22 ≤ n ∧ Landed (ticks ds n s) ∧ 502 ≤ s.canvasHeight + 100)) ∧
    (ticks ds n s).player.y ≤ 502 := by
  induction n with
  | zero =>
    refine ⟨Or.inr (Or.inl ⟨by norm_num, hF⟩), ?_⟩
    show s.player.y ≤ 502
    rw [hF.2.2]; norm_num
  | succ n ih =>
    have hWn := ticks_idleWorld ds n s hW hd
    have hH := ticks_canvasHeight ds n s
    rw [ticks_succ]
    obtain ⟨ih, ihy⟩ := ih
    rcases ih with hdz | ⟨hn, hf⟩ | ⟨hn, hl, hh⟩
    · rw [deadZero_step _ _ hdz]; exact ⟨Or.inl hdz, ihy⟩
    · by_cases h20 : n ≤ 20
      · obtain ⟨hs, hy⟩ := falling_step (ds n) _ n hWn (hd n) h20 hf
        refine ⟨?_, hy⟩
        rcases hs with ⟨h1, _⟩ | h1
        · right; left; exact ⟨by omega, h1⟩
        · left; exact h1
      · have h21 : n = 21 := by omega
        subst h21
        obtain ⟨hs, hy⟩ := landing_step (ds 21) _ hWn (hd 21) hf
        refine ⟨?_, hy⟩
        rcases hs with ⟨h1, h2⟩ | h1
        · right; right; rw [hH] at h2; exact ⟨by norm_num, h1, h2⟩
        · left; exact h1
    · obtain ⟨hs, hy⟩ := landed_step (ds n) _ hWn (hd n) hl
      refine ⟨?_, hy⟩
      rcases hs with ⟨h1, h2⟩ | h1
      · right; right; exact ⟨by omega, h1, hh⟩
      · left; exact h1

/-! ## The world the constructor builds -/

/-- The platforms of the initial world: the five fixed ones, then fifty
synthesized ones without door and not of type ground. -/
theorem generateInitialPlatforms_platforms (d : ℕ → PlatformDraws) (s : GameState) :
    ∃ ps, (generateInitialPlatforms d s).platforms = s.platforms ++ fixedPlatforms ++ ps ∧
      ps.length = 50 ∧ ∀ p ∈ ps, p.door = none ∧ p.type ≠ some "ground" := by
  unfold generateInitialPlatforms
  exact generatePlatforms_platforms 50 d _

theorem generateInitialPlatforms_positions (d : ℕ → PlatformDraws) (s : GameState)
    (hd : ∀ i < 50, (d i).valid) :
    ∃ ps cs, (generateInitialPlatforms d s).platforms = s.platforms ++ fixedPlatforms ++ ps ∧
      (generateInitialPlatforms d s).floatingCoins = s.floatingCoins ++ cs ∧
      (∀ p ∈ ps, 1100 ≤ p.x) ∧ (∀ c ∈ cs, 1040 ≤ c.x) := by
  unfold generateInitialPlatforms
  obtain ⟨ps, cs, h1, h2, h3, h4⟩ := generatePlatforms_positions 50 d
    { s with platforms := s.platforms ++ fixedPlatforms, lastPlatformX := 1000 } hd
  refine ⟨ps, cs, h1, h2, ?_, ?_⟩
  · intro p hp
    have := h3 p hp
    norm_num at this
    exact this
  · intro c hc
    have := h4 c hc
    norm_num at this
    exact this

theorem construct_platforms_eq (w h : ℚ) (d : InitDraws) :
    (construct w h d).platforms =
      (generateInitialPlatforms d.platforms (generateClouds d.clouds
        (initialFields w h))).platforms := by
  unfold construct
  rw [generateInitialCoins_platforms]

theorem construct_floatingCoins_eq (w h : ℚ) (d : InitDraws) :
    (construct w h d).floatingCoins =
      (generateInitialPlatforms d.platforms (generateClouds d.clouds
        (initialFields w h))).floatingCoins ++
        (List.range 30).map (fun i => initialCoin i (d.coins i)) := by
  unfold construct
  rw [generateInitialCoins_eq]

/-- The platforms the constructor builds. -/
theorem construct_platforms (w h : ℚ) (d : InitDraws) :
    ∃ ps, (construct w h d).platforms = fixedPlatforms ++ ps ∧
      ps.length = 50 ∧ ∀ p ∈ ps, p.door = none ∧ p.type ≠ some "ground" := by
  rw [construct_platforms_eq]
  obtain ⟨ps, h1, h2, h3⟩ := generateInitialPlatforms_platforms d.platforms
    (generateClouds d.clouds
        (initialFields w h))
  rw [generateClouds_platforms, show (initialFields w h).platforms = [] from rfl] at h1
  exact ⟨ps, by rw [h1]; rfl, h2, h3⟩

/-- With valid draws the constructor puts every synthesized platform at 1100 or
beyond and every coin at 200 or beyond. -/
theorem construct_positions (w h : ℚ) (d : InitDraws)
    (hd : ∀ i < 50, (d.platforms i).valid) (hc : ∀ i < 30, unit (d.coins i).x) :
    (∃ ps, (construct w h d).platforms = fixedPlatforms ++ ps ∧ ∀ p ∈ ps, 1100 ≤ p.x) ∧
    ∀ c ∈ (construct w h d).floatingCoins, 200 ≤ c.x := by
  rw [construct_platforms_eq, construct_floatingCoins_eq]
  obtain ⟨ps, cs, h1, h2, h3, h4⟩ := generateInitialPlatforms_positions d.platforms
    (generateClouds d.clouds
        (initialFields w h)) hd
  rw [generateClouds_platforms, show (initialFields w h).platforms = [] from rfl] at h1
  rw [generateClouds_floatingCoins, show (initialFields w h).floatingCoins = [] from rfl] at h2
  rw [h1, h2]
  refine ⟨⟨ps, rfl, h3⟩, ?_⟩
  intro c hcm
  simp only [List.nil_append, List.mem_append, List.mem_map, List.mem_range] at hcm
  rcases hcm with hcm | ⟨i, hi, rfl⟩
  · have := h4 c hcm; linarith
  · have hi0 : (0 : ℚ) ≤ i := Nat.cast_nonneg i
    have := (hc i hi).1
    show 200 ≤ (i : ℚ) * 250 + 200 + (d.coins i).x * 100
    nlinarith

/-- The started game after construction is an idle world at the start of the
fall. -/
theorem start_construct_idle (w h : ℚ) (d : InitDraws) (hw : 0 ≤ w)
    (hd : ∀ i < 50, (d.platforms i).valid) (hc : ∀ i < 30, unit (d.coins i).x) :
    IdleWorld (start (construct w h d)) ∧ Falling 0 (start (construct w h d)) := by
  obtain ⟨f1, f2, f3, f4, f5, f6, f7, f8, f9, f10⟩ := construct_fields w h d
  obtain ⟨⟨ps, hp1, hp2⟩, hcs⟩ := construct_positions w h d hd hc
  have hL := construct_lastPlatformX_ge w h d hd
  constructor
  · refine ⟨start_isActive _, by rw [start_keys, f8], by rw [start_canvasWidth, f1]; exact hw,
      ?_, ?_, ?_, ?_, by rw [start_distance, f7], by rw [start_coins, f6], ?_, ?_, ?_⟩
    · rw [start_player, construct_player]; rfl
    · rw [start_player, construct_player]; rfl
    · rw [start_player, construct_player]; rfl
    · rw [start_player, construct_player]; rfl
    · refine ⟨[aboutPlatform, skillsPlatform, experiencePlatform, projectsPlatform] ++ ps, ?_, ?_⟩
      · rw [start_platforms, hp1]; rfl
      · intro p hp
        rcases List.mem_append.1 hp with hp | hp
        · simp only [List.mem_cons, List.mem_singleton, List.not_mem_nil, or_false] at hp
          rcases hp with rfl | rfl | rfl | rfl <;>
            simp [aboutPlatform, skillsPlatform, experiencePlatform, projectsPlatform] <;>
            norm_num
        · have := hp2 p hp; linarith
    · rw [start_floatingCoins]; exact hcs
    · rw [start_lastPlatformX]; linarith
  · refine ⟨by rw [start_isDead, f4], ?_, ?_⟩
    · rw [start_player, construct_player]; simp [spawnPlayer]
    · rw [start_player, construct_player]; simp [spawnPlayer]

/-! ## The idle run after construction -/

theorem zeroInit_coins_valid : ∀ i < 30, unit (zeroInit.coins i).x := by
  intro i _
  norm_num [unit, zeroInit]

/-- The idle run after construction, for all valid draws: with a canvas lower
than 402 the game is over from tick 22 on, with a canvas of height 402 or
more the game is never over and the player stands on the ground from tick 22
on. -/
theorem idle_run (w h : ℚ) (d0 : InitDraws) (ds : ℕ → TickDraws) (hw : 0 ≤ w)
    (hd0 : ∀ i < 50, (d0.platforms i).valid) (hc0 : ∀ i < 30, unit (d0.coins i).x)
    (hds : ∀ n, ∀ i < 3, ((ds n).platforms i).valid) :
    (h < 402 → ∀ N, 22 ≤ N → DeadZero (ticks ds N (start (construct w h d0)))) ∧
    (402 ≤ h → ∀ N, (ticks ds N (start (construct w h d0))).isDead = false ∧
      (22 ≤ N → Landed (ticks ds N (start (construct w h d0))))) := by
  obtain ⟨hW, hF⟩ := start_construct_idle w h d0 hw hd0 hc0
  have hH : (start (construct w h d0)).canvasHeight = h := by
    rw [start_canvasHeight, (construct_fields w h d0).2.1]
  constructor
  · intro hlt N hN
    obtain ⟨hp, _⟩ := ticks_phase ds N _ hW hds hF
    rcases hp with hdz | ⟨hn, _⟩ | ⟨_, _, hh⟩
    · exact hdz
    · omega
    · rw [hH] at hh; linarith
  · intro hge N
    obtain ⟨hp, hy⟩ := ticks_phase ds N _ hW hds hF
    have hnd : ¬ DeadZero (ticks ds N (start (construct w h d0))) := by
      intro hdz
      have := hdz.2.1
      rw [ticks_canvasHeight, hH] at this
      linarith
    rcases hp with hdz | ⟨hn, hf⟩ | ⟨hn, hl, _⟩
    · exact absurd hdz hnd
    · exact ⟨hf.1, fun h22 => by omega⟩
    · exact ⟨hl.1, fun _ => hl⟩

/-! ## Respawn: the platforms -/

/-- The platforms after a respawn. -/
theorem respawn_platforms (d : ℕ → PlatformDraws) (s : GameState) :
    ∃ ps, (respawn d s).platforms = fixedPlatforms ++ ps ∧
      ps.length = 50 ∧ ∀ p ∈ ps, p.door = none ∧ p.type ≠ some "ground" := by
  unfold respawn
  dsimp only
  obtain ⟨ps, h1, h2, h3⟩ := generateInitialPlatforms_platforms d
    { s with
      player := { s.player with x := 150, y := 300, velocityY := 0, velocityX := some 0 }
      cameraX := 0
      isDead := false
      distance := 0
      coins := 0
      platforms := []
      floatingCoins := []
      lastPlatformX := 0 }
  exact ⟨ps, h1, h2, h3⟩

/-! ## Jump requests and the player constants -/

theorem keyDown_space (d : ℕ → PlatformDraws) (s : GameState) (hA : s.isActive = true) :
    keyDown d " " s = if s.player.isJumping = false then jump s else s := by
  unfold keyDown
  simp [hA]

theorem toLowerCase_ne_space (key : String) (hk : toLowerCase key = "e") : key ≠ " " := by
  rintro rfl
  revert hk
  decide

theorem keyDown_interact (d : ℕ → PlatformDraws) (key : String) (s : GameState)
    (hA : s.isActive = true) (hk : toLowerCase key = "e") :
    keyDown d key s = interact (recordKey "e" s) := by
  unfold keyDown
  have h1 := toLowerCase_ne_space key hk
  simp [hA, h1, hk]

theorem keyDown_inactive (d : ℕ → PlatformDraws) (key : String) (s : GameState)
    (hA : s.isActive = false) : keyDown d key s = s := by
  unfold keyDown
  simp [hA]

theorem jump_eq (s : GameState) :
    jump s =
      { s with player := { s.player with velocityY := s.player.jumpPower, isJumping := true } } := by
  unfold jump; rfl

theorem update_playerConstants (d : TickDraws) (s : GameState) (h : PlayerConstants s) :
    PlayerConstants (update d s) := by
  obtain ⟨c1, c2, c3, c4⟩ := update_player_constants d s
  unfold PlayerConstants
  rw [c1, c2, c3, c4, update_player_speed]
  exact h

theorem respawn_playerConstants (d : ℕ → PlatformDraws) (s : GameState)
    (h : PlayerConstants s) : PlayerConstants (respawn d s) := by
  unfold PlayerConstants
  rw [respawn_player]
  exact h

theorem sameWorld_playerConstants (s s2 : GameState) (hs : SameWorld s s2)
    (h : PlayerConstants s) : PlayerConstants s2 := by
  unfold PlayerConstants
  rw [hs.fields.2.2.2.1]
  exact h

theorem keyDown_playerConstants (d : ℕ → PlatformDraws) (key : String) (s : GameState)
    (h : PlayerConstants s) : PlayerConstants (keyDown d key s) := by
  rcases keyDown_cases d key s with he | he | ⟨s2, hs, he | ⟨_, he⟩⟩
  · rw [he]; exact h
  · rw [he, jump_eq]; exact h
  · rw [he]; exact sameWorld_playerConstants s s2 hs h
  · rw [he]; exact respawn_playerConstants d s2 (sameWorld_playerConstants s s2 hs h)

theorem apply_playerConstants (e : Event) (s : GameState) (h : PlayerConstants s) :
    PlayerConstants (e.apply s) := by
  cases e with
  | tick d => exact update_playerConstants d s h
  | keyDown d key => exact keyDown_playerConstants d key s h
  | keyUp key =>
    show PlayerConstants (keyUp key s)
    rw [keyUp_eq]; exact h
  | respawn d => exact respawn_playerConstants d s h
  | closeInfo =>
    show PlayerConstants (closeInfo s)
    unfold closeInfo; exact h
  | start =>
    show PlayerConstants (start s)
    unfold start; exact h
  | stop =>
    show PlayerConstants (stop s)
    unfold stop closeInfo; exact h
  | resize a b =>
    show PlayerConstants (resizeCanvas a b s)
    unfold resizeCanvas; exact h

theorem run_playerConstants (es : List Event) (s : GameState) (h : PlayerConstants s) :
    PlayerConstants (run es s) := by
  induction es generalizing s with
  | nil => exact h
  | cons e es ih =>
    rw [run_cons]
    exact ih (e.apply s) (apply_playerConstants e s h)

theorem construct_playerConstants (w h : ℚ) (d : InitDraws) :
    PlayerConstants (construct w h d) := by
  unfold PlayerConstants
  rw [construct_player]
  exact ⟨rfl, rfl, rfl, rfl, rfl⟩

/-! ## Interact requests -/

theorem interact_of_open (s : GameState) (h : truthy s.activePanel = true) :
    interact s = closeInfo s := by
  unfold interact; rw [if_pos h]

theorem interact_of_closed (s : GameState) (h : truthy s.activePanel = false) :
    interact s = checkInteraction s := by
  unfold interact; rw [if_neg (by rw [h]; decide)]

theorem checkInteraction_of_dead (s : GameState) (h : s.isDead = true) :
    checkInteraction s = s := by
  unfold checkInteraction
  simp [h]

theorem checkInteraction_of_airborne (s : GameState) (h : s.player.isJumping = true) :
    checkInteraction s = s := by
  unfold checkInteraction
  simp [h]

theorem closeInfo_activePanel (s : GameState) : (closeInfo s).activePanel = none := by
  unfold closeInfo; rfl

theorem closeInfo_panelActive (s : GameState) : (closeInfo s).panelActive = false := by
  unfold closeInfo; rfl

/-! ## The interaction loop -/

theorem interactWith_of_no_door (st : GameState) (q : Platform) (h : q.door = none) :
    interactWith st q = st := by
  unfold interactWith; rw [h]

theorem interactWith_of_not_onDoor (st : GameState) (q : Platform) (h : ¬ onDoor st q) :
    interactWith st q = st := by
  unfold interactWith
  split
  · split_ifs <;> rfl
  · rfl

theorem interactWith_of_onDoor (st : GameState) (q : Platform) (k : String)
    (hd : q.door = some k) (hk : k ≠ "") (h : onDoor st q) :
    interactWith st q = showInfo k st := by
  unfold interactWith
  rw [hd]
  simp [hk, h]

theorem showInfo_of_key (k : String) (st : GameState) (h : k ∈ infoKeys) :
    showInfo k st =
      { st with panelContent := PanelContent.info k, panelActive := true,
                activePanel := some k } := by
  unfold showInfo
  rw [if_pos (Or.inl h)]

theorem onDoor_congr (s st : GameState) (q : Platform) (hp : st.player = s.player)
    (hc : st.cameraX = s.cameraX) : onDoor st q ↔ onDoor s q := by
  unfold onDoor
  rw [hp, hc]

/-- Once a panel is open the interaction loop keeps a panel open. -/
theorem interactWith_truthy (st : GameState) (q : Platform)
    (h : truthy st.activePanel = true) : truthy (interactWith st q).activePanel = true := by
  unfold interactWith
  split
  · split_ifs
    · unfold showInfo
      split_ifs
      · rename_i k _ hk _ _
        show truthy (some k) = true
        simp [truthy, hk]
      · exact h
    · exact h
    · exact h
  · exact h

theorem foldl_interactWith_truthy (ps : List Platform) (st : GameState)
    (h : truthy st.activePanel = true) :
    truthy (ps.foldl interactWith st).activePanel = true := by
  induction ps generalizing st with
  | nil => exact h
  | cons q ps ih => exact ih _ (interactWith_truthy st q h)

/-- One step of the interaction loop changes nothing or opens a panel. -/
theorem interactWith_cases (st : GameState) (q : Platform) :
    interactWith st q = st ∨ truthy (interactWith st q).activePanel = true := by
  unfold interactWith
  split
  · split_ifs
    · unfold showInfo
      split_ifs
      · right
        rename_i k _ hk _ _
        show truthy (some k) = true
        simp [truthy, hk]
      · left; rfl
    · left; rfl
    · left; rfl
  · left; rfl

theorem foldl_interactWith_cases (ps : List Platform) (st : GameState) :
    ps.foldl interactWith st = st ∨ truthy (ps.foldl interactWith st).activePanel = true := by
  induction ps generalizing st with
  | nil => left; rfl
  | cons q ps ih =>
    rw [List.foldl_cons]
    rcases interactWith_cases st q with h | h
    · rw [h]; exact ih st
    · right; exact foldl_interactWith_truthy ps _ h

theorem checkInteraction_cases (s : GameState) :
    checkInteraction s = s ∨ truthy (checkInteraction s).activePanel = true := by
  unfold checkInteraction
  split_ifs
  · left; rfl
  · left; rfl
  · exact foldl_interactWith_cases s.platforms s

theorem recordKey_idem (k : String) (s : GameState) :
    recordKey k (recordKey k s) = recordKey k s := by
  unfold recordKey
  by_cases h : k ∈ s.keys <;> simp [h]

/-- Two interact requests in a row from a state with no panel open leave no
panel open. -/
theorem interact_twice (s : GameState) (hP : truthy s.activePanel = false) :
    truthy (interact (recordKey "e" (interact (recordKey "e" s)))).activePanel = false := by
  have hP1 : truthy (recordKey "e" s).activePanel = false := by
    rw [recordKey_activePanel]; exact hP
  rw [interact_of_closed _ hP1]
  rcases checkInteraction_cases (recordKey "e" s) with h | h
  · rw [h, recordKey_idem, interact_of_closed _ hP1, h]
    exact hP1
  · rw [interact_of_open _ (by rw [recordKey_activePanel]; exact h), closeInfo_activePanel]
    rfl


theorem foldl_interactWith_no_doors (ps : List Platform) (st : GameState)
    (h : ∀ q ∈ ps, q.door = none) : ps.foldl interactWith st = st := by
  induction ps with
  | nil => rfl
  | cons q ps ih =>
    rw [List.foldl_cons, interactWith_of_no_door st q (h q (List.mem_cons_self _ _))]
    exact ih (fun q hq => h q (List.mem_cons_of_mem _ hq))

/-- When the player stands on one door platform only, the interaction loop
opens the panel of that door. -/
theorem foldl_interactWith_only (s : GameState) (p : Platform) (k : String)
    (hd : p.door = some k) (hk : k ∈ infoKeys) (hne : k ≠ "") (hon : onDoor s p)
    (ps : List Platform) (st : GameState) (hp : st.player = s.player)
    (hc : st.cameraX = s.cameraX)
    (hq : ∀ q ∈ ps, q = p ∨ q.door = none ∨ ¬ onDoor s q)
    (hin : p ∈ ps ∨ st.activePanel = some k) :
    (ps.foldl interactWith st).activePanel = some k := by
  induction ps generalizing st with
  | nil =>
    rcases hin with h | h
    · simp at h
    · exact h
  | cons q ps ih =>
    rw [List.foldl_cons]
    have hq2 : ∀ r ∈ ps, r = p ∨ r.door = none ∨ ¬ onDoor s r :=
      fun r hr => hq r (List.mem_cons_of_mem _ hr)
    rcases hq q (List.mem_cons_self _ _) with rfl | hno | hno
    · rw [interactWith_of_onDoor st q k hd hne ((onDoor_congr s st q hp hc).2 hon),
        showInfo_of_key k st hk]
      exact ih _ hp hc hq2 (Or.inr rfl)
    · rw [interactWith_of_no_door st q hno]
      refine ih st hp hc hq2 ?_
      rcases hin with h | h
      · rcases List.mem_cons.1 h with rfl | h
        · rw [hd] at hno; exact Option.noConfusion hno
        · exact Or.inl h
      · exact Or.inr h
    · rw [interactWith_of_not_onDoor st q (fun h => hno ((onDoor_congr s st q hp hc).1 h))]
      refine ih st hp hc hq2 ?_
      rcases hin with h | h
      · rcases List.mem_cons.1 h with rfl | h
        · exact absurd hon hno
        · exact Or.inl h
      · exact Or.inr h

/-- The spans of the door platforms are disjoint: the player is on at most one
of them. -/
theorem door_spans_disjoint (s : GameState) (p q : Platform) (hp : p ∈ doorPlatforms)
    (hq : q ∈ doorPlatforms) (h1 : onDoor s p) (h2 : onDoor s q) : q = p := by
  simp only [doorPlatforms, List.mem_cons, List.mem_singleton, List.not_mem_nil,
    or_false] at hp hq
  obtain ⟨a1, a2, _⟩ := h1
  obtain ⟨b1, b2, _⟩ := h2
  rcases hp with rfl | rfl | rfl | rfl <;> rcases hq with rfl | rfl | rfl | rfl <;>
    first
    | rfl
    | (exfalso
       simp only [aboutPlatform, skillsPlatform, experiencePlatform, projectsPlatform]
         at a1 a2 b1 b2
       linarith)

theorem doorPlatforms_door (p : Platform) (hp : p ∈ doorPlatforms) :
    ∃ k, p.door = some k ∧ k ∈ infoKeys ∧ k ≠ "" := by
  simp only [doorPlatforms, List.mem_cons, List.mem_singleton, List.not_mem_nil,
    or_false] at hp
  rcases hp with rfl | rfl | rfl | rfl
  · exact ⟨"about", rfl, by decide, by decide⟩
  · exact ⟨"skills", rfl, by decide, by decide⟩
  · exact ⟨"experience", rfl, by decide, by decide⟩
  · exact ⟨"projects", rfl, by decide, by decide⟩

/-- The interaction check of a grounded player on a door platform of the
initial layout opens the panel of that door. -/
theorem checkInteraction_on_door (s : GameState) (rest : List Platform) (p : Platform)
    (hP : truthy s.activePanel = false) (hD : s.isDead = false)
    (hJ : s.player.isJumping = false)
    (hpl : s.platforms = fixedPlatforms ++ rest) (hrest : ∀ q ∈ rest, q.door = none)
    (hp : p ∈ doorPlatforms) (hon : onDoor s p) :
    (checkInteraction s).activePanel = p.door := by
  obtain ⟨k, hd, hk, hne⟩ := doorPlatforms_door p hp
  unfold checkInteraction
  rw [if_neg (by simp [hP, hD]), if_neg (by simp [hJ]), hpl, hd]
  apply foldl_interactWith_only s p k hd hk hne hon _ s rfl rfl
  · intro q hq
    rcases List.mem_append.1 hq with hq | hq
    · rcases List.mem_cons.1 hq with rfl | hq
      · right; left; rfl
      · by_cases hoq : onDoor s q
        · left; exact door_spans_disjoint s p q hp hq hon hoq
        · right; right; exact hoq
    · right; left; exact hrest q hq
  · left
    apply List.mem_append_left
    exact List.mem_cons_of_mem _ hp

theorem onAboutState_facts :
    onAboutState.isActive = true ∧ truthy onAboutState.activePanel = false ∧
    onAboutState.isDead = false ∧ onAboutState.player.isJumping = false ∧
    onDoor onAboutState aboutPlatform ∧
    ∃ rest, onAboutState.platforms = fixedPlatforms ++ rest ∧ ∀ q ∈ rest, q.door = none := by
  obtain ⟨f1, f2, f3, f4, f5, f6, f7, f8, f9, f10⟩ := construct_fields 800 600 zeroInit
  obtain ⟨ps, h1, _, h3⟩ := construct_platforms 800 600 zeroInit
  refine ⟨start_isActive _, ?_, ?_, rfl, ?_, ps, ?_, fun q hq => (h3 q hq).1⟩
  · show truthy (start (construct 800 600 zeroInit)).activePanel = false
    rw [start_activePanel, f9]; rfl
  · show (start (construct 800 600 zeroInit)).isDead = false
    rw [start_isDead, f4]
  · have hc : onAboutState.cameraX = 0 := by
      show (start (construct 800 600 zeroInit)).cameraX = 0
      rw [start_cameraX, f5]
    have hp : onAboutState.player = { spawnPlayer with x := 290, y := 432 } := rfl
    unfold onDoor
    rw [hc, hp]
    simp only [spawnPlayer, aboutPlatform]
    norm_num
  · show (start (construct 800 600 zeroInit)).platforms = _
    rw [start_platforms, h1]

/-! ## One platform synthesis -/

theorem rat_floor_eq (q : ℚ) : Rat.floor q = ⌊q⌋ := rfl

/-- For a draw in `[0, 1)` the type index is 0, 1 or 2. -/
theorem pick_types_of_unit (r : ℚ) (h : unit r) :
    pick ["block", "question", "brick"] (r * 3) = some "block" ∨
    pick ["block", "question", "brick"] (r * 3) = some "question" ∨
    pick ["block", "question", "brick"] (r * 3) = some "brick" := by
  obtain ⟨h0, h1⟩ := h
  have hf0 : 0 ≤ Rat.floor (r * 3) := by
    rw [rat_floor_eq]; exact Int.floor_nonneg.2 (by linarith)
  have hf3 : Rat.floor (r * 3) < 3 := by
    rw [rat_floor_eq, Int.floor_lt]; push_cast; linarith
  unfold pick
  rw [if_neg (not_lt.2 hf0)]
  have : (Rat.floor (r * 3)).toNat < 3 := by omega
  generalize (Rat.floor (r * 3)).toNat = n at this
  interval_cases n
  · left; rfl
  · right; left; rfl
  · right; right; rfl

theorem newPlatform_fields (x y width : ℚ) (type : Option String) :
    (newPlatform x y width type).x = x ∧ (newPlatform x y width type).y = y ∧
    (newPlatform x y width type).width = width ∧ (newPlatform x y width type).height = 30 ∧
    (newPlatform x y width type).type = type ∧ (newPlatform x y width type).door = none :=
  ⟨rfl, rfl, rfl, rfl, rfl, rfl⟩

/-! ## Platform synthesis in binary64 arithmetic -/

theorem roundHalfEven_intCast (m : ℤ) : roundHalfEven (m : ℚ) = m := by
  unfold roundHalfEven
  rw [rat_floor_eq, Int.floor_intCast]
  simp

/-- The three cases of rounding to nearest, ties to even. -/
theorem roundHalfEven_cases (x : ℚ) :
    (x - (⌊x⌋ : ℚ) < 1 / 2 ∧ roundHalfEven x = ⌊x⌋) ∨
    (1 / 2 < x - (⌊x⌋ : ℚ) ∧ roundHalfEven x = ⌊x⌋ + 1) ∨
    (x - (⌊x⌋ : ℚ) = 1 / 2 ∧ (roundHalfEven x = ⌊x⌋ ∨ roundHalfEven x = ⌊x⌋ + 1)) := by
  unfold roundHalfEven
  rw [rat_floor_eq]
  split_ifs with h1 h2 h3
  · left; exact ⟨h1, rfl⟩
  · right; left; exact ⟨h2, rfl⟩
  · right; right; exact ⟨le_antisymm (not_lt.1 h2) (not_lt.1 h1), Or.inl rfl⟩
  · right; right; exact ⟨le_antisymm (not_lt.1 h2) (not_lt.1 h1), Or.inr rfl⟩

theorem roundHalfEven_bounds (x : ℚ) :
    ⌊x⌋ ≤ roundHalfEven x ∧ roundHalfEven x ≤ ⌊x⌋ + 1 := by
  rcases roundHalfEven_cases x with ⟨_, ex⟩ | ⟨_, ex⟩ | ⟨_, ex | ex⟩ <;> rw [ex] <;> omega

theorem roundHalfEven_mono (x y : ℚ) (h : x ≤ y) : roundHalfEven x ≤ roundHalfEven y := by
  rcases eq_or_lt_of_le h with rfl | hlt
  · exact le_refl _
  have hf : ⌊x⌋ ≤ ⌊y⌋ := Int.floor_mono h
  obtain ⟨bx1, bx2⟩ := roundHalfEven_bounds x
  obtain ⟨by1, by2⟩ := roundHalfEven_bounds y
  rcases lt_or_eq_of_le hf with hfl | heq
  · omega
  · rcases roundHalfEven_cases x with ⟨_, ex⟩ | ⟨hx, _⟩ | ⟨hx, _⟩
    · rw [ex]; omega
    · rcases roundHalfEven_cases y with ⟨hy, _⟩ | ⟨_, ey⟩ | ⟨hy, _⟩
      · rw [heq] at hx; linarith
      · rw [ey]; omega
      · rw [heq] at hx; linarith
    · rcases roundHalfEven_cases y with ⟨hy, _⟩ | ⟨_, ey⟩ | ⟨hy, _⟩
      · rw [heq] at hx; linarith
      · rw [ey]; omega
      · rw [heq] at hx; linarith

theorem roundHalfEven_le (x : ℚ) (n : ℤ) (h : x ≤ n) : roundHalfEven x ≤ n := by
  have := roundHalfEven_mono x n h
  rwa [roundHalfEven_intCast] at this

theorem le_roundHalfEven (x : ℚ) (n : ℤ) (h : (n : ℚ) ≤ x) : n ≤ roundHalfEven x := by
  have := roundHalfEven_mono n x h
  rwa [roundHalfEven_intCast] at this

/-- Value of `roundDouble` on a positive number whose binade is known. -/
theorem roundDouble_of_binade (q : ℚ) (e : ℤ) (h1 : (2 : ℚ) ^ e ≤ q)
    (h2 : q < (2 : ℚ) ^ (e + 1)) :
    roundDouble q = (roundHalfEven (q / 2 ^ (e - 52)) : ℚ) * 2 ^ (e - 52) := by
  have hpos : 0 < q := lt_of_lt_of_le (zpow_pos (by norm_num) e) h1
  have hlog : Int.log 2 q = e := by
    apply le_antisymm
    · have := (Int.lt_zpow_iff_log_lt (b := 2) (by norm_num) hpos (x := e + 1)).1
        (by exact_mod_cast h2)
      omega
    · exact (Int.zpow_le_iff_le_log (b := 2) (by norm_num) hpos).1 (by exact_mod_cast h1)
  unfold roundDouble
  rw [if_neg (ne_of_gt hpos), if_pos hpos, hlog]

theorem roundDouble_zero : roundDouble 0 = 0 := by
  unfold roundDouble; rw [if_pos rfl]

theorem two_zpow_split (e : ℤ) (k : ℕ) :
    ((2 ^ k : ℤ) : ℚ) * 2 ^ (e - 52) = 2 ^ (e - 52 + (k : ℤ)) := by
  push_cast
  rw [← zpow_natCast (2 : ℚ) k, ← zpow_add₀ (by norm_num : (2 : ℚ) ≠ 0)]
  congr 1
  ring

/-- A positive number rounds into the closure of its binade. -/
theorem roundDouble_binade (q : ℚ) (e : ℤ) (h1 : (2 : ℚ) ^ e ≤ q)
    (h2 : q < (2 : ℚ) ^ (e + 1)) :
    (2 : ℚ) ^ e ≤ roundDouble q ∧ roundDouble q ≤ (2 : ℚ) ^ (e + 1) := by
  rw [roundDouble_of_binade q e h1 h2]
  have hu : (0 : ℚ) < 2 ^ (e - 52) := zpow_pos (by norm_num) _
  have e1 : ((2 ^ 52 : ℤ) : ℚ) * 2 ^ (e - 52) = (2 : ℚ) ^ e := by
    rw [two_zpow_split]; congr 1; norm_num
  have e2 : ((2 ^ 53 : ℤ) : ℚ) * 2 ^ (e - 52) = (2 : ℚ) ^ (e + 1) := by
    rw [two_zpow_split]; congr 1; norm_num; ring
  constructor
  · rw [← e1]
    apply mul_le_mul_of_nonneg_right _ hu.le
    have : ((2 ^ 52 : ℤ) : ℚ) ≤ q / 2 ^ (e - 52) := by
      rw [le_div_iff₀ hu, e1]; exact h1
    exact_mod_cast le_roundHalfEven _ _ this
  · rw [← e2]
    apply mul_le_mul_of_nonneg_right _ hu.le
    have : q / 2 ^ (e - 52) ≤ ((2 ^ 53 : ℤ) : ℚ) := by
      rw [div_le_iff₀ hu, e2]; exact h2.le
    exact_mod_cast roundHalfEven_le _ _ this

theorem binade_of_pos (q : ℚ) (h : 0 < q) :
    (2 : ℚ) ^ Int.log 2 q ≤ q ∧ q < (2 : ℚ) ^ (Int.log 2 q + 1) := by
  constructor
  · exact_mod_cast Int.zpow_log_le_self (b := 2) (by norm_num) h
  · exact_mod_cast Int.lt_zpow_succ_log_self (b := 2) (by norm_num) q

/-- Rounding to binary64 is monotone on the non-negative numbers. -/
theorem roundDouble_mono (a b : ℚ) (ha : 0 ≤ a) (h : a ≤ b) : roundDouble a ≤ roundDouble b := by
  rcases eq_or_lt_of_le ha with rfl | hpa
  · rw [roundDouble_zero]
    rcases eq_or_lt_of_le h with rfl | hpb
    · rw [roundDouble_zero]
    · obtain ⟨b1, b2⟩ := binade_of_pos b hpb
      exact le_trans (zpow_pos (by norm_num) _).le (roundDouble_binade b _ b1 b2).1
  · have hpb : 0 < b := lt_of_lt_of_le hpa h
    obtain ⟨a1, a2⟩ := binade_of_pos a hpa
    obtain ⟨b1, b2⟩ := binade_of_pos b hpb
    have hlog : Int.log 2 a ≤ Int.log 2 b := Int.log_mono_right hpa h
    rcases lt_or_eq_of_le hlog with hlt | heq
    · calc roundDouble a ≤ (2 : ℚ) ^ (Int.log 2 a + 1) := (roundDouble_binade a _ a1 a2).2
        _ ≤ (2 : ℚ) ^ Int.log 2 b := zpow_le_zpow_right₀ (by norm_num) (by omega)
        _ ≤ roundDouble b := (roundDouble_binade b _ b1 b2).1
    · rw [roundDouble_of_binade a _ a1 a2, roundDouble_of_binade b _ b1 b2, heq]
      have hu : (0 : ℚ) < 2 ^ (Int.log 2 b - 52) := zpow_pos (by norm_num) _
      apply mul_le_mul_of_nonneg_right _ hu.le
      exact_mod_cast roundHalfEven_mono _ _ (div_le_div_of_nonneg_right h hu.le)

theorem roundDouble_of_neg (q : ℚ) (h : q < 0) : roundDouble q = -roundDouble (-q) := by
  have hp : 0 < -q := by linarith
  conv_lhs => unfold roundDouble
  rw [if_neg (ne_of_lt h), if_neg (not_lt.2 h.le)]
  conv_rhs => unfold roundDouble
  rw [if_neg (ne_of_gt hp), if_pos hp]

theorem roundDouble_nonneg (q : ℚ) (h : 0 ≤ q) : 0 ≤ roundDouble q := by
  have := roundDouble_mono 0 q (le_refl 0) h
  rwa [roundDouble_zero] at this

/-- Rounding to binary64 is monotone. -/
theorem roundDouble_monotone (a b : ℚ) (h : a ≤ b) : roundDouble a ≤ roundDouble b := by
  rcases le_or_lt 0 a with ha | ha
  · exact roundDouble_mono a b ha h
  · rw [roundDouble_of_neg a ha]
    rcases le_or_lt 0 b with hb | hb
    · have h1 := roundDouble_nonneg (-a) (by linarith)
      have h2 := roundDouble_nonneg b hb
      linarith
    · rw [roundDouble_of_neg b hb]
      have := roundDouble_mono (-b) (-a) (by linarith) (by linarith)
      linarith

/-- A multiple of the unit in the last place of its binade rounds to itself. -/
theorem roundDouble_exact (q : ℚ) (e m : ℤ) (h1 : (2 : ℚ) ^ e ≤ q)
    (h2 : q < (2 : ℚ) ^ (e + 1)) (hm : q = (m : ℚ) * 2 ^ (e - 52)) : roundDouble q = q := by
  have hu : (0 : ℚ) < 2 ^ (e - 52) := zpow_pos (by norm_num) _
  rw [roundDouble_of_binade q e h1 h2]
  have : q / 2 ^ (e - 52) = (m : ℚ) := by rw [hm]; field_simp
  rw [this, roundHalfEven_intCast, ← hm]

/-- Natural numbers below `2 ^ 53` are binary64 numbers. -/
theorem roundDouble_natCast (n : ℕ) (h : n < 2 ^ 53) : roundDouble (n : ℚ) = n := by
  rcases Nat.eq_zero_or_pos n with rfl | hn
  · simp [roundDouble_zero]
  have hq : (0 : ℚ) < n := by exact_mod_cast hn
  obtain ⟨b1, b2⟩ := binade_of_pos (n : ℚ) hq
  have he : Int.log 2 (n : ℚ) ≤ 52 := by
    by_contra hc
    push_neg at hc
    have h53 : (2 : ℚ) ^ (53 : ℤ) ≤ 2 ^ Int.log 2 (n : ℚ) :=
      zpow_le_zpow_right₀ (by norm_num) (by omega)
    have hlt : (n : ℚ) < 2 ^ (53 : ℤ) := by
      have : ((n : ℕ) : ℚ) < ((2 ^ 53 : ℕ) : ℚ) := by exact_mod_cast h
      rw [Nat.cast_pow] at this
      exact_mod_cast this
    linarith
  obtain ⟨k, hk⟩ : ∃ k : ℕ, (k : ℤ) = 52 - Int.log 2 (n : ℚ) := ⟨(52 - Int.log 2 (n : ℚ)).toNat, by omega⟩
  apply roundDouble_exact _ _ ((n : ℤ) * 2 ^ k) b1 b2
  have hz : Int.log 2 (n : ℚ) - 52 = -(k : ℤ) := by omega
  rw [hz, zpow_neg, zpow_natCast]
  push_cast
  field_simp

/-- With no rounding the rounded synthesis is the exact one. -/
theorem generateNewPlatformFl_id (d : PlatformDraws) (s : GameState) :
    generateNewPlatformFl id d s = generateNewPlatform d s := by
  unfold generateNewPlatformFl generateNewPlatform
  rfl

theorem roundsLikeDouble_id : RoundsLikeDouble id := by
  refine ⟨fun a b h => h, fun n _ => rfl, ?_, ?_⟩
  · show topDraw * 3 < 3
    unfold topDraw
    norm_num
  · intro a ha
    constructor
    · show a * (1 - 1 / 2 ^ 53) ≤ a
      nlinarith
    · show a ≤ a * (1 + 1 / 2 ^ 53)
      nlinarith

theorem roundHalfEven_down (x : ℚ) (n : ℤ) (h1 : (n : ℚ) ≤ x) (h2 : x - n < 1 / 2) :
    roundHalfEven x = n := by
  have hf : ⌊x⌋ = n := Int.floor_eq_iff.2 ⟨h1, by linarith⟩
  rcases roundHalfEven_cases x with ⟨_, ex⟩ | ⟨hx, _⟩ | ⟨hx, _⟩
  · rw [ex, hf]
  · rw [hf] at hx; linarith
  · rw [hf] at hx; linarith

theorem roundHalfEven_up (x : ℚ) (n : ℤ) (h1 : 1 / 2 < x - n) (h2 : x < n + 1) :
    roundHalfEven x = n + 1 := by
  have hf : ⌊x⌋ = n := Int.floor_eq_iff.2 ⟨by linarith, h2⟩
  rcases roundHalfEven_cases x with ⟨hx, _⟩ | ⟨_, ex⟩ | ⟨hx, _⟩
  · rw [hf] at hx; linarith
  · rw [ex, hf]
  · rw [hf] at hx; linarith

theorem roundHalfEven_tie_odd (x : ℚ) (n : ℤ) (h1 : x - n = 1 / 2) (h2 : n % 2 = 1) :
    roundHalfEven x = n + 1 := by
  have hf : ⌊x⌋ = n := Int.floor_eq_iff.2 ⟨by linarith, by linarith⟩
  unfold roundHalfEven
  rw [rat_floor_eq, hf, if_neg (by rw [h1]; norm_num), if_neg (by rw [h1]; norm_num),
    if_neg (by omega)]

theorem roundDouble_top_100 : roundDouble (topDraw * 100) = 100 - 1 / 2 ^ 46 := by
  rw [roundDouble_of_binade _ 6 (by unfold topDraw; norm_num) (by unfold topDraw; norm_num),
    roundHalfEven_down _ (100 * 2 ^ 46 - 1) (by unfold topDraw; norm_num)
      (by unfold topDraw; norm_num)]
  norm_num

theorem roundDouble_top_gap : roundDouble (100 + (100 - 1 / 2 ^ 46)) = 200 := by
  rw [roundDouble_of_binade _ 7 (by norm_num) (by norm_num),
    roundHalfEven_tie_odd _ (200 * 2 ^ 45 - 1) (by norm_num) (by norm_num)]
  norm_num

theorem roundDouble_top_120 : roundDouble (topDraw * 120) = 120 - 1 / 2 ^ 46 := by
  rw [roundDouble_of_binade _ 6 (by unfold topDraw; norm_num) (by unfold topDraw; norm_num),
    roundHalfEven_down _ (120 * 2 ^ 46 - 1) (by unfold topDraw; norm_num)
      (by unfold topDraw; norm_num)]
  norm_num

theorem roundDouble_top_y : roundDouble (350 + (120 - 1 / 2 ^ 46)) = 470 := by
  rw [roundDouble_of_binade _ 8 (by norm_num) (by norm_num),
    roundHalfEven_up _ (470 * 2 ^ 44 - 1) (by norm_num) (by norm_num)]
  norm_num

theorem roundDouble_top_70 : roundDouble (topDraw * 70) = 70 - 1 / 2 ^ 46 := by
  rw [roundDouble_of_binade _ 6 (by unfold topDraw; norm_num) (by unfold topDraw; norm_num),
    roundHalfEven_down _ (70 * 2 ^ 46 - 1) (by unfold topDraw; norm_num)
      (by unfold topDraw; norm_num)]
  norm_num

theorem roundDouble_top_width : roundDouble (90 + (70 - 1 / 2 ^ 46)) = 160 := by
  rw [roundDouble_of_binade _ 7 (by norm_num) (by norm_num),
    roundHalfEven_tie_odd _ (160 * 2 ^ 45 - 1) (by norm_num) (by norm_num)]
  norm_num

theorem roundDouble_top_3 : roundDouble (topDraw * 3) = 3 - 1 / 2 ^ 51 := by
  rw [roundDouble_of_binade _ 1 (by unfold topDraw; norm_num) (by unfold topDraw; norm_num),
    roundHalfEven_down _ (3 * 2 ^ 51 - 1) (by unfold topDraw; norm_num)
      (by unfold topDraw; norm_num)]
  norm_num

/-- Rounding to nearest moves an argument by at most one half. -/
theorem roundHalfEven_near (x : ℚ) :
    x - 1 / 2 ≤ (roundHalfEven x : ℚ) ∧ (roundHalfEven x : ℚ) ≤ x + 1 / 2 := by
  have h1 : (⌊x⌋ : ℚ) ≤ x := Int.floor_le x
  have h2 : x < (⌊x⌋ : ℚ) + 1 := Int.lt_floor_add_one x
  rcases roundHalfEven_cases x with ⟨h, ex⟩ | ⟨h, ex⟩ | ⟨h, ex | ex⟩ <;> rw [ex] <;>
    push_cast <;> constructor <;> linarith

/-- Binary64 rounding of a positive number has relative error at most
`2 ^ (-53)`. -/
theorem roundDouble_near (a : ℚ) (h : 0 < a) :
    a * (1 - 1 / 2 ^ 53) ≤ roundDouble a ∧ roundDouble a ≤ a * (1 + 1 / 2 ^ 53) := by
  obtain ⟨b1, b2⟩ := binade_of_pos a h
  rw [roundDouble_of_binade a _ b1 b2]
  have hu : (0 : ℚ) < 2 ^ (Int.log 2 a - 52) := zpow_pos (by norm_num) _
  have e1 : ((2 ^ 52 : ℤ) : ℚ) * 2 ^ (Int.log 2 a - 52) = (2 : ℚ) ^ Int.log 2 a := by
    rw [two_zpow_split]; congr 1; norm_num
  obtain ⟨n1, n2⟩ := roundHalfEven_near (a / 2 ^ (Int.log 2 a - 52))
  have hq : a / 2 ^ (Int.log 2 a - 52) * 2 ^ (Int.log 2 a - 52) = a :=
    div_mul_cancel₀ a (ne_of_gt hu)
  have hle : (2 : ℚ) ^ (Int.log 2 a - 52) ≤ a / 2 ^ 52 := by
    rw [le_div_iff₀ (by norm_num : (0 : ℚ) < 2 ^ 52)]
    have : (2 : ℚ) ^ (Int.log 2 a - 52) * 2 ^ 52 = (2 : ℚ) ^ Int.log 2 a := by
      rw [← e1]; push_cast; ring
    rw [this]; exact b1
  have m1 := mul_le_mul_of_nonneg_right n1 hu.le
  have m2 := mul_le_mul_of_nonneg_right n2 hu.le
  rw [sub_mul, hq] at m1
  rw [add_mul, hq] at m2
  constructor
  · have : a * (1 - 1 / 2 ^ 53) = a - 1 / 2 * (a / 2 ^ 52) := by ring
    rw [this]
    linarith
  · have : a * (1 + 1 / 2 ^ 53) = a + 1 / 2 * (a / 2 ^ 52) := by ring
    rw [this]
    linarith

/-- Binary64 rounding to nearest meets the conditions of the synthesis bounds. -/
theorem roundsLikeDouble_roundDouble : RoundsLikeDouble roundDouble := by
  refine ⟨roundDouble_monotone, fun n hn => roundDouble_natCast n (by omega), ?_,
    fun a ha => roundDouble_near a (by linarith)⟩
  rw [roundDouble_top_3]
  norm_num

/-- An array read at an index value in `[0, 3)` yields one of the three types. -/
theorem pick_types_of_lt (v : ℚ) (h0 : 0 ≤ v) (h3 : v < 3) :
    pick ["block", "question", "brick"] v = some "block" ∨
    pick ["block", "question", "brick"] v = some "question" ∨
    pick ["block", "question", "brick"] v = some "brick" := by
  have hf0 : 0 ≤ Rat.floor v := by
    rw [rat_floor_eq]; exact Int.floor_nonneg.2 h0
  have hf3 : Rat.floor v < 3 := by
    rw [rat_floor_eq, Int.floor_lt]; exact_mod_cast h3
  unfold pick
  rw [if_neg (not_lt.2 hf0)]
  have : (Rat.floor v).toNat < 3 := by omega
  generalize (Rat.floor v).toNat = n at this
  interval_cases n
  · left; rfl
  · right; left; rfl
  · right; right; rfl

/-- Bounds of `fl (a + fl (r * c))` for a draw `r` and natural constants. -/
theorem rounded_affine_bounds (fl : ℚ → ℚ) (hfl : RoundsLikeDouble fl) (r : ℚ) (a c : ℕ)
    (hr : unitDouble r) (hac : a + c ≤ 1000) :
    (a : ℚ) ≤ fl ((a : ℚ) + fl (r * (c : ℚ))) ∧ fl ((a : ℚ) + fl (r * (c : ℚ))) ≤ (a : ℚ) + c := by
  obtain ⟨hm, hn, _⟩ := hfl
  obtain ⟨r0, r1⟩ := hr
  have hc0 : (0 : ℚ) ≤ c := Nat.cast_nonneg c
  have ht : topDraw ≤ 1 := by unfold topDraw; norm_num
  have h1 : 0 ≤ fl (r * (c : ℚ)) := by
    have := hm 0 (r * c) (mul_nonneg r0 hc0)
    have h0 := hn 0 (by omega)
    simp only [Nat.cast_zero] at h0
    rwa [h0] at this
  have h2 : fl (r * (c : ℚ)) ≤ c := by
    have := hm (r * c) c (by nlinarith)
    rwa [hn c (by omega)] at this
  constructor
  · have := hm a (a + fl (r * c)) (by linarith)
    rwa [hn a (by omega)] at this
  · have := hm (a + fl (r * c)) ((a + c : ℕ) : ℚ) (by push_cast; linarith)
    rw [hn (a + c) hac] at this
    exact_mod_cast this

theorem generateNewPlatformFl_platforms (fl : ℚ → ℚ) (d : PlatformDraws) (s : GameState) :
    (generateNewPlatformFl fl d s).platforms =
      s.platforms ++
        [newPlatform (fl (s.lastPlatformX + fl (100 + fl (d.gap * 100))))
          (fl (350 + fl (d.y * 120))) (fl (90 + fl (d.width * 70)))
          (pick ["block", "question", "brick"] (fl (d.type * 3)))] := rfl

theorem generateNewPlatformFl_lastPlatformX (fl : ℚ → ℚ) (d : PlatformDraws) (s : GameState) :
    (generateNewPlatformFl fl d s).lastPlatformX =
      fl (fl (s.lastPlatformX + fl (100 + fl (d.gap * 100))) + fl (90 + fl (d.width * 70))) :=
  rfl

theorem generateNewPlatformFl_floatingCoins (fl : ℚ → ℚ) (d : PlatformDraws) (s : GameState) :
    ∃ cs, (generateNewPlatformFl fl d s).floatingCoins = s.floatingCoins ++ cs ∧
      cs.length ≤ 2 ∧ ∀ c ∈ cs, c.collected = false := by
  unfold generateNewPlatformFl
  dsimp only
  split_ifs
  · refine ⟨[_, _], List.append_assoc _ _ _, by simp, ?_⟩
    intro c hc
    simp only [List.mem_cons, List.mem_singleton, List.not_mem_nil, or_false] at hc
    rcases hc with rfl | rfl <;> rfl
  · refine ⟨[_], rfl, by simp, ?_⟩
    intro c hc
    rw [List.mem_singleton.1 hc]
  · refine ⟨[_], rfl, by simp, ?_⟩
    intro c hc
    rw [List.mem_singleton.1 hc]
  · exact ⟨[], by simp, by simp, by simp⟩

/-- The strict bounds of one synthesis in exact arithmetic. -/
theorem generateNewPlatform_exact_bounds (d : PlatformDraws) (s : GameState) (hd : d.valid) :
    ∃ p cs, (generateNewPlatform d s).platforms = s.platforms ++ [p] ∧
      100 ≤ p.x - s.lastPlatformX ∧ p.x - s.lastPlatformX < 200 ∧
      350 ≤ p.y ∧ p.y < 470 ∧ 90 ≤ p.width ∧ p.width < 160 ∧ p.height = 30 ∧
      (p.type = some "block" ∨ p.type = some "question" ∨ p.type = some "brick") ∧
      p.type = pick ["block", "question", "brick"] (d.type * 3) ∧
      p.door = none ∧
      (generateNewPlatform d s).lastPlatformX = p.x + p.width ∧
      s.lastPlatformX + 190 ≤ (generateNewPlatform d s).lastPlatformX ∧
      (generateNewPlatform d s).lastPlatformX < s.lastPlatformX + 360 ∧
      (generateNewPlatform d s).floatingCoins = s.floatingCoins ++ cs ∧ cs.length ≤ 2 := by
  obtain ⟨⟨g0, g1⟩, ⟨y0, y1⟩, ⟨w0, w1⟩, ht, _, _⟩ := hd
  obtain ⟨cs, hc1, _, hc3⟩ := generateNewPlatform_floatingCoins d s
  refine ⟨_, cs, generateNewPlatform_platforms d s, ?_, ?_, ?_, ?_, ?_, ?_, rfl,
    pick_types_of_unit d.type ht, rfl, rfl, ?_, ?_, ?_, hc1, hc3⟩
  · show 100 ≤ s.lastPlatformX + (100 + d.gap * 100) - s.lastPlatformX
    linarith
  · show s.lastPlatformX + (100 + d.gap * 100) - s.lastPlatformX < 200
    linarith
  · show 350 ≤ 350 + d.y * 120
    linarith
  · show 350 + d.y * 120 < 470
    linarith
  · show 90 ≤ 90 + d.width * 70
    linarith
  · show 90 + d.width * 70 < 160
    linarith
  · rw [generateNewPlatform_lastPlatformX]; rfl
  · rw [generateNewPlatform_lastPlatformX]; linarith
  · rw [generateNewPlatform_lastPlatformX]; linarith

theorem topDraws_validDouble : topDraws.validDouble := by
  unfold PlatformDraws.validDouble unitDouble topDraws topDraw
  norm_num

theorem topDraws_valid : topDraws.valid := by
  unfold PlatformDraws.valid unit topDraws topDraw
  norm_num

theorem firstSynthesisState_lastPlatformX : firstSynthesisState.lastPlatformX = 1000 := rfl

/-- The synthesis in binary64 arithmetic with every draw the largest one, from
the frontier 1000. -/
theorem generateNewPlatformFl_top :
    (generateNewPlatformFl roundDouble topDraws firstSynthesisState).platforms =
      firstSynthesisState.platforms ++ [newPlatform 1200 470 160 (some "brick")] ∧
    (generateNewPlatformFl roundDouble topDraws firstSynthesisState).lastPlatformX = 1360 := by
  have hg : roundDouble (100 + roundDouble (topDraw * 100)) = 200 := by
    rw [roundDouble_top_100, roundDouble_top_gap]
  have hy : roundDouble (350 + roundDouble (topDraw * 120)) = 470 := by
    rw [roundDouble_top_120, roundDouble_top_y]
  have hw : roundDouble (90 + roundDouble (topDraw * 70)) = 160 := by
    rw [roundDouble_top_70, roundDouble_top_width]
  have hx : roundDouble (1000 + 200) = 1200 := by
    have := roundDouble_natCast 1200 (by norm_num)
    norm_num at this ⊢
    exact this
  have hl : roundDouble (1200 + 160) = 1360 := by
    have := roundDouble_natCast 1360 (by norm_num)
    norm_num at this ⊢
    exact this
  have ht : pick ["block", "question", "brick"] (roundDouble (topDraw * 3)) = some "brick" := by
    rw [roundDouble_top_3]
    unfold pick
    have hf : Rat.floor (3 - 1 / 2 ^ 51) = 2 := by
      rw [rat_floor_eq, Int.floor_eq_iff]
      norm_num
    rw [hf]
    rfl
  constructor
  · rw [generateNewPlatformFl_platforms, firstSynthesisState_lastPlatformX]
    show _ ++ [newPlatform (roundDouble (1000 + roundDouble (100 + roundDouble (topDraw * 100))))
      (roundDouble (350 + roundDouble (topDraw * 120)))
      (roundDouble (90 + roundDouble (topDraw * 70)))
      (pick ["block", "question", "brick"] (roundDouble (topDraw * 3)))] = _
    rw [hg, hy, hw, hx, ht]
  · rw [generateNewPlatformFl_lastPlatformX, firstSynthesisState_lastPlatformX]
    show roundDouble (roundDouble (1000 + roundDouble (100 + roundDouble (topDraw * 100))) +
      roundDouble (90 + roundDouble (topDraw * 70))) = 1360
    rw [hg, hw, hx, hl]

/-! ## The order of the platforms -/


theorem generateNewPlatform_ordered (d : PlatformDraws) (s : GameState) (hd : d.valid)
    (h : PlatformsOrdered s) : PlatformsOrdered (generateNewPlatform d s) := by
  obtain ⟨hs, hb⟩ := h
  obtain ⟨⟨g0, g1⟩, _, ⟨w0, w1⟩, _⟩ := hd
  unfold PlatformsOrdered
  rw [generateNewPlatform_platforms, generateNewPlatform_lastPlatformX]
  constructor
  · rw [List.pairwise_append]
    refine ⟨hs, List.pairwise_singleton _ _, ?_⟩
    intro a ha b hb'
    rw [List.mem_singleton.1 hb']
    obtain ⟨h1, h2⟩ := hb a ha
    show a.x < s.lastPlatformX + (100 + d.gap * 100)
    nlinarith
  · intro p hp
    rcases List.mem_append.1 hp with hp | hp
    · obtain ⟨h1, h2⟩ := hb p hp
      exact ⟨h1, by nlinarith⟩
    · rw [List.mem_singleton.1 hp]
      constructor
      · show 0 ≤ 90 + d.width * 70
        nlinarith
      · show s.lastPlatformX + (100 + d.gap * 100) + (90 + d.width * 70) ≤ _
        exact le_refl _

theorem generatePlatforms_ordered (n : ℕ) (d : ℕ → PlatformDraws) (s : GameState)
    (hd : ∀ i < n, (d i).valid) (h : PlatformsOrdered s) :
    PlatformsOrdered (generatePlatforms n d s) := by
  induction n with
  | zero => rw [generatePlatforms_zero]; exact h
  | succ n ih =>
    rw [generatePlatforms_succ]
    exact generateNewPlatform_ordered _ _ (hd n (Nat.lt_succ_self n))
      (ih (fun i hi => hd i (Nat.lt_succ_of_lt hi)))

theorem fixedPlatforms_ordered (s : GameState) (h : s.platforms = []) :
    PlatformsOrdered { s with platforms := s.platforms ++ fixedPlatforms, lastPlatformX := 1000 } := by
  unfold PlatformsOrdered
  simp only [h, List.nil_append]
  constructor
  · simp only [fixedPlatforms, List.pairwise_cons, List.mem_cons, List.mem_singleton,
      List.not_mem_nil, or_false, List.Pairwise.nil, and_true, forall_eq_or_imp, forall_eq,
      groundPlatform, aboutPlatform, skillsPlatform, experiencePlatform, projectsPlatform,
      IsEmpty.forall_iff, implies_true]
    norm_num
  · intro p hp
    simp only [fixedPlatforms, List.mem_cons, List.mem_singleton, List.not_mem_nil,
      or_false] at hp
    rcases hp with rfl | rfl | rfl | rfl | rfl <;>
      simp only [groundPlatform, aboutPlatform, skillsPlatform, experiencePlatform,
        projectsPlatform] <;> norm_num

theorem generateInitialPlatforms_ordered (d : ℕ → PlatformDraws) (s : GameState)
    (hd : ∀ i < 50, (d i).valid) (h : s.platforms = []) :
    PlatformsOrdered (generateInitialPlatforms d s) := by
  unfold generateInitialPlatforms
  exact generatePlatforms_ordered 50 d _ hd (fixedPlatforms_ordered s h)

theorem respawn_ordered (d : ℕ → PlatformDraws) (s : GameState)
    (hd : ∀ i < 50, (d i).valid) : PlatformsOrdered (respawn d s) := by
  have h := generateInitialPlatforms_ordered d
    { s with
      player := { s.player with x := 150, y := 300, velocityY := 0, velocityX := some 0 }
      cameraX := 0
      isDead := false
      distance := 0
      coins := 0
      platforms := []
      floatingCoins := []
      lastPlatformX := 0 } hd rfl
  unfold respawn
  exact h

theorem construct_ordered (w h : ℚ) (d : InitDraws) (hd : ∀ i < 50, (d.platforms i).valid) :
    PlatformsOrdered (construct w h d) := by
  have h1 := generateInitialPlatforms_ordered d.platforms
    (generateClouds d.clouds (initialFields w h)) hd (by rw [generateClouds_platforms]; rfl)
  unfold PlatformsOrdered at h1 ⊢
  unfold construct
  rw [generateInitialCoins_platforms, generateInitialCoins_lastPlatformX]
  exact h1

theorem generateStep_ordered (d : ℕ → PlatformDraws) (s : GameState)
    (hd : ∀ i < 3, (d i).valid) (h : PlatformsOrdered s) :
    PlatformsOrdered (generateStep d s) := by
  unfold generateStep
  split_ifs
  · exact generatePlatforms_ordered 3 d s hd h
  · exact h

theorem update_ordered (d : TickDraws) (s : GameState)
    (hd : ∀ i < 3, (d.platforms i).valid) (h : PlatformsOrdered s) :
    PlatformsOrdered (update d s) := by
  by_cases hr : Running s
  · have h0 : PlatformsOrdered (coinStep (collisionStep (gravityStep (cameraStep (moveStep s))))) := by
      unfold PlatformsOrdered at h ⊢
      simp only [coinStep_platforms, collisionStep_platforms, gravityStep_platforms,
        cameraStep_platforms, moveStep_platforms, coinStep_lastPlatformX,
        collisionStep_lastPlatformX, gravityStep_lastPlatformX, cameraStep_lastPlatformX,
        moveStep_lastPlatformX]
      exact h
    have h1 := generateStep_ordered d.platforms _ hd h0
    unfold PlatformsOrdered at h1 ⊢
    rw [(update_world d s hr).1, update_lastPlatformX d s hr]
    unfold updateToGeneration
    exact h1
  · rw [update_not_running d s hr]; exact h

theorem sameWorld_ordered (s s2 : GameState) (hs : SameWorld s s2)
    (h : PlatformsOrdered s) : PlatformsOrdered s2 := by
  obtain ⟨_, _, _, _, _, _, _, _, _, _, _, h12, h13⟩ := hs.fields
  unfold PlatformsOrdered at h ⊢
  rw [h12, h13]
  exact h

theorem keyDown_ordered (d : ℕ → PlatformDraws) (key : String) (s : GameState)
    (hd : ∀ i < 50, (d i).valid) (h : PlatformsOrdered s) :
    PlatformsOrdered (keyDown d key s) := by
  rcases keyDown_cases d key s with he | he | ⟨s2, hs, he | ⟨_, he⟩⟩
  · rw [he]; exact h
  · rw [he, jump_eq]; exact h
  · rw [he]; exact sameWorld_ordered s s2 hs h
  · rw [he]; exact respawn_ordered d s2 hd

theorem apply_ordered (e : Event) (s : GameState) (hv : e.valid) (h : PlatformsOrdered s) :
    PlatformsOrdered (e.apply s) := by
  cases e with
  | tick d => exact update_ordered d s hv h
  | keyDown d key => exact keyDown_ordered d key s hv h
  | keyUp key =>
    show PlatformsOrdered (keyUp key s)
    rw [keyUp_eq]; exact h
  | respawn d => exact respawn_ordered d s hv
  | closeInfo =>
    show PlatformsOrdered (closeInfo s)
    unfold closeInfo; exact h
  | start =>
    show PlatformsOrdered (start s)
    unfold start; exact h
  | stop =>
    show PlatformsOrdered (stop s)
    unfold stop closeInfo; exact h
  | resize a b =>
    show PlatformsOrdered (resizeCanvas a b s)
    unfold resizeCanvas; exact h

theorem run_ordered (es : List Event) (s : GameState) (hes : ∀ e ∈ es, e.valid)
    (h : PlatformsOrdered s) : PlatformsOrdered (run es s) := by
  induction es generalizing s with
  | nil => exact h
  | cons e es ih =>
    rw [run_cons]
    exact ih (e.apply s) (fun e he => hes e (List.mem_cons_of_mem _ he))
      (apply_ordered e s (hes e (List.mem_cons_self _ _)) h)

/-- A tick appends to the platform list. -/
theorem update_platforms_appended (d : TickDraws) (s : GameState) :
    s.platforms <+: (update d s).platforms := by
  by_cases hr : Running s
  · rw [(update_world d s hr).1]
    unfold updateToGeneration generateStep
    split_ifs
    · obtain ⟨extra, h1, _⟩ := generatePlatforms_platforms 3 d.platforms
        (coinStep (collisionStep (gravityStep (cameraStep (moveStep s)))))
      rw [h1]
      simp only [coinStep_platforms, collisionStep_platforms, gravityStep_platforms,
        cameraStep_platforms, moveStep_platforms]
      exact List.prefix_append _ _
    · simp only [coinStep_platforms, collisionStep_platforms, gravityStep_platforms,
        cameraStep_platforms, moveStep_platforms]
      exact List.prefix_refl _
  · rw [update_not_running d s hr]

theorem update_lastPlatformX_mono (d : TickDraws) (s : GameState)
    (hd : ∀ i < 3, (d.platforms i).valid) : s.lastPlatformX ≤ (update d s).lastPlatformX := by
  by_cases hr : Running s
  · rw [update_lastPlatformX d s hr]
    rcases updateToGeneration_lastPlatformX d s hd with ⟨_, h2, _⟩ | ⟨_, h2⟩
    · linarith
    · rw [h2]
  · rw [update_not_running d s hr]

/-! ## The collision loop: which platform wins -/


/-- The collision loop snaps the player onto the first platform that meets the
collision condition. -/
theorem foldl_collide_first (cam : ℚ) (pre post : List Platform) (p : Platform) (pl : Player)
    (hpre : ∀ q ∈ pre, ¬ lands cam pl q) (hp : lands cam pl p) :
    (pre ++ p :: post).foldl (collide cam) pl =
      { pl with y := p.y - pl.height, velocityY := 0, isJumping := false } := by
  rw [List.foldl_append, foldl_collide_none cam pre pl hpre, List.foldl_cons]
  have : collide cam pl p =
      { pl with y := p.y - pl.height, velocityY := 0, isJumping := false } := by
    unfold collide; rw [if_pos hp]
  rw [this]
  apply foldl_collide_of_not_falling
  simp

theorem twoBandsState_facts :
    Running twoBandsState ∧
    (update zeroTick twoBandsState).cameraX = 0 ∧
    (gravityStep (cameraStep (moveStep twoBandsState))).player =
      { spawnPlayer with y := 500 + (5 + 4 / 5), velocityY := 5 + 4 / 5, isJumping := true } := by
  obtain ⟨f1, f2, f3, f4, f5, f6, f7, f8, f9, f10⟩ := construct_fields 800 600 zeroInit
  have hr : Running twoBandsState := by
    refine ⟨start_isActive _, ?_⟩
    show (start (construct 800 600 zeroInit)).isDead = false
    rw [start_isDead, f4]
  have hk : twoBandsState.keys = [] := by
    show (start (construct 800 600 zeroInit)).keys = []
    rw [start_keys, f8]
  have hw : twoBandsState.canvasWidth = 800 := by
    show (start (construct 800 600 zeroInit)).canvasWidth = 800
    rw [start_canvasWidth, f1]
  have hm := moveStep_idle twoBandsState hk
  refine ⟨hr, ?_, ?_⟩
  · rw [update_cameraX _ _ hr, hm, hw]
    show max (0 : ℚ) (150 - 800 / 2) = 0
    norm_num
  · rw [hm, gravityStep_player, cameraStep_player]
    rfl

theorem twoBandsState_lands :
    lands (update zeroTick twoBandsState).cameraX
      (gravityStep (cameraStep (moveStep twoBandsState))).player groundPlatform ∧
    lands (update zeroTick twoBandsState).cameraX
      (gravityStep (cameraStep (moveStep twoBandsState))).player upperBlock := by
  obtain ⟨_, hc, hp⟩ := twoBandsState_facts
  rw [hc, hp]
  unfold lands
  simp only [spawnPlayer, groundPlatform, upperBlock, newPlatform]
  norm_num

/-! ## The jump arc -/


/-- A tick that leaves the player rising or at rest in the air meets no
platform: gravity is added and the player moves by the new velocity. -/
theorem update_rising (d : TickDraws) (s : GameState) (hr : Running s)
    (hv : s.player.velocityY + s.player.gravity ≤ 0) :
    (update d s).player.velocityY = s.player.velocityY + s.player.gravity ∧
    (update d s).player.y = s.player.y + (s.player.velocityY + s.player.gravity) ∧
    (update d s).player.isJumping = true := by
  obtain ⟨h1, h2, h3⟩ := update_player_vertical d s hr
  have hp : (collisionStep (gravityStep (cameraStep (moveStep s)))).player =
      (gravityStep (cameraStep (moveStep s))).player := by
    rw [collisionStep_player]
    apply foldl_collide_of_not_falling
    rw [gravityStep_player]
    show ¬ (cameraStep (moveStep s)).player.velocityY + (cameraStep (moveStep s)).player.gravity > 0
    rw [cameraStep_player, moveStep_player_velocityY, moveStep_player_gravity]
    exact not_lt.2 hv
  rw [h1, h2, h3, hp, gravityStep_player, cameraStep_player]
  simp only [moveStep_player_velocityY, moveStep_player_gravity, moveStep_player_y]
  trivial

theorem rising_step (d : TickDraws) (s : GameState) (y0 : ℚ) (k : ℕ) (hk : k < 20)
    (hy0 : y0 ≤ s.canvasHeight + 100) (h : Rising y0 k s) : Rising y0 (k + 1) (update d s) := by
  obtain ⟨hr, hg, hv, hy⟩ := h
  have hkq : (k : ℚ) + 1 ≤ 20 := by exact_mod_cast hk
  have hk0 : (0 : ℚ) ≤ k := Nat.cast_nonneg k
  obtain ⟨e1, e2, _⟩ := update_rising d s hr (by rw [hv, hg]; linarith)
  have ey : (update d s).player.y =
      y0 - 16 * ((k : ℚ) + 1) + 2 / 5 * ((k : ℚ) + 1) * ((k : ℚ) + 1 + 1) := by
    rw [e2, hv, hy, hg]; ring
  refine ⟨⟨by rw [update_isActive]; exact hr.1, ?_⟩,
    by rw [(update_player_constants d s).2.2.1, hg],
    by rw [e1, hv, hg]; push_cast; ring, by rw [ey]; push_cast; ring⟩
  apply idle_not_dead d s hr
  rw [ey]
  intro hgt
  nlinarith

theorem ticks_rising (ds : ℕ → TickDraws) (s : GameState) (y0 : ℚ) (k : ℕ) (hk : k ≤ 20)
    (hy0 : y0 ≤ s.canvasHeight + 100) (h : Rising y0 0 s) : Rising y0 k (ticks ds k s) := by
  induction k with
  | zero => exact h
  | succ k ih =>
    rw [ticks_succ]
    apply rising_step _ _ y0 k (by omega) _ (ih (by omega))
    rw [ticks_canvasHeight]; exact hy0

theorem rising_height (y0 : ℚ) (k : ℕ) :
    y0 - 152 ≤ y0 - 16 * (k : ℚ) + 2 / 5 * (k : ℚ) * ((k : ℚ) + 1) := by
  rcases Nat.lt_or_ge k 20 with h | h
  · have h1 : (k : ℚ) ≤ 19 := by exact_mod_cast Nat.le_of_lt_succ h
    have h0 : (0 : ℚ) ≤ k := Nat.cast_nonneg k
    nlinarith [mul_nonneg (sub_nonneg.2 h1) (sub_nonneg.2 (le_trans h1 (by norm_num : (19 : ℚ) ≤ 20)))]
  · have h1 : (20 : ℚ) ≤ k := by exact_mod_cast h
    nlinarith [mul_nonneg (sub_nonneg.2 h1) (sub_nonneg.2 (le_trans (by norm_num : (19 : ℚ) ≤ 20) h1))]

theorem jump_rising (s : GameState) (hr : Running s) (hjp : s.player.jumpPower = -16)
    (hg : s.player.gravity = 4 / 5) : Rising s.player.y 0 (jump s) := by
  rw [jump_eq]
  refine ⟨hr, hg, ?_, ?_⟩
  · show s.player.jumpPower = _
    rw [hjp]; norm_num
  · show s.player.y = _
    norm_num

theorem jump_idleWorld (s : GameState) (h : IdleWorld s) : IdleWorld (jump s) := by
  rw [jump_eq]; exact h

theorem flight_step (d : TickDraws) (s : GameState) (k : ℕ) (hW : IdleWorld s)
    (hH : 402 ≤ s.canvasHeight) (hk : k ≤ 38) (hF : Flight k s) :
    Flight (k + 1) (update d s) := by
  obtain ⟨hD, hv, hy⟩ := hF
  have hr := running_of_idle s hW hD
  have hkq : (k : ℚ) ≤ 38 := by exact_mod_cast hk
  have hk0 : (0 : ℚ) ≤ k := Nat.cast_nonneg k
  have hnl : ¬ (502 < s.player.y + (s.player.velocityY + 4 / 5) ∧
      s.player.y + (s.player.velocityY + 4 / 5) < 532 ∧ 0 < s.player.velocityY + 4 / 5) := by
    rintro ⟨h1, _, _⟩
    rw [hv, hy] at h1
    nlinarith
  obtain ⟨e1, e2, _⟩ := (idle_vertical d s hW hr).2 hnl
  refine ⟨?_, by rw [e2, hv]; push_cast; ring, by rw [e1, hv, hy]; push_cast; ring⟩
  apply idle_not_dead d s hr
  rw [e1, hv, hy]
  intro hgt
  nlinarith

theorem flight_landing (d : TickDraws) (s : GameState) (hW : IdleWorld s)
    (hH : 402 ≤ s.canvasHeight) (hF : Flight 39 s) : Landed (update d s) := by
  obtain ⟨hD, hv, hy⟩ := hF
  have hr := running_of_idle s hW hD
  have hl : 502 < s.player.y + (s.player.velocityY + 4 / 5) ∧
      s.player.y + (s.player.velocityY + 4 / 5) < 532 ∧ 0 < s.player.velocityY + 4 / 5 := by
    rw [hv, hy]; norm_num
  obtain ⟨e1, e2, e3⟩ := (idle_vertical d s hW hr).1 hl
  refine ⟨?_, e2, e1, e3⟩
  apply idle_not_dead d s hr
  rw [e1]
  intro hgt
  linarith

theorem landed_stays (d : TickDraws) (s : GameState) (hW : IdleWorld s)
    (hd : ∀ i < 3, (d.platforms i).valid) (hH : 402 ≤ s.canvasHeight) (hF : Landed s) :
    Landed (update d s) := by
  obtain ⟨hs, hy⟩ := landed_step d s hW hd hF
  rcases hs with ⟨h1, _⟩ | h1
  · exact h1
  · have := h1.2.1
    rw [update_canvasHeight] at this
    linarith

/-- A jump from the ground platform with no key held: the player flies for 39
ticks, lands in tick 40 and stays; the player is never above the height 350. -/
theorem ticks_flight (ds : ℕ → TickDraws) (s : GameState) (N : ℕ) (hW : IdleWorld s)
    (hd : ∀ n, ∀ i < 3, ((ds n).platforms i).valid) (hH : 402 ≤ s.canvasHeight)
    (hF : Flight 0 s) :
    ((∃ k ≤ 39, Flight k (ticks ds N s)) ∨ Landed (ticks ds N s)) ∧
      350 ≤ (ticks ds N s).player.y := by
  have hmain : (∃ k ≤ 39, Flight k (ticks ds N s)) ∨ Landed (ticks ds N s) := by
    induction N with
    | zero => left; exact ⟨0, by norm_num, hF⟩
    | succ N ih =>
      have hWn := ticks_idleWorld ds N s hW hd
      have hHn : 402 ≤ (ticks ds N s).canvasHeight := by rw [ticks_canvasHeight]; exact hH
      rw [ticks_succ]
      rcases ih with ⟨k, hk, hf⟩ | hl
      · by_cases h38 : k ≤ 38
        · left; exact ⟨k + 1, by omega, flight_step _ _ k hWn hHn h38 hf⟩
        · have h39 : k = 39 := by omega
          subst h39
          right; exact flight_landing _ _ hWn hHn hf
      · right; exact landed_stays _ _ hWn (hd N) hHn hl
  refine ⟨hmain, ?_⟩
  rcases hmain with ⟨k, _, hf⟩ | hl
  · rw [hf.2.2]
    have := rising_height 502 k
    linarith
  · rw [hl.2.2.1]; norm_num

theorem ticks_playerConstants (ds : ℕ → TickDraws) (n : ℕ) (s : GameState)
    (h : PlayerConstants s) : PlayerConstants (ticks ds n s) := by
  induction n with
  | zero => exact h
  | succ n ih => rw [ticks_succ]; exact update_playerConstants _ _ ih

theorem landedState_facts :
    IdleWorld landedState ∧ Landed landedState ∧ landedState.canvasHeight = 600 ∧
    PlayerConstants landedState := by
  obtain ⟨hW, _⟩ := start_construct_idle 800 600 zeroInit (by norm_num) zeroInit_valid
    zeroInit_coins_valid
  refine ⟨ticks_idleWorld _ 22 _ hW (fun _ => zeroTick_valid), ?_, ?_, ?_⟩
  · exact ((idle_run 800 600 zeroInit (fun _ => zeroTick) (by norm_num) zeroInit_valid
      zeroInit_coins_valid (fun _ => zeroTick_valid)).2 (by norm_num) 22).2 (le_refl 22)
  · unfold landedState
    rw [ticks_canvasHeight, start_canvasHeight, (construct_fields 800 600 zeroInit).2.1]
  · apply ticks_playerConstants
    have := construct_playerConstants 800 600 zeroInit
    unfold PlayerConstants at this ⊢
    rw [start_player]
    exact this

/-! ## The coins of construction and of respawn -/


/-- The coins and the frontier a run of syntheses produces depend on the state
through its coins and its frontier only. -/
theorem generatePlatforms_congr (n : ℕ) (d : ℕ → PlatformDraws) (s t : GameState)
    (hc : s.floatingCoins = t.floatingCoins) (hl : s.lastPlatformX = t.lastPlatformX) :
    (generatePlatforms n d s).floatingCoins = (generatePlatforms n d t).floatingCoins ∧
    (generatePlatforms n d s).lastPlatformX = (generatePlatforms n d t).lastPlatformX := by
  induction n with
  | zero => rw [generatePlatforms_zero, generatePlatforms_zero]; exact ⟨hc, hl⟩
  | succ n ih =>
    rw [generatePlatforms_succ, generatePlatforms_succ, generateNewPlatform_floatingCoins_eq,
      generateNewPlatform_floatingCoins_eq, generateNewPlatform_lastPlatformX,
      generateNewPlatform_lastPlatformX, ih.1, ih.2]
    exact ⟨rfl, rfl⟩

/-- The coins of the initial platforms do not depend on the state they are
generated in, when it has no coins yet. -/
theorem generateInitialPlatforms_coins_congr (d : ℕ → PlatformDraws) (s t : GameState)
    (hs : s.floatingCoins = []) (ht : t.floatingCoins = []) :
    (generateInitialPlatforms d s).floatingCoins =
      (generateInitialPlatforms d t).floatingCoins := by
  unfold generateInitialPlatforms
  exact (generatePlatforms_congr 50 d
    { s with platforms := s.platforms ++ fixedPlatforms, lastPlatformX := 1000 }
    { t with platforms := t.platforms ++ fixedPlatforms, lastPlatformX := 1000 }
    (hs.trans ht.symm) rfl).1

theorem respawn_floatingCoins_eq (d : ℕ → PlatformDraws) (s : GameState) :
    (respawn d s).floatingCoins =
      (generateInitialPlatforms d (initialFields 0 0)).floatingCoins := by
  unfold respawn
  exact generateInitialPlatforms_coins_congr d _ _ rfl rfl

/-- The constructed coin list is the respawned one followed by the thirty
initial coins. -/
theorem construct_coins_respawn (w h : ℚ) (d0 : InitDraws) (s : GameState) :
    (construct w h d0).floatingCoins =
      (respawn d0.platforms s).floatingCoins ++
        (List.range 30).map (fun i => initialCoin i (d0.coins i)) := by
  rw [construct_floatingCoins_eq, respawn_floatingCoins_eq]
  congr 1
  exact generateInitialPlatforms_coins_congr _ _ _
    (by rw [generateClouds_floatingCoins]; rfl) rfl

theorem respawn_coins_positions (d : ℕ → PlatformDraws) (s : GameState)
    (hd : ∀ i < 50, (d i).valid) : ∀ c ∈ (respawn d s).floatingCoins, 1000 < c.x := by
  rw [respawn_floatingCoins_eq]
  obtain ⟨ps, cs, _, h2, _, h4⟩ := generateInitialPlatforms_positions d (initialFields 0 0) hd
  rw [h2]
  intro c hc
  rw [show (initialFields 0 0).floatingCoins = [] from rfl, List.nil_append] at hc
  have := h4 c hc
  linarith

theorem initialCoin_fields (i : ℕ) (c : CoinDraws) (hc : unit c.x) :
    250 * (i : ℚ) + 200 ≤ (initialCoin i c).x ∧ (initialCoin i c).x < 250 * (i : ℚ) + 300 ∧
    (initialCoin i c).collected = false := by
  obtain ⟨h0, h1⟩ := hc
  refine ⟨?_, ?_, rfl⟩
  · show 250 * (i : ℚ) + 200 ≤ (i : ℚ) * 250 + 200 + c.x * 100
    linarith
  · show (i : ℚ) * 250 + 200 + c.x * 100 < 250 * (i : ℚ) + 300
    linarith

/-- C1. After an update tick of a Running game the vertical velocity is either
the old one plus gravity, the player is airborne and no platform met the
collision condition, or it is zero, the player is grounded and has been
snapped onto a platform that met the collision condition in this tick. -/
theorem C1_velocity_after_tick (d : TickDraws) (s : GameState) (h : Running s) :
    ((update d s).player.velocityY = s.player.velocityY + s.player.gravity ∧
      (update d s).player.isJumping = true ∧
      ∀ p ∈ s.platforms,
        ¬ lands (update d s).cameraX (gravityStep (cameraStep (moveStep s))).player p) ∨
    ((update d s).player.velocityY = 0 ∧
      (update d s).player.isJumping = false ∧
      ∃ p ∈ s.platforms,
        lands (update d s).cameraX (gravityStep (cameraStep (moveStep s))).player p ∧
        (update d s).player.y = p.y - s.player.height) :=
  update_vertical_cases d s h

/-- C1, witness: the first tick after the game is started on an 800 by 600
canvas. -/
theorem C1_velocity_after_tick_witness :
    Running (start (construct 800 600 zeroInit)) ∧
    (((update zeroTick (start (construct 800 600 zeroInit))).player.velocityY =
        (start (construct 800 600 zeroInit)).player.velocityY +
          (start (construct 800 600 zeroInit)).player.gravity ∧
      (update zeroTick (start (construct 800 600 zeroInit))).player.isJumping = true ∧
      ∀ p ∈ (start (construct 800 600 zeroInit)).platforms,
        ¬ lands (update zeroTick (start (construct 800 600 zeroInit))).cameraX
          (gravityStep (cameraStep (moveStep (start (construct 800 600 zeroInit))))).player p) ∨
    ((update zeroTick (start (construct 800 600 zeroInit))).player.velocityY = 0 ∧
      (update zeroTick (start (construct 800 600 zeroInit))).player.isJumping = false ∧
      ∃ p ∈ (start (construct 800 600 zeroInit)).platforms,
        lands (update zeroTick (start (construct 800 600 zeroInit))).cameraX
          (gravityStep (cameraStep (moveStep (start (construct 800 600 zeroInit))))).player p ∧
        (update zeroTick (start (construct 800 600 zeroInit))).player.y =
          p.y - (start (construct 800 600 zeroInit)).player.height)) :=
  ⟨running_start_construct 800 600 zeroInit,
   C1_velocity_after_tick zeroTick (start (construct 800 600 zeroInit))
     (running_start_construct 800 600 zeroInit)⟩

/-- C2. At the end of an update tick of a Running game on a canvas of
non-negative width, the camera offset is `max 0 (x - width / 2)` for the final
player `x` of the tick, and `0 ≤ cameraX ≤ x`. -/
theorem C2_camera_follows_player (d : TickDraws) (s : GameState) (h : Running s)
    (hw : 0 ≤ s.canvasWidth) :
    (update d s).cameraX =
        max 0 ((update d s).player.x - (update d s).canvasWidth / 2) ∧
      (update d s).cameraX ≤ (update d s).player.x ∧ 0 ≤ (update d s).cameraX :=
  update_camera_clamp d s h hw

/-- C2, witness: the first tick after the game is started on an 800 by 600
canvas. -/
theorem C2_camera_follows_player_witness :
    Running (start (construct 800 600 zeroInit)) ∧
    (0 : ℚ) ≤ (start (construct 800 600 zeroInit)).canvasWidth ∧
    (update zeroTick (start (construct 800 600 zeroInit))).cameraX =
      max 0 ((update zeroTick (start (construct 800 600 zeroInit))).player.x -
        (update zeroTick (start (construct 800 600 zeroInit))).canvasWidth / 2) ∧
    (update zeroTick (start (construct 800 600 zeroInit))).cameraX ≤
      (update zeroTick (start (construct 800 600 zeroInit))).player.x ∧
    0 ≤ (update zeroTick (start (construct 800 600 zeroInit))).cameraX :=
  ⟨running_start_construct 800 600 zeroInit,
   by rw [start_canvasWidth, (construct_fields 800 600 zeroInit).1]; norm_num,
   C2_camera_follows_player zeroTick (start (construct 800 600 zeroInit))
     (running_start_construct 800 600 zeroInit)
     (by rw [start_canvasWidth, (construct_fields 800 600 zeroInit).1]; norm_num)⟩

/-- C3 (amended). On a canvas of fixed width `w` with `0 ≤ w ≤ 9850`, in every
state reached from construction by events other than a resize, with valid
draws, the world-generation step of an update tick of a Running game leaves
the frontier at least `w + 500` ahead of the camera; the same holds at the end
of the tick, and then `cameraX + w ≤ lastPlatformX`. -/
theorem C3_frontier_ahead_of_camera (w h : ℚ) (d0 : InitDraws) (es : List Event)
    (d : TickDraws) (hw0 : 0 ≤ w) (hw : w ≤ 9850)
    (hd0 : ∀ i < 50, (d0.platforms i).valid)
    (hes : ∀ e ∈ es, e.valid ∧ e.isResize = false)
    (hd : ∀ i < 3, (d.platforms i).valid)
    (hrun : Running (run es (construct w h d0))) :
    (updateToGeneration d (run es (construct w h d0))).canvasWidth = w ∧
    w + 500 ≤ (updateToGeneration d (run es (construct w h d0))).lastPlatformX -
      (updateToGeneration d (run es (construct w h d0))).cameraX ∧
    w + 500 ≤ (update d (run es (construct w h d0))).lastPlatformX -
      (update d (run es (construct w h d0))).cameraX ∧
    (update d (run es (construct w h d0))).cameraX + w ≤
      (update d (run es (construct w h d0))).lastPlatformX := by
  have hinv := run_frontierAhead w es _ hw0 hw hes (construct_frontierAhead w h d0 hw hd0)
  generalize run es (construct w h d0) = s at hinv hrun ⊢
  have h2 := update_frontierAhead w d s hw0 hd hinv
  obtain ⟨hcw, _, hm⟩ := h2
  have hcl := update_camera_clamp d s hrun (by rw [hinv.1]; exact hw0)
  rw [hcw] at hcl
  rw [← hcl.1] at hm
  have e1 := update_lastPlatformX d s hrun
  have e2 := update_cameraX_eq d s hrun
  refine ⟨?_, ?_, hm, by linarith⟩
  · unfold updateToGeneration
    simp [hinv.1]
  · rw [← e1, ← e2]; exact hm

/-- C3, witness: the first tick after construction on an 800 by 600 canvas. -/
theorem C3_frontier_ahead_of_camera_witness :
    Running (run [Event.start] (construct 800 600 zeroInit)) ∧
    (800 : ℚ) + 500 ≤
      (updateToGeneration zeroTick (run [Event.start] (construct 800 600 zeroInit))).lastPlatformX -
      (updateToGeneration zeroTick (run [Event.start] (construct 800 600 zeroInit))).cameraX :=
  ⟨running_start_construct 800 600 zeroInit,
   (C3_frontier_ahead_of_camera 800 600 zeroInit [Event.start] zeroTick (by norm_num)
      (by norm_num) zeroInit_valid (by simp [Event.valid, Event.isResize]) zeroTick_valid
      (running_start_construct 800 600 zeroInit)).2.1⟩

/-- C3, counterexample: on a canvas of width 20000 the first tick after
construction synthesizes three platforms and still leaves the frontier less
than `canvasWidth + 500` ahead of the camera. -/
theorem C3_counterexample :
    Running (start (construct 20000 600 zeroInit)) ∧
    ¬ ((start (construct 20000 600 zeroInit)).canvasWidth + 500 ≤
      (updateToGeneration zeroTick (start (construct 20000 600 zeroInit))).lastPlatformX -
      (updateToGeneration zeroTick (start (construct 20000 600 zeroInit))).cameraX) := by
  refine ⟨running_start_construct _ _ _, ?_⟩
  have hL := construct_lastPlatformX_le 20000 600 zeroInit zeroInit_valid
  have hg := updateToGeneration_lastPlatformX zeroTick (start (construct 20000 600 zeroInit))
    zeroTick_valid
  have hc : 0 ≤ (updateToGeneration zeroTick (start (construct 20000 600 zeroInit))).cameraX := by
    rw [updateToGeneration_cameraX]; exact le_max_left _ _
  rw [start_lastPlatformX, start_canvasWidth, (construct_fields 20000 600 zeroInit).1] at hg
  rw [start_canvasWidth, (construct_fields 20000 600 zeroInit).1]
  rcases hg with ⟨_, _, h3⟩ | ⟨_, h3⟩ <;> linarith

/-- C4. In every state reached from construction by any sequence of events
(update ticks, key presses, respawns, ...) the counter `coins` is the number of
coins whose `collected` flag is set; and an update tick of any state returns
the old coins in place, each unchanged or with its flag raised from false to
true, followed by new uncollected coins, and adds to `coins` exactly the number
of flags it raised. -/
theorem C4_coin_counter (w h : ℚ) (d0 : InitDraws) (es : List Event) :
    (run es (construct w h d0)).coins =
        collectedCount (run es (construct w h d0)).floatingCoins ∧
    ∀ (s : GameState) (d : TickDraws),
      ∃ marked extra, (update d s).floatingCoins = marked ++ extra ∧
        List.Forall₂ flagRaised s.floatingCoins marked ∧
        (∀ c ∈ extra, c.collected = false) ∧
        (update d s).coins = s.coins + newlyMarked s.floatingCoins marked :=
  ⟨run_coinsCounted es _ (construct_coinsCounted w h d0), fun s d => by
    obtain ⟨m, e, h1, h2, h3, h4, _⟩ := update_coins d s
    exact ⟨m, e, h1, h2, h3, h4⟩⟩

/-- C5, the code at the input that breaks the claim. In the Running game right
after start on an 800 by 600 canvas, with A and D both held, the player is at
`x = 150` before the tick, after its movement step and after the whole tick,
so the player does not move rightward; the tick still raises `distance` from 0
to 0.1. The comment on that line of `update` reads "Increase distance when
moving right". -/
theorem C5_both_keys_distance :
    Running bothKeysHeld ∧ bothKeysHeld.keys = ["d", "a"] ∧
    bothKeysHeld.player.x = 150 ∧ bothKeysHeld.distance = 0 ∧
    (moveStep bothKeysHeld).player.x = 150 ∧
    (update zeroTick bothKeysHeld).player.x = 150 ∧
    ¬ (bothKeysHeld.player.x < (moveStep bothKeysHeld).player.x) ∧
    (update zeroTick bothKeysHeld).distance = 1 / 10 := by
  have hx : bothKeysHeld.player.x = 150 := by rw [bothKeysHeld_player]; rfl
  have hv : bothKeysHeld.player.speed = 5 := by rw [bothKeysHeld_player]; rfl
  have hm : (moveStep bothKeysHeld).player.x = 150 := by
    rw [moveStep_player_x, bothKeysHeld_keys, hx, hv]
    simp
  refine ⟨bothKeysHeld_running, bothKeysHeld_keys, hx, bothKeysHeld_distance, hm, ?_, ?_, ?_⟩
  · rw [update_player_x _ _ bothKeysHeld_running, update_cameraX _ _ bothKeysHeld_running, hm,
      bothKeysHeld_canvasWidth]
    norm_num
  · rw [hm, hx]
    norm_num
  · rw [update_distance _ _ bothKeysHeld_running, moveStep_distance, bothKeysHeld_keys,
      bothKeysHeld_distance]
    simp

/-- C6 (amended). From the started game after construction, on a canvas of
width at least 0 and with valid draws, ticks with no key held end as follows.
With a canvas height below 402 the state after 22 ticks, and after any larger
number of ticks, is Dead with `player.y > canvas.height + 100`, distance 0,
coins 0 and a death screen that shows the score `floor (distance + coins * 50)
= 0`. With a canvas height of 402 or more the game is never Dead: the player
lands on the ground platform in tick 22 and rests there (`y = 502`, velocity
0, grounded). -/
theorem C6_idle_fall (w h : ℚ) (d0 : InitDraws) (ds : ℕ → TickDraws) (hw : 0 ≤ w)
    (hd0 : ∀ i < 50, (d0.platforms i).valid) (hc0 : ∀ i < 30, unit (d0.coins i).x)
    (hds : ∀ n, ∀ i < 3, ((ds n).platforms i).valid) :
    (h < 402 → ∀ N, 22 ≤ N → DeadZero (ticks ds N (start (construct w h d0)))) ∧
    (402 ≤ h → ∀ N, (ticks ds N (start (construct w h d0))).isDead = false ∧
      (22 ≤ N → Landed (ticks ds N (start (construct w h d0))))) :=
  idle_run w h d0 ds hw hd0 hc0 hds

/-- C6, witness: an 800 by 300 canvas; the game is over after 22 idle ticks. -/
theorem C6_idle_fall_witness :
    (0 : ℚ) ≤ 800 ∧ (300 : ℚ) < 402 ∧
    DeadZero (ticks (fun _ => zeroTick) 22 (start (construct 800 300 zeroInit))) :=
  ⟨by norm_num, by norm_num,
   (C6_idle_fall 800 300 zeroInit (fun _ => zeroTick) (by norm_num) zeroInit_valid
      zeroInit_coins_valid (fun _ => zeroTick_valid)).1 (by norm_num) 22 (le_refl 22)⟩

/-- C6, counterexample: on an 800 by 600 canvas no number of idle ticks after
game start ends the game. -/
theorem C6_counterexample :
    ¬ ∃ N, (ticks (fun _ => zeroTick) N (start (construct 800 600 zeroInit))).isDead = true := by
  rintro ⟨N, hN⟩
  have := ((idle_run 800 600 zeroInit (fun _ => zeroTick) (by norm_num) zeroInit_valid
    zeroInit_coins_valid (fun _ => zeroTick_valid)).2 (by norm_num) N).1
  rw [hN] at this
  exact Bool.noConfusion this

/-- C7. After `respawn`, from any state and for any draws: the player is at
(150, 300) with vertical velocity 0, camera offset, distance and coin counter
are 0, the game is not Dead, and the platform list has 55 entries: the ground
platform, the four door platforms about, skills, experience, projects at
x = 250, 420, 620, 840, then 50 synthesized platforms with no door and not of
type ground. -/
theorem C7_respawn_resets (d : ℕ → PlatformDraws) (s : GameState) :
    (respawn d s).player.x = 150 ∧ (respawn d s).player.y = 300 ∧
    (respawn d s).player.velocityY = 0 ∧ (respawn d s).cameraX = 0 ∧
    (respawn d s).distance = 0 ∧ (respawn d s).coins = 0 ∧ (respawn d s).isDead = false ∧
    (respawn d s).platforms.length = 55 ∧
    (∃ ps, (respawn d s).platforms =
        [groundPlatform, aboutPlatform, skillsPlatform, experiencePlatform, projectsPlatform]
          ++ ps ∧
      ps.length = 50 ∧ ∀ p ∈ ps, p.door = none ∧ p.type ≠ some "ground") ∧
    (groundPlatform.x = 0 ∧ groundPlatform.y = 550 ∧ groundPlatform.width = 600 ∧
      groundPlatform.type = some "ground") ∧
    (aboutPlatform.x = 250 ∧ aboutPlatform.door = some "about") ∧
    (skillsPlatform.x = 420 ∧ skillsPlatform.door = some "skills") ∧
    (experiencePlatform.x = 620 ∧ experiencePlatform.door = some "experience") ∧
    (projectsPlatform.x = 840 ∧ projectsPlatform.door = some "projects") := by
  obtain ⟨f1, f2, f3, f4, _⟩ := respawn_fields d s
  obtain ⟨ps, h1, h2, h3⟩ := respawn_platforms d s
  refine ⟨by rw [respawn_player], by rw [respawn_player], by rw [respawn_player], f1, f3, f4,
    f2, ?_, ⟨ps, h1, h2, h3⟩, ⟨rfl, rfl, rfl, rfl⟩, ⟨rfl, rfl⟩, ⟨rfl, rfl⟩, ⟨rfl, rfl⟩,
    ⟨rfl, rfl⟩⟩
  rw [h1, List.length_append, h2]
  rfl

/-- C8. On an active game with no panel open, two interact requests in a row
leave no panel open. If moreover the game is not Dead, the player is grounded
on a door platform `p` of the initial layout (centre strictly inside its span,
bottom within 10 of its top) and the platform list is the fixed layout followed
by doorless platforms, the first request sets `activePanel` to the door of `p`
and the second sets it back to null. -/
theorem C8_interact_toggle (d : ℕ → PlatformDraws) (key : String) (s : GameState)
    (hk : toLowerCase key = "e") (hA : s.isActive = true)
    (hP : truthy s.activePanel = false) :
    truthy (keyDown d key (keyDown d key s)).activePanel = false ∧
    ∀ (rest : List Platform) (p : Platform),
      s.platforms = fixedPlatforms ++ rest → (∀ q ∈ rest, q.door = none) →
      p ∈ doorPlatforms → s.isDead = false → s.player.isJumping = false → onDoor s p →
      (keyDown d key s).activePanel = p.door ∧
      (keyDown d key (keyDown d key s)).activePanel = none := by
  have h1 := keyDown_interact d key s hA hk
  have hA1 : (keyDown d key s).isActive = true := by
    rw [h1, interact_of_closed _ (by rw [recordKey_activePanel]; exact hP),
      checkInteraction_eq]
    show (recordKey "e" s).isActive = true
    rw [recordKey_isActive]; exact hA
  have h2 := keyDown_interact d key (keyDown d key s) hA1 hk
  constructor
  · rw [h2, h1]
    exact interact_twice s hP
  · intro rest p hpl hrest hp hD hJ hon
    have hP0 : truthy (recordKey "e" s).activePanel = false := by
      rw [recordKey_activePanel]; exact hP
    have hfirst : (keyDown d key s).activePanel = p.door := by
      rw [h1, interact_of_closed _ hP0]
      apply checkInteraction_on_door _ rest p hP0
      · rw [recordKey_isDead]; exact hD
      · rw [recordKey_player]; exact hJ
      · rw [recordKey_platforms]; exact hpl
      · exact hrest
      · exact hp
      · exact (onDoor_congr s (recordKey "e" s) p (recordKey_player _ _)
          (recordKey_cameraX _ _)).2 hon
    refine ⟨hfirst, ?_⟩
    obtain ⟨k, hd, _, hne⟩ := doorPlatforms_door p hp
    rw [h2, interact_of_open _ (by
      rw [recordKey_activePanel, hfirst, hd]
      simp [truthy, hne]), closeInfo_activePanel]


/-- C8, witness: the key E pressed twice while standing on the about platform. -/
theorem C8_interact_toggle_witness :
    toLowerCase "E" = "e" ∧ onAboutState.isActive = true ∧
    truthy onAboutState.activePanel = false ∧
    (keyDown (fun _ => zeroPlatformDraws) "E" onAboutState).activePanel = some "about" ∧
    (keyDown (fun _ => zeroPlatformDraws) "E"
      (keyDown (fun _ => zeroPlatformDraws) "E" onAboutState)).activePanel = none := by
  obtain ⟨hA, hP, hD, hJ, hon, rest, hpl, hrest⟩ := onAboutState_facts
  have h := (C8_interact_toggle (fun _ => zeroPlatformDraws) "E" onAboutState (by decide) hA
    hP).2 rest aboutPlatform hpl hrest (by simp [doorPlatforms]) hD hJ hon
  exact ⟨by decide, hA, hP, h.1, h.2⟩

/-- C9. A Space key-down on an active game with a grounded player sets
`velocityY` to `jumpPower` and `isJumping` to true and changes nothing else;
with an airborne player it leaves the whole state unchanged. In every state
reached from construction `jumpPower` is -16. -/
theorem C9_jump_request (d : ℕ → PlatformDraws) (s : GameState) (hA : s.isActive = true) :
    (s.player.isJumping = false →
      keyDown d " " s =
        { s with
          player := { s.player with velocityY := s.player.jumpPower, isJumping := true } }) ∧
    (s.player.isJumping = true → keyDown d " " s = s) ∧
    (∀ (w h : ℚ) (d0 : InitDraws) (es : List Event),
      (run es (construct w h d0)).player.jumpPower = -16) := by
  refine ⟨?_, ?_, ?_⟩
  · intro hj
    rw [keyDown_space d s hA, if_pos hj, jump_eq]
  · intro hj
    rw [keyDown_space d s hA, if_neg (by rw [hj]; decide)]
  · intro w h d0 es
    exact (run_playerConstants es _ (construct_playerConstants w h d0)).2.2.2.2

/-- C9, witness: a jump right after game start. -/
theorem C9_jump_request_witness :
    (start (construct 800 600 zeroInit)).isActive = true ∧
    (start (construct 800 600 zeroInit)).player.isJumping = false ∧
    (keyDown (fun _ => zeroPlatformDraws) " " (start (construct 800 600 zeroInit))).player.velocityY
      = -16 ∧
    (keyDown (fun _ => zeroPlatformDraws) " " (start (construct 800 600 zeroInit))).player.isJumping
      = true := by
  have hj : (start (construct 800 600 zeroInit)).player.isJumping = false := by
    rw [start_player, construct_player]; rfl
  have h := (C9_jump_request (fun _ => zeroPlatformDraws) (start (construct 800 600 zeroInit))
    (start_isActive _)).1 hj
  refine ⟨start_isActive _, hj, ?_, ?_⟩
  · rw [h]
    show (start (construct 800 600 zeroInit)).player.jumpPower = -16
    rw [start_player, construct_player]; rfl
  · rw [h]

/-- C10 (amended). An interact request (a key whose lower case is `e`) on an
inactive game changes nothing. On an active game with no panel open and the
player airborne or the game Dead it is ignored: the state, active panel
included, is unchanged except that the key `e` is recorded as pressed. With a
panel open it is not ignored: it closes the panel, so `activePanel` becomes
null. -/
theorem C10_interact_ignored (d : ℕ → PlatformDraws) (key : String) (s : GameState)
    (hk : toLowerCase key = "e") :
    (s.isActive = false → keyDown d key s = s) ∧
    (s.isActive = true → truthy s.activePanel = false →
      (s.player.isJumping = true ∨ s.isDead = true) →
      keyDown d key s = recordKey "e" s ∧
      (keyDown d key s).activePanel = s.activePanel ∧
      keyDown d key s = { s with keys := if "e" ∈ s.keys then s.keys else "e" :: s.keys }) ∧
    (s.isActive = true → truthy s.activePanel = true →
      keyDown d key s = closeInfo (recordKey "e" s) ∧
      (keyDown d key s).activePanel = none ∧
      (keyDown d key s).activePanel ≠ s.activePanel) := by
  refine ⟨fun hA => keyDown_inactive d key s hA, ?_, ?_⟩
  · intro hA hP hc
    have h1 : keyDown d key s = recordKey "e" s := by
      rw [keyDown_interact d key s hA hk,
        interact_of_closed _ (by rw [recordKey_activePanel]; exact hP)]
      rcases hc with hj | hD
      · exact checkInteraction_of_airborne _ (by rw [recordKey_player]; exact hj)
      · exact checkInteraction_of_dead _ (by rw [recordKey_isDead]; exact hD)
    refine ⟨h1, by rw [h1, recordKey_activePanel], ?_⟩
    rw [h1]; unfold recordKey; rfl
  · intro hA hP
    have h1 : keyDown d key s = closeInfo (recordKey "e" s) := by
      rw [keyDown_interact d key s hA hk,
        interact_of_open _ (by rw [recordKey_activePanel]; exact hP)]
    refine ⟨h1, by rw [h1, closeInfo_activePanel], ?_⟩
    rw [h1, closeInfo_activePanel]
    intro hn
    rw [← hn] at hP
    exact Bool.noConfusion hP

/-- C10, witness: the key E pressed while the about panel is open. -/
theorem C10_interact_ignored_witness :
    toLowerCase "E" = "e" ∧ panelOpenState.isActive = true ∧
    truthy panelOpenState.activePanel = true ∧
    (keyDown (fun _ => zeroPlatformDraws) "E" panelOpenState).activePanel = none :=
  ⟨by decide, start_isActive _, by decide,
   ((C10_interact_ignored (fun _ => zeroPlatformDraws) "E" panelOpenState (by decide)).2.2
      (start_isActive _) (by decide)).2.1⟩

/-- C10, counterexample: with the about panel open an interact request
changes the active panel. -/
theorem C10_counterexample :
    panelOpenState.isActive = true ∧ truthy panelOpenState.activePanel = true ∧
    (keyDown (fun _ => zeroPlatformDraws) "e" panelOpenState).activePanel ≠
      panelOpenState.activePanel := by
  refine ⟨start_isActive _, by decide, ?_⟩
  rw [keyDown_interact _ "e" panelOpenState
      (show panelOpenState.isActive = true from start_isActive _) (by decide),
    interact_of_open _ (by rw [recordKey_activePanel]; decide), closeInfo_activePanel]
  decide

/-- C11. An update tick of a Dead state returns the state unchanged, in every
field: player, camera, platforms, frontier, coins, clouds, distance, coin
counter, frame counter, pressed keys and panel. -/
theorem C11_dead_is_frozen (d : TickDraws) (s : GameState) (h : s.isDead = true) :
    update d s = s := by
  apply update_not_running
  intro hr
  have h2 := hr.2
  rw [h] at h2
  exact Bool.noConfusion h2

/-- C11, witness: the Dead state after 22 idle ticks on an 800 by 300 canvas. -/
theorem C11_dead_is_frozen_witness :
    (ticks (fun _ => zeroTick) 22 (start (construct 800 300 zeroInit))).isDead = true ∧
    update zeroTick (ticks (fun _ => zeroTick) 22 (start (construct 800 300 zeroInit))) =
      ticks (fun _ => zeroTick) 22 (start (construct 800 300 zeroInit)) :=
  ⟨((idle_run 800 300 zeroInit (fun _ => zeroTick) (by norm_num) zeroInit_valid
      zeroInit_coins_valid (fun _ => zeroTick_valid)).1 (by norm_num) 22 (le_refl 22)).1,
   C11_dead_is_frozen zeroTick _
    ((idle_run 800 300 zeroInit (fun _ => zeroTick) (by norm_num) zeroInit_valid
      zeroInit_coins_valid (fun _ => zeroTick_valid)).1 (by norm_num) 22 (le_refl 22)).1⟩

/-- C12 (amended). For a rounding `fl` of the arithmetic that behaves like
binary64 rounding to nearest (or like exact arithmetic), every frontier value
and draws between 0 and the largest binary64 number below 1, one synthesis
appends exactly one platform `p`: `p.x` is the rounded sum of the frontier and
a gap in `[100, 200]`, `p.y` is in `[350, 470]`, `p.width` in `[90, 160]`, the
height is 30, the type is one of block, question and brick (read at the index
`floor (fl (r * 3))`), and there is no door. The new frontier is the rounded
sum `p.x + p.width`; for an old frontier from 0 to `2 ^ 50` it exceeds the old
one by at least 189 and at most 361. At most two coins are appended. With no
rounding the synthesis is `generateNewPlatform`. -/
theorem C12_synthesis_rounded (fl : ℚ → ℚ) (d : PlatformDraws) (s : GameState)
    (hfl : RoundsLikeDouble fl) (hd : d.validDouble) :
    (∃ p cs gap, (generateNewPlatformFl fl d s).platforms = s.platforms ++ [p] ∧
      100 ≤ gap ∧ gap ≤ 200 ∧ p.x = fl (s.lastPlatformX + gap) ∧
      fl (s.lastPlatformX + 100) ≤ p.x ∧ p.x ≤ fl (s.lastPlatformX + 200) ∧
      350 ≤ p.y ∧ p.y ≤ 470 ∧ 90 ≤ p.width ∧ p.width ≤ 160 ∧ p.height = 30 ∧
      (p.type = some "block" ∨ p.type = some "question" ∨ p.type = some "brick") ∧
      p.type = pick ["block", "question", "brick"] (fl (d.type * 3)) ∧
      p.door = none ∧
      (generateNewPlatformFl fl d s).lastPlatformX = fl (p.x + p.width) ∧
      fl (p.x + 90) ≤ (generateNewPlatformFl fl d s).lastPlatformX ∧
      (generateNewPlatformFl fl d s).lastPlatformX ≤ fl (p.x + 160) ∧
      (0 ≤ s.lastPlatformX →
        (s.lastPlatformX + 100) * (1 - 1 / 2 ^ 53) ≤ p.x ∧
        p.x ≤ (s.lastPlatformX + 200) * (1 + 1 / 2 ^ 53)) ∧
      (0 ≤ s.lastPlatformX → s.lastPlatformX ≤ 2 ^ 50 →
        s.lastPlatformX + 189 ≤ (generateNewPlatformFl fl d s).lastPlatformX ∧
        (generateNewPlatformFl fl d s).lastPlatformX ≤ s.lastPlatformX + 361) ∧
      (generateNewPlatformFl fl d s).floatingCoins = s.floatingCoins ++ cs ∧ cs.length ≤ 2) ∧
    generateNewPlatformFl id d s = generateNewPlatform d s := by
  refine ⟨?_, generateNewPlatformFl_id d s⟩
  obtain ⟨hg, hy, hw, ht⟩ := hd
  obtain ⟨g0, g1⟩ := rounded_affine_bounds fl hfl d.gap 100 100 hg (by norm_num)
  obtain ⟨y0, y1⟩ := rounded_affine_bounds fl hfl d.y 350 120 hy (by norm_num)
  obtain ⟨w0, w1⟩ := rounded_affine_bounds fl hfl d.width 90 70 hw (by norm_num)
  obtain ⟨hm, hn, h3, hr⟩ := hfl
  obtain ⟨cs, hc1, hc2, _⟩ := generateNewPlatformFl_floatingCoins fl d s
  norm_num at g0 g1 y0 y1 w0 w1
  have ht0 : 0 ≤ fl (d.type * 3) := by
    have := hm 0 (d.type * 3) (by linarith [ht.1])
    have h0 := hn 0 (by omega)
    simp only [Nat.cast_zero] at h0
    rwa [h0] at this
  have ht3 : fl (d.type * 3) < 3 := lt_of_le_of_lt (hm _ _ (by linarith [ht.2])) h3
  have hxl : fl (s.lastPlatformX + 100) ≤ fl (s.lastPlatformX + fl (100 + fl (d.gap * 100))) :=
    hm _ _ (by linarith)
  have hxu : fl (s.lastPlatformX + fl (100 + fl (d.gap * 100))) ≤ fl (s.lastPlatformX + 200) :=
    hm _ _ (by linarith)
  have hnl : fl (fl (s.lastPlatformX + fl (100 + fl (d.gap * 100))) + 90) ≤
      fl (fl (s.lastPlatformX + fl (100 + fl (d.gap * 100))) + fl (90 + fl (d.width * 70))) :=
    hm _ _ (by linarith)
  have hnu : fl (fl (s.lastPlatformX + fl (100 + fl (d.gap * 100))) + fl (90 + fl (d.width * 70)))
      ≤ fl (fl (s.lastPlatformX + fl (100 + fl (d.gap * 100))) + 160) :=
    hm _ _ (by linarith)
  have hrel : 0 ≤ s.lastPlatformX →
      (s.lastPlatformX + 100) * (1 - 1 / 2 ^ 53) ≤
        fl (s.lastPlatformX + fl (100 + fl (d.gap * 100))) ∧
      fl (s.lastPlatformX + fl (100 + fl (d.gap * 100))) ≤
        (s.lastPlatformX + 200) * (1 + 1 / 2 ^ 53) := by
    intro hL
    exact ⟨le_trans (hr (s.lastPlatformX + 100) (by linarith)).1 hxl,
      le_trans hxu (hr (s.lastPlatformX + 200) (by linarith)).2⟩
  refine ⟨_, cs, fl (100 + fl (d.gap * 100)), generateNewPlatformFl_platforms fl d s, g0, g1,
    rfl, hxl, hxu, y0, y1, w0, w1, rfl, pick_types_of_lt _ ht0 ht3, rfl, rfl,
    generateNewPlatformFl_lastPlatformX fl d s, ?_, ?_, hrel, ?_, hc1, hc2⟩
  · rw [generateNewPlatformFl_lastPlatformX]
    exact hnl
  · rw [generateNewPlatformFl_lastPlatformX]
    exact hnu
  · intro hL hb
    rw [generateNewPlatformFl_lastPlatformX]
    obtain ⟨a1, a2⟩ := hrel hL
    have hx1 : 1 ≤ fl (s.lastPlatformX + fl (100 + fl (d.gap * 100))) + 90 := by
      norm_num at a1 ⊢
      linarith
    have a3 := le_trans (hr _ hx1).1 hnl
    have a4 := le_trans hnu
      (hr (fl (s.lastPlatformX + fl (100 + fl (d.gap * 100))) + 160) (by linarith)).2
    norm_num at hb a1 a2 a3 a4 ⊢
    constructor <;> linarith

/-- C12 (amended), witness: the synthesis in binary64 arithmetic with every draw
the largest one, from the frontier 1000. -/
theorem C12_synthesis_rounded_witness :
    RoundsLikeDouble roundDouble ∧ topDraws.validDouble ∧
    (∃ p cs gap,
      (generateNewPlatformFl roundDouble topDraws firstSynthesisState).platforms =
        firstSynthesisState.platforms ++ [p] ∧
      100 ≤ gap ∧ gap ≤ 200 ∧ p.x = roundDouble (firstSynthesisState.lastPlatformX + gap) ∧
      roundDouble (firstSynthesisState.lastPlatformX + 100) ≤ p.x ∧
      p.x ≤ roundDouble (firstSynthesisState.lastPlatformX + 200) ∧
      350 ≤ p.y ∧ p.y ≤ 470 ∧ 90 ≤ p.width ∧ p.width ≤ 160 ∧ p.height = 30 ∧
      (p.type = some "block" ∨ p.type = some "question" ∨ p.type = some "brick") ∧
      p.type = pick ["block", "question", "brick"] (roundDouble (topDraws.type * 3)) ∧
      p.door = none ∧
      (generateNewPlatformFl roundDouble topDraws firstSynthesisState).lastPlatformX =
        roundDouble (p.x + p.width) ∧
      roundDouble (p.x + 90) ≤
        (generateNewPlatformFl roundDouble topDraws firstSynthesisState).lastPlatformX ∧
      (generateNewPlatformFl roundDouble topDraws firstSynthesisState).lastPlatformX ≤
        roundDouble (p.x + 160) ∧
      (0 ≤ firstSynthesisState.lastPlatformX →
        (firstSynthesisState.lastPlatformX + 100) * (1 - 1 / 2 ^ 53) ≤ p.x ∧
        p.x ≤ (firstSynthesisState.lastPlatformX + 200) * (1 + 1 / 2 ^ 53)) ∧
      (0 ≤ firstSynthesisState.lastPlatformX → firstSynthesisState.lastPlatformX ≤ 2 ^ 50 →
        firstSynthesisState.lastPlatformX + 189 ≤
          (generateNewPlatformFl roundDouble topDraws firstSynthesisState).lastPlatformX ∧
        (generateNewPlatformFl roundDouble topDraws firstSynthesisState).lastPlatformX ≤
          firstSynthesisState.lastPlatformX + 361) ∧
      (generateNewPlatformFl roundDouble topDraws firstSynthesisState).floatingCoins =
        firstSynthesisState.floatingCoins ++ cs ∧ cs.length ≤ 2) ∧
    generateNewPlatformFl id topDraws firstSynthesisState =
      generateNewPlatform topDraws firstSynthesisState :=
  ⟨roundsLikeDouble_roundDouble, topDraws_validDouble,
   C12_synthesis_rounded roundDouble topDraws firstSynthesisState roundsLikeDouble_roundDouble
     topDraws_validDouble⟩

/-- C12, counterexample: with every draw the largest binary64 number below 1,
so in `[0, 1)`, the synthesis in binary64 arithmetic from the frontier 1000
appends the platform at `x = 1200`, `y = 470` of width 160 and sets the frontier
to 1360: the gap is 200, not less, `y` is 470, not less, the width is 160, not
less, and the frontier advances by 360, not by less. -/
theorem C12_counterexample :
    topDraws.valid ∧ firstSynthesisState.lastPlatformX = 1000 ∧
    (generateNewPlatformFl roundDouble topDraws firstSynthesisState).platforms =
      firstSynthesisState.platforms ++ [newPlatform 1200 470 160 (some "brick")] ∧
    (generateNewPlatformFl roundDouble topDraws firstSynthesisState).lastPlatformX = 1360 ∧
    ¬ ((newPlatform 1200 470 160 (some "brick")).x - firstSynthesisState.lastPlatformX < 200) ∧
    ¬ ((newPlatform 1200 470 160 (some "brick")).y < 470) ∧
    ¬ ((newPlatform 1200 470 160 (some "brick")).width < 160) ∧
    ¬ ((generateNewPlatformFl roundDouble topDraws firstSynthesisState).lastPlatformX <
        firstSynthesisState.lastPlatformX + 360) := by
  obtain ⟨hp, hl⟩ := generateNewPlatformFl_top
  refine ⟨topDraws_valid, rfl, hp, hl, ?_, ?_, ?_, ?_⟩
  · rw [firstSynthesisState_lastPlatformX]
    show ¬ ((1200 : ℚ) - 1000 < 200)
    norm_num
  · show ¬ ((470 : ℚ) < 470)
    norm_num
  · show ¬ ((160 : ℚ) < 160)
    norm_num
  · rw [hl, firstSynthesisState_lastPlatformX]
    norm_num

/-- C13. With valid draws, in every state reached from construction by any
sequence of events (update ticks, respawns, key events, ...) the platform list
is in strictly ascending order of `x` and every platform ends at or before
`lastPlatformX`; and an update tick of any state keeps the old platform list
as a prefix of the new one and does not decrease `lastPlatformX`. -/
theorem C13_platforms_sorted (w h : ℚ) (d0 : InitDraws) (es : List Event)
    (hd0 : ∀ i < 50, (d0.platforms i).valid) (hes : ∀ e ∈ es, e.valid) :
    (run es (construct w h d0)).platforms.Pairwise (fun a b => a.x < b.x) ∧
    (∀ p ∈ (run es (construct w h d0)).platforms,
      p.x + p.width ≤ (run es (construct w h d0)).lastPlatformX) ∧
    ∀ (s : GameState) (d : TickDraws), (∀ i < 3, (d.platforms i).valid) →
      s.platforms <+: (update d s).platforms ∧ s.lastPlatformX ≤ (update d s).lastPlatformX := by
  obtain ⟨h1, h2⟩ := run_ordered es _ hes (construct_ordered w h d0 hd0)
  exact ⟨h1, fun p hp => (h2 p hp).2,
    fun s d hd => ⟨update_platforms_appended d s, update_lastPlatformX_mono d s hd⟩⟩

/-- C13, witness: the state after game start and one tick. -/
theorem C13_platforms_sorted_witness :
    (run [Event.start, Event.tick zeroTick] (construct 800 600 zeroInit)).platforms.Pairwise
      (fun a b => a.x < b.x) :=
  (C13_platforms_sorted 800 600 zeroInit [Event.start, Event.tick zeroTick] zeroInit_valid
    (by
      intro e he
      simp only [List.mem_cons, List.mem_singleton, List.not_mem_nil, or_false] at he
      rcases he with rfl | rfl
      · trivial
      · exact zeroTick_valid)).1

/-- C14 (amended). Collision resolution is first-match-wins: in an update tick
of a Running game, if the player as it is after gravity meets the collision
condition for a platform `p` and for no platform before `p` in the list, the
player ends the tick snapped onto `p` (`y = p.y - height`, velocity 0,
grounded), whatever platforms after `p` meet the condition as well. -/
theorem C14_first_match_wins (d : TickDraws) (s : GameState) (hr : Running s)
    (pre post : List Platform) (p : Platform) (hpl : s.platforms = pre ++ p :: post)
    (hpre : ∀ q ∈ pre,
      ¬ lands (update d s).cameraX (gravityStep (cameraStep (moveStep s))).player q)
    (hp : lands (update d s).cameraX (gravityStep (cameraStep (moveStep s))).player p) :
    (update d s).player.y = p.y - s.player.height ∧
    (update d s).player.velocityY = 0 ∧ (update d s).player.isJumping = false := by
  obtain ⟨hv, hj, hy⟩ := update_player_vertical d s hr
  have hcam : (update d s).cameraX = (gravityStep (cameraStep (moveStep s))).cameraX := by
    rw [update_cameraX d s hr, gravityStep_cameraX, cameraStep_cameraX, moveStep_canvasWidth]
  rw [hcam] at hpre hp
  rw [hv, hj, hy, collisionStep_player, gravityStep_platforms, cameraStep_platforms,
    moveStep_platforms, hpl, foldl_collide_first _ pre post p _ hpre hp]
  refine ⟨?_, rfl, rfl⟩
  show p.y - (gravityStep (cameraStep (moveStep s))).player.height = _
  rw [gravityStep_player_height, cameraStep_player, moveStep_player_height]

/-- C14, witness: the player enters the bands of the ground and of a block at once. -/
theorem C14_first_match_wins_witness :
    Running twoBandsState ∧ twoBandsState.platforms = [] ++ groundPlatform :: [upperBlock] ∧
    (update zeroTick twoBandsState).player.y = groundPlatform.y - twoBandsState.player.height :=
  ⟨twoBandsState_facts.1, rfl,
   (C14_first_match_wins zeroTick twoBandsState twoBandsState_facts.1 [] [upperBlock]
      groundPlatform rfl (by simp) twoBandsState_lands.1).1⟩

/-- C14, counterexample: the player meets the collision condition for the
ground and for a block listed after it, and does not end the tick on the
block, the last of the two. -/
theorem C14_counterexample :
    Running twoBandsState ∧ twoBandsState.platforms = [groundPlatform, upperBlock] ∧
    lands (update zeroTick twoBandsState).cameraX
      (gravityStep (cameraStep (moveStep twoBandsState))).player groundPlatform ∧
    lands (update zeroTick twoBandsState).cameraX
      (gravityStep (cameraStep (moveStep twoBandsState))).player upperBlock ∧
    (update zeroTick twoBandsState).player.y ≠ upperBlock.y - twoBandsState.player.height := by
  refine ⟨twoBandsState_facts.1, rfl, twoBandsState_lands.1, twoBandsState_lands.2, ?_⟩
  obtain ⟨hv, hj, hy⟩ := update_player_vertical zeroTick twoBandsState twoBandsState_facts.1
  have hcam : (update zeroTick twoBandsState).cameraX =
      (gravityStep (cameraStep (moveStep twoBandsState))).cameraX := by
    rw [update_cameraX _ _ twoBandsState_facts.1, gravityStep_cameraX, cameraStep_cameraX,
      moveStep_canvasWidth]
  have hl := twoBandsState_lands.1
  rw [hcam] at hl
  rw [hy, collisionStep_player, gravityStep_platforms, cameraStep_platforms,
    moveStep_platforms,
    show twoBandsState.platforms = [] ++ groundPlatform :: [upperBlock] from rfl,
    foldl_collide_first _ [] [upperBlock] groundPlatform _ (by simp) hl]
  show groundPlatform.y - (gravityStep (cameraStep (moveStep twoBandsState))).player.height ≠
    upperBlock.y - twoBandsState.player.height
  rw [gravityStep_player_height, cameraStep_player, moveStep_player_height]
  show (550 : ℚ) - 48 ≠ 540 - 48
  norm_num

/-- C15 (amended). With `jumpPower = -16` and `gravity = 4/5`, a jump of a
grounded player in a Running game whose take-off height is within the canvas
bound is followed, for `k ≤ 20` update ticks, by `velocityY = -16 + 4/5 k` and
`y = y0 - 16 k + 2/5 k (k + 1)`, whatever the platforms: no collision can occur
on the way up. The apex is 152 units above the take-off height, reached after
19 ticks and held at tick 20, where `velocityY = 0`; the player is never
higher during these ticks. -/
theorem C15_jump_apex (d : ℕ → PlatformDraws) (ds : ℕ → TickDraws) (s : GameState)
    (hr : Running s) (hJ : s.player.isJumping = false) (hjp : s.player.jumpPower = -16)
    (hg : s.player.gravity = 4 / 5) (hy : s.player.y ≤ s.canvasHeight + 100) :
    (∀ k ≤ 20,
      (ticks ds k (keyDown d " " s)).player.velocityY = -16 + 4 / 5 * (k : ℚ) ∧
      (ticks ds k (keyDown d " " s)).player.y =
        s.player.y - 16 * (k : ℚ) + 2 / 5 * (k : ℚ) * ((k : ℚ) + 1) ∧
      s.player.y - 152 ≤ (ticks ds k (keyDown d " " s)).player.y) ∧
    (ticks ds 20 (keyDown d " " s)).player.velocityY = 0 ∧
    (ticks ds 20 (keyDown d " " s)).player.y = s.player.y - 152 ∧
    (ticks ds 19 (keyDown d " " s)).player.y = s.player.y - 152 := by
  have hj : keyDown d " " s = jump s := by
    rw [keyDown_space d s hr.1, if_pos hJ]
  have hR := jump_rising s hr hjp hg
  have hH : s.player.y ≤ (jump s).canvasHeight + 100 := by rw [jump_canvasHeight]; exact hy
  rw [hj]
  have hall : ∀ k ≤ 20,
      (ticks ds k (jump s)).player.velocityY = -16 + 4 / 5 * (k : ℚ) ∧
      (ticks ds k (jump s)).player.y =
        s.player.y - 16 * (k : ℚ) + 2 / 5 * (k : ℚ) * ((k : ℚ) + 1) ∧
      s.player.y - 152 ≤ (ticks ds k (jump s)).player.y := by
    intro k hk
    obtain ⟨_, _, h3, h4⟩ := ticks_rising ds (jump s) s.player.y k hk hH hR
    exact ⟨h3, h4, by rw [h4]; exact rising_height _ k⟩
  refine ⟨hall, ?_, ?_, ?_⟩
  · rw [(hall 20 (le_refl 20)).1]; norm_num
  · rw [(hall 20 (le_refl 20)).2.1]; norm_num; ring
  · rw [(hall 19 (by norm_num)).2.1]; norm_num; ring


/-- C15, witness: a jump from the ground platform. -/
theorem C15_jump_apex_witness :
    Running landedState ∧ landedState.player.isJumping = false ∧
    (ticks (fun _ => zeroTick) 20
      (keyDown (fun _ => zeroPlatformDraws) " " landedState)).player.velocityY = 0 ∧
    (ticks (fun _ => zeroTick) 20
      (keyDown (fun _ => zeroPlatformDraws) " " landedState)).player.y =
        landedState.player.y - 152 := by
  obtain ⟨hW, hL, hH, hC⟩ := landedState_facts
  have h := C15_jump_apex (fun _ => zeroPlatformDraws) (fun _ => zeroTick) landedState
    ⟨hW.1, hL.1⟩ hL.2.2.2 hC.2.2.2.2 hC.2.2.2.1 (by rw [hL.2.2.1, hH]; norm_num)
  exact ⟨⟨hW.1, hL.1⟩, hL.2.2.2, h.2.1, h.2.2.1⟩

/-- C15, counterexample: after a jump from the ground platform no number of
update ticks brings the player 160 units above the take-off height. -/
theorem C15_counterexample :
    Running landedState ∧ landedState.player.isJumping = false ∧
    landedState.player.jumpPower = -16 ∧ landedState.player.gravity = 4 / 5 ∧
    ¬ ∃ N, (ticks (fun _ => zeroTick) N
      (keyDown (fun _ => zeroPlatformDraws) " " landedState)).player.y ≤
        landedState.player.y - 160 := by
  obtain ⟨hW, hL, hH, hC⟩ := landedState_facts
  refine ⟨⟨hW.1, hL.1⟩, hL.2.2.2, hC.2.2.2.2, hC.2.2.2.1, ?_⟩
  rintro ⟨N, hN⟩
  have hj : keyDown (fun _ => zeroPlatformDraws) " " landedState = jump landedState := by
    rw [keyDown_space _ _ hW.1, if_pos hL.2.2.2]
  have hF : Flight 0 (jump landedState) := by
    rw [jump_eq]
    refine ⟨hL.1, ?_, ?_⟩
    · show landedState.player.jumpPower = _
      rw [hC.2.2.2.2]; norm_num
    · show landedState.player.y = _
      rw [hL.2.2.1]; norm_num
  have h := (ticks_flight (fun _ => zeroTick) (jump landedState) N (jump_idleWorld _ hW)
    (fun _ => zeroTick_valid) (by rw [jump_canvasHeight, hH]; norm_num) hF).2
  rw [hj, hL.2.2.1] at hN
  linarith

/-- C16. With valid draws, the coin list after `respawn` has at most 100
coins, all uncollected and each with `x > 1000`; the coin list after
construction with the same synthesis draws is that list followed by the 30
coins of `generateInitialCoins`, so it has at least 30 coins; and the `i`-th of
these coins is uncollected with `x` in `[250 i + 200, 250 i + 300)`. -/
theorem C16_respawn_coins (w h : ℚ) (d0 : InitDraws) (s : GameState)
    (hd : ∀ i < 50, (d0.platforms i).valid) (hc : ∀ i < 30, unit (d0.coins i).x) :
    (respawn d0.platforms s).floatingCoins.length ≤ 100 ∧
    (∀ c ∈ (respawn d0.platforms s).floatingCoins, c.collected = false ∧ 1000 < c.x) ∧
    (construct w h d0).floatingCoins =
      (respawn d0.platforms s).floatingCoins ++
        (List.range 30).map (fun i => initialCoin i (d0.coins i)) ∧
    30 ≤ (construct w h d0).floatingCoins.length ∧
    ((List.range 30).map (fun i => initialCoin i (d0.coins i))).length = 30 ∧
    ∀ i : ℕ, i < 30 → 250 * (i : ℚ) + 200 ≤ (initialCoin i (d0.coins i)).x ∧
      (initialCoin i (d0.coins i)).x < 250 * (i : ℚ) + 300 ∧
      (initialCoin i (d0.coins i)).collected = false := by
  obtain ⟨h1, h2⟩ := respawn_floatingCoins d0.platforms s
  have h3 := respawn_coins_positions d0.platforms s hd
  have h4 := construct_coins_respawn w h d0 s
  refine ⟨h2, fun c hcm => ⟨h1 c hcm, h3 c hcm⟩, h4, ?_, by simp,
    fun i hi => initialCoin_fields i _ (hc i hi)⟩
  rw [h4, List.length_append]
  simp

/-- C16, witness: construction and respawn with all draws zero. -/
theorem C16_respawn_coins_witness :
    (construct 800 600 zeroInit).floatingCoins =
      (respawn zeroInit.platforms (construct 800 600 zeroInit)).floatingCoins ++
        (List.range 30).map (fun i => initialCoin i (zeroInit.coins i)) :=
  (C16_respawn_coins 800 600 zeroInit (construct 800 600 zeroInit) zeroInit_valid
    zeroInit_coins_valid).2.2.1

end PortfolioGame
